import Mathlib

/-!
# Survival-Game: terrain, player, inventory and combat logic

A shallow embedding of the game logic of `src/js/components/*.js` and
`src/js/game.js`.

* JavaScript numbers that carry positions, speeds, health and oxygen are read
  over an arbitrary linearly ordered field `α` (the theorems about the height
  function use `ℝ`); counters and millisecond clocks are integers.
* The `Math` members `sin`, `cos`, `sqrt` and `PI` are passed in as a `JSMath`
  record, `realMath` being the one over the reals.
* Every class is a structure holding the properties its methods assign; a
  property that only the constructor sets, to a literal, is a constant.
  A method is a function from the state before the call to the state after it;
  whatever the browser or the engine supplies during a call (the clock, the
  animation ratio, random numbers, the ray pick result) is an argument.
* Engine side effects (meshes, materials, GUI widgets, console output) are not
  part of the state. Calls whose number matters (`dropAllItems`, `setTimeout`)
  are appended to the `trace` of the game.
-/

namespace SurvivalGame

/-! ## Numbers and vectors -/

/-- The members of the JavaScript `Math` object the game applies to non-integers. -/
structure JSMath (α : Type) where
  sin : α → α
  cos : α → α
  sqrt : α → α
  pi : α

/-- The `Math` functions over the real numbers. -/
noncomputable def realMath : JSMath ℝ := ⟨Real.sin, Real.cos, Real.sqrt, Real.pi⟩

/-- A position `{ x, y, z }`. -/
structure Vec3 (α : Type) where
  x : α
  y : α
  z : α

/-- The engine's `BABYLON.Vector3.Distance`: the Euclidean distance of two points. -/
def Vec3.distance {α : Type} [Field α] (M : JSMath α) (a b : Vec3 α) : α :=
  M.sqrt ((a.x - b.x) ^ 2 + (a.y - b.y) ^ 2 + (a.z - b.z) ^ 2)

/-- The result of `scene.pickWithRay` when it hits: the picked mesh and the mesh it is
a child of, if any. Meshes are known by an identifying number. -/
structure Pick where
  pickedMesh : Nat
  parent : Option Nat

section Terrain

variable {α : Type} [LinearOrderedField α]

/-! ## `terrain.js` -/

/-- A chunk map value `{ mesh: ground }`: the ground mesh, known by its world position. -/
structure Chunk (α : Type) where
  meshX : α
  meshZ : α

/-- The properties of `TerrainSystem` that its methods assign. The chunk map is a
JavaScript `Map` in insertion order; its string key `"chunkX,chunkZ"` is the pair
of integers it prints. -/
structure TerrainSystem (α : Type) where
  chunkMap : List ((Int × Int) × Chunk α)
  currentChunkX : Int
  currentChunkZ : Int
  spawnPosition : Vec3 α
  spawnHeight : α

namespace TerrainSystem

/-- The constructor's `this.chunkSize = 32`. -/
def chunkSize : α := 32

/-- The constructor's `this.renderDistance = 2`. -/
def renderDistance : Int := 2

/-- The constructor's `this.spawnAreaRadius = 20`. -/
def spawnAreaRadius : α := 20

/-- The constructor's `this.waterHeight = 1.0`. -/
def waterHeight : α := 1.0

/-- The keys of the chunk map, in insertion order. -/
def keys (t : TerrainSystem α) : List (Int × Int) := t.chunkMap.map Prod.fst

/-- The method `createFlatSpawnArea`. -/
def createFlatSpawnArea (t : TerrainSystem α) : TerrainSystem α :=
  let baseHeight : α := 2
  { t with spawnPosition := { x := 0, y := baseHeight, z := 0 }, spawnHeight := baseHeight }

/-- The method `generateChunk`: nothing when the key is present, otherwise a new
ground mesh at `(chunkX * chunkSize, chunkZ * chunkSize)` is stored under the key.
The props that `populateChunk` scatters live in the engine and in the
inventory system's harvestable list, not in the terrain state. -/
def generateChunk (t : TerrainSystem α) (chunkX chunkZ : Int) : TerrainSystem α :=
  let key := (chunkX, chunkZ)
  if key ∈ t.keys then t
  else
    { t with chunkMap := t.chunkMap ++
        [(key, { meshX := (chunkX : α) * chunkSize, meshZ := (chunkZ : α) * chunkSize })] }

/-- The values `-renderDistance, ..., renderDistance` a chunk loop runs through. -/
def loopOffsets : List Int :=
  (List.range (2 * renderDistance + 1).toNat).map (fun i => (i : Int) - renderDistance)

/-- The double loop shared by `generateInitialChunks` and `updateChunks`. -/
def generateAround (t : TerrainSystem α) : TerrainSystem α :=
  loopOffsets.foldl
    (fun t x => loopOffsets.foldl
      (fun t z => t.generateChunk (t.currentChunkX + x) (t.currentChunkZ + z)) t) t

/-- The method `generateInitialChunks`. -/
def generateInitialChunks (t : TerrainSystem α) : TerrainSystem α :=
  t.createFlatSpawnArea.generateAround

/-- The properties as the constructor assigns them before it generates the first
chunks; `spawnHeight` is unset until `createFlatSpawnArea` runs. -/
def blank : TerrainSystem α :=
  { chunkMap := [], currentChunkX := 0, currentChunkZ := 0,
    spawnPosition := { x := 0, y := 0, z := 0 }, spawnHeight := 0 }

/-- The constructor. -/
def new : TerrainSystem α := generateInitialChunks blank

/-- The method `isWaterArea`. -/
def isWaterArea (M : JSMath α) (x z : α) : Bool :=
  let waterNoise := M.sin (x * 0.005) * M.cos (z * 0.005)
  decide (waterNoise > 0.7)

/-- The method `isWithinSpawnArea`. -/
def isWithinSpawnArea (M : JSMath α) (t : TerrainSystem α) (x z : α) : Bool :=
  let distanceToSpawn := M.sqrt ((x - t.spawnPosition.x) ^ 2 + (z - t.spawnPosition.z) ^ 2)
  decide (distanceToSpawn ≤ spawnAreaRadius)

/-- The method `getPerlinHeight`. -/
def getPerlinHeight (M : JSMath α) (t : TerrainSystem α) (x z : α) : α :=
  let distanceToSpawn := M.sqrt ((x - t.spawnPosition.x) ^ 2 + (z - t.spawnPosition.z) ^ 2)
  if distanceToSpawn ≤ spawnAreaRadius then t.spawnHeight
  else if isWaterArea M x z then waterHeight
  else
    let height : α := 2
    let height := height + M.sin (x * 0.01) * 0.8
    let height := height + M.cos (z * 0.01) * 0.8
    let height := height + M.sin ((x + z) * 0.015) * 0.4
    max 1.5 (min 3.5 height)

/-- The method `updateChunks`: chunks farther than `renderDistance` (in the larger
of the two coordinate distances) from the current cell are deleted, then the
double loop generates the missing ones. -/
def updateChunks (t : TerrainSystem α) : TerrainSystem α :=
  let kept := t.chunkMap.filter (fun entry =>
    let distance := max |entry.1.1 - t.currentChunkX| |entry.1.2 - t.currentChunkZ|
    !decide (distance > renderDistance))
  generateAround { t with chunkMap := kept }

variable [FloorRing α]

/-- The method `checkChunkUpdates`, given the camera's `x` and `z`. -/
def checkChunkUpdates (t : TerrainSystem α) (camX camZ : α) : TerrainSystem α :=
  let currentChunkX := ⌊camX / chunkSize⌋
  let currentChunkZ := ⌊camZ / chunkSize⌋
  if currentChunkX ≠ t.currentChunkX ∨ currentChunkZ ≠ t.currentChunkZ then
    updateChunks { t with currentChunkX := currentChunkX, currentChunkZ := currentChunkZ }
  else t

/-- The terrain states the game can be in: the constructed one and what
`checkChunkUpdates` makes of it, frame after frame, wherever the camera is. -/
inductive Reachable : TerrainSystem α → Prop
  | init : Reachable new
  | frame (t : TerrainSystem α) (camX camZ : α) :
      Reachable t → Reachable (t.checkChunkUpdates camX camZ)

/-- Two terrain states that differ at most in their chunk maps. -/
def SameFrame (t t' : TerrainSystem α) : Prop :=
  t'.currentChunkX = t.currentChunkX ∧ t'.currentChunkZ = t.currentChunkZ ∧
    t'.spawnPosition = t.spawnPosition ∧ t'.spawnHeight = t.spawnHeight

/-- The chunk keys are exactly the 25 cells within `renderDistance = 2` of `(cx, cz)`,
each of them once. -/
def SquareAround (keys : List (Int × Int)) (cx cz : Int) : Prop :=
  keys.Nodup ∧ keys.length = 25 ∧
    ∀ kx kz : Int, (kx, kz) ∈ keys ↔ |kx - cx| ≤ 2 ∧ |kz - cz| ≤ 2

end TerrainSystem

end Terrain

/-- The height the specification describes, in its words: the constant spawn height
within the spawn radius, else the water height on water, else the base height
plus three sinusoids, clamped to the band. -/
noncomputable def specHeight (x z : ℝ) : ℝ :=
  if Real.sqrt (x ^ 2 + z ^ 2) ≤ 20 then 2
  else if Real.sin (0.005 * x) * Real.cos (0.005 * z) > 0.7 then 1.0
  else max 1.5 (min 3.5
    (2 + 0.8 * Real.sin (0.01 * x) + 0.8 * Real.cos (0.01 * z) + 0.4 * Real.sin (0.015 * (x + z))))


/-! ## `inventory.js` -/

/-- The keys of `this.inventory`, in the order in which `for ... in` visits them. -/
inductive ItemType
  | wood
  | stone
  | planks
  | tools
  deriving DecidableEq, Repr

/-- The object `this.inventory`: four counters. -/
structure Inventory where
  wood : Int
  stone : Int
  planks : Int
  tools : Int
  deriving DecidableEq, Repr

/-- The read `inventory[itemType]`. -/
def Inventory.get (inv : Inventory) : ItemType → Int
  | .wood => inv.wood
  | .stone => inv.stone
  | .planks => inv.planks
  | .tools => inv.tools

/-- The write `inventory[itemType] = v`. -/
def Inventory.set (inv : Inventory) (k : ItemType) (v : Int) : Inventory :=
  match k with
  | .wood => { inv with wood := v }
  | .stone => { inv with stone := v }
  | .planks => { inv with planks := v }
  | .tools => { inv with tools := v }

/-- An entry of `droppedItems` (its mesh lives in the engine). -/
structure DroppedItem (α : Type) where
  itemType : ItemType
  count : Int
  position : Vec3 α
  createdTime : Int

/-- An entry of `harvestableObjects`: the primary mesh, the type string, the related meshes. -/
structure Harvestable where
  mesh : Nat
  type : String
  relatedMeshes : List Nat

/-- The properties of `InventorySystem` that its methods assign. -/
structure InventorySystem (α : Type) where
  inventory : Inventory
  harvestableObjects : List Harvestable
  droppedItems : List (DroppedItem α)

namespace InventorySystem

variable {α : Type} [LinearOrderedField α]

/-- The constructor's `this.pickupRange = 3`. -/
def pickupRange : α := 3

/-- The constructor. -/
def new : InventorySystem α :=
  { inventory := { wood := 0, stone := 0, planks := 0, tools := 0 },
    harvestableObjects := [], droppedItems := [] }

/-- The loop of `tryHarvest`, which runs from the last index down and stops at the
first object whose mesh is the picked one: that object and the list without it. -/
def findHarvested (pickedMesh : Nat) : List Harvestable → Option (Harvestable × List Harvestable)
  | [] => none
  | obj :: rest =>
    match findHarvested pickedMesh rest with
    | some (found, rest') => some (found, obj :: rest')
    | none => if pickedMesh = obj.mesh then some (obj, rest) else none

/-- The method `tryHarvest`, given what the ray pick returned (`none`: no hit). -/
def tryHarvest (hit : Option Pick) (s : InventorySystem α) : InventorySystem α :=
  match hit with
  | none => s
  | some pick =>
    match findHarvested pick.pickedMesh s.harvestableObjects with
    | none => s
    | some (obj, rest) =>
      let inventory :=
        if obj.type = "tree" then { s.inventory with wood := s.inventory.wood + 2 }
        else if obj.type = "rock" then { s.inventory with stone := s.inventory.stone + 2 }
        else s.inventory
      { s with inventory := inventory, harvestableObjects := rest }

/-- The method `craftPlanks`. -/
def craftPlanks (s : InventorySystem α) : InventorySystem α :=
  if s.inventory.wood ≥ 2 then
    { s with inventory :=
        { s.inventory with wood := s.inventory.wood - 2, planks := s.inventory.planks + 1 } }
  else s

/-- The method `craftTool`. -/
def craftTool (s : InventorySystem α) : InventorySystem α :=
  if s.inventory.planks ≥ 1 ∧ s.inventory.stone ≥ 2 then
    { s with inventory :=
        { s.inventory with planks := s.inventory.planks - 1, stone := s.inventory.stone - 2,
                           tools := s.inventory.tools + 1 } }
  else s

/-- The method `createLootBag`; `r` holds the two `Math.random()` values it draws
and `now` is `Date.now()`. -/
def createLootBag (position : Vec3 α) (itemType : ItemType) (count : Int) (now : Int)
    (r : α × α) (s : InventorySystem α) : InventorySystem α :=
  let lootBagPosition : Vec3 α :=
    { x := position.x + (r.1 - 0.5) * 2, y := position.y, z := position.z + (r.2 - 0.5) * 2 }
  { s with droppedItems := s.droppedItems ++
      [{ itemType := itemType, count := count, position := lootBagPosition, createdTime := now }] }

/-- One round of the loop of `dropAllItems`: a counter above zero becomes a loot bag
and is cleared. -/
def dropRound (position : Vec3 α) (now : Int) (scatter : ItemType → α × α)
    (s : InventorySystem α) (itemType : ItemType) : InventorySystem α :=
  let count := s.inventory.get itemType
  if count > 0 then
    let s := createLootBag position itemType count now (scatter itemType) s
    { s with inventory := s.inventory.set itemType 0 }
  else s

/-- The method `dropAllItems`; `scatter` gives the random values drawn for each bag. -/
def dropAllItems (position : Vec3 α) (now : Int) (scatter : ItemType → α × α)
    (s : InventorySystem α) : InventorySystem α :=
  [ItemType.wood, ItemType.stone, ItemType.planks, ItemType.tools].foldl
    (dropRound position now scatter) s

/-- One round of the loop of `checkForLoot`: an item within `pickupRange` of the player
is added to its counter and spliced out of `droppedItems` (here: not kept). -/
def lootRound (M : JSMath α) (playerPos : Vec3 α) (item : DroppedItem α)
    (s : InventorySystem α) : InventorySystem α :=
  let distance := Vec3.distance M playerPos item.position
  if distance ≤ pickupRange then
    let count := s.inventory.get item.itemType + item.count
    { s with inventory := s.inventory.set item.itemType count }
  else { s with droppedItems := item :: s.droppedItems }

/-- The method `checkForLoot`, given the camera position. The loop runs from the last
dropped item down, so the items are visited from the right. -/
def checkForLoot (M : JSMath α) (playerPos : Vec3 α) (s : InventorySystem α) :
    InventorySystem α :=
  if s.droppedItems.length = 0 then s
  else s.droppedItems.foldr (lootRound M playerPos) { s with droppedItems := [] }

/-- The method `update`. -/
def update (M : JSMath α) (playerPos : Vec3 α) (s : InventorySystem α) : InventorySystem α :=
  checkForLoot M playerPos s

/-- The counters are not negative and no dropped item holds a negative count. -/
def CountsNonneg (s : InventorySystem α) : Prop :=
  (0 ≤ s.inventory.wood ∧ 0 ≤ s.inventory.stone ∧ 0 ≤ s.inventory.planks ∧
      0 ≤ s.inventory.tools) ∧
    ∀ item ∈ s.droppedItems, 0 ≤ item.count

end InventorySystem

/-! ## `combat.js` and `animals.js`: state -/

/-- The properties of `CombatSystem`. -/
structure CombatSystem where
  isAttacking : Bool
  attackPower : Int
  health : Int
  maxHealth : Int
  experience : Int
  level : Int
  expToNextLevel : Int
  deriving DecidableEq, Repr

/-- An entry of `animals`: its body mesh with the mesh position, its health and speed. -/
structure Animal (α : Type) where
  mesh : Nat
  position : Vec3 α
  health : Int
  speed : α

/-- The properties of `AnimalSystem` that its methods assign. -/
structure AnimalSystem (α : Type) where
  animals : List (Animal α)
  animalSpawnTimer : α

/-! ## `player.js` -/

/-- The object `this.keys`. -/
structure Keys where
  jump : Bool
  descend : Bool
  deriving DecidableEq, Repr

/-- The camera: its position and its speed. -/
structure Camera (α : Type) where
  position : Vec3 α
  speed : α

/-- The properties of `PlayerSystem` that its methods assign. -/
structure PlayerSystem (α : Type) where
  jumpVelocity : α
  isGrounded : Bool
  isJumping : Bool
  isFlying : Bool
  canDoubleJump : Bool
  jumpCount : Nat
  jumpTimer : Int
  flyingHeight : α
  isSwimming : Bool
  oxygenLevel : α
  health : α
  isDead : Bool
  respawnPoint : Vec3 α
  lootDropped : Bool
  keys : Keys
  camera : Camera α

/-- The callbacks the game hands to `setTimeout`. -/
inductive Callback
  | respawn
  | endAttack
  deriving DecidableEq, Repr

/-- The calls whose number matters, recorded in the order they are made. -/
inductive Effect (α : Type)
  | dropAllItems (position : Vec3 α)
  | setTimeout (callback : Callback) (delay : Nat)

/-- The game: its systems and the record of calls. -/
structure Game (α : Type) where
  terrainSystem : TerrainSystem α
  playerSystem : PlayerSystem α
  inventorySystem : InventorySystem α
  combatSystem : CombatSystem
  animalSystem : AnimalSystem α
  trace : List (Effect α)

/-- What the browser and the engine supply during one `PlayerSystem.update`: the
animation ratio, the clock, and the random values of the loot bags. -/
structure FrameEnv (α : Type) where
  deltaTime : α
  now : Int
  scatter : ItemType → α × α

namespace PlayerSystem

variable {α : Type} [LinearOrderedField α]

/-- The constructor's `this.jumpHeight = 5`. -/
def jumpHeight : α := 5

/-- The constructor's `this.gravity = 0.5`. -/
def gravity : α := 0.5

/-- The constructor's `this.flyingSpeed = 0.2`. -/
def flyingSpeed : α := 0.2

/-- The constructor's `this.jumpTimerThreshold = 300`, in milliseconds. -/
def jumpTimerThreshold : Int := 300

/-- The constructor's `this.swimSpeed = 0.15`. -/
def swimSpeed : α := 0.15

/-- The constructor's `this.underwaterDrag = 0.7`. -/
def underwaterDrag : α := 0.7

/-- The constructor's `this.maxOxygen = 100`. -/
def maxOxygen : α := 100

/-- The constructor's `this.oxygenDepletionRate = 0.2`. -/
def oxygenDepletionRate : α := 0.2

/-- The constructor's `this.oxygenRefillRate = 0.5`. -/
def oxygenRefillRate : α := 0.5

/-- The constructor's `this.maxHealth = 100`. -/
def maxHealth : α := 100

/-- The constructor; the camera is created at `(0, 5, -10)` and put on the spawn point
by a timer once the scene is ready (see `Game.cameraAt`). -/
def new : PlayerSystem α :=
  { jumpVelocity := 0, isGrounded := true, isJumping := false,
    isFlying := false, canDoubleJump := false, jumpCount := 0, jumpTimer := 0, flyingHeight := 0,
    isSwimming := false, oxygenLevel := 100,
    health := 100, isDead := false, respawnPoint := { x := 0, y := 0, z := 0 },
    lootDropped := false,
    keys := { jump := false, descend := false },
    camera := { position := { x := 0, y := 5, z := -10 }, speed := 0.5 } }

/-- The assignment `this.camera.position.y = y`. -/
def setY (y : α) (p : PlayerSystem α) : PlayerSystem α :=
  { p with camera := { p.camera with position := { p.camera.position with y := y } } }

/-- The assignment `this.camera.speed = v`. -/
def setSpeed (v : α) (p : PlayerSystem α) : PlayerSystem α :=
  { p with camera := { p.camera with speed := v } }

/-- The method `jump`; `now` is `Date.now()`. -/
def jump (now : Int) (p : PlayerSystem α) : PlayerSystem α :=
  if p.isGrounded then
    { p with isJumping := true, isGrounded := false, jumpVelocity := jumpHeight,
             jumpCount := 1, jumpTimer := now, canDoubleJump := true }
  else if p.canDoubleJump && !p.isFlying then
    let p :=
      if now - p.jumpTimer < jumpTimerThreshold then
        { p with isFlying := true, jumpVelocity := jumpHeight * 0.5,
                 flyingHeight := p.camera.position.y }
      else { p with jumpTimer := now }
    { p with jumpCount := 2, canDoubleJump := false }
  else if p.isFlying then
    { p with isFlying := false, jumpVelocity := 0 }
  else p

/-- The method `updateKeyState`. -/
def updateKeyState (keyCode : Nat) (isPressed : Bool) (p : PlayerSystem α) : PlayerSystem α :=
  if keyCode = 32 then { p with keys := { p.keys with jump := isPressed } }
  else if keyCode = 17 then { p with keys := { p.keys with descend := isPressed } }
  else p

/-- The method `takeDamage`. -/
def takeDamage (amount : α) (p : PlayerSystem α) : PlayerSystem α :=
  let p := { p with health := p.health - amount }
  if p.health ≤ 0 then
    { p with health := 0, isDead := true, respawnPoint := p.camera.position }
  else p

/-- A call of `inventorySystem.dropAllItems`, recorded in the trace. -/
def callDropAllItems (position : Vec3 α) (now : Int) (scatter : ItemType → α × α)
    (g : Game α) : Game α :=
  { g with
    inventorySystem := g.inventorySystem.dropAllItems position now scatter,
    trace := g.trace ++ [Effect.dropAllItems position] }

/-- The method `dropLoot`: the whole inventory is dropped at the camera position. -/
def dropLoot (e : FrameEnv α) (g : Game α) : Game α :=
  let dropPosition := g.playerSystem.camera.position
  callDropAllItems dropPosition e.now e.scatter g

/-- The method `handleDeath`. -/
def handleDeath (e : FrameEnv α) (g : Game α) : Game α :=
  if !g.playerSystem.lootDropped then
    let g := dropLoot e g
    { g with
      playerSystem := { g.playerSystem with lootDropped := true },
      trace := g.trace ++ [Effect.setTimeout Callback.respawn 3000] }
  else g

/-- The method `respawn`, the terrain system being there with its spawn position. -/
def respawn (t : TerrainSystem α) (p : PlayerSystem α) : PlayerSystem α :=
  let p := { p with health := maxHealth, isDead := false, lootDropped := false }
  let spawnX := t.spawnPosition.x
  let spawnZ := t.spawnPosition.z
  let spawnY := t.spawnHeight + 2
  let p := { p with camera := { p.camera with position := { x := spawnX, y := spawnY, z := spawnZ } } }
  { p with isGrounded := true, isJumping := false, isFlying := false, isSwimming := false,
           oxygenLevel := maxOxygen }

/-- The block "Handle oxygen and drowning" of `update` (the `if (this.isSwimming)` after
the swimming state is set). -/
def updateOxygen (deltaTime : α) (p : PlayerSystem α) : PlayerSystem α :=
  if p.isSwimming then
    let p := { p with oxygenLevel := p.oxygenLevel - oxygenDepletionRate * deltaTime }
    let p :=
      if p.oxygenLevel ≤ 0 then takeDamage (0.5 * deltaTime) { p with oxygenLevel := 0 }
      else p
    setSpeed (swimSpeed * underwaterDrag) p
  else
    let p := { p with
      oxygenLevel := min maxOxygen (p.oxygenLevel + oxygenRefillRate * deltaTime) }
    setSpeed 0.5 p

/-- The branch `if (this.isFlying)` of `update`; `x`, `y`, `z` are the camera
coordinates read at the start of the frame. -/
def updateFlying (M : JSMath α) (t : TerrainSystem α) (e : FrameEnv α) (x y z : α)
    (p : PlayerSystem α) : PlayerSystem α :=
  let p :=
    if p.keys.jump then setY (p.camera.position.y + flyingSpeed * e.deltaTime * 10) p
    else p
  let p :=
    if p.keys.descend then setY (p.camera.position.y - flyingSpeed * e.deltaTime * 10) p
    else p
  let p := setY (p.camera.position.y + M.sin ((e.now : α) / 500) * 0.03) p
  if !p.isFlying then
    let terrainHeight := t.getPerlinHeight M x z
    if y ≤ terrainHeight + 2 then
      { setY (terrainHeight + 2) p with isGrounded := true, isJumping := false }
    else p
  else p

/-- The branch `else if (this.isSwimming)` of `update`. -/
def updateSwimming (M : JSMath α) (t : TerrainSystem α) (e : FrameEnv α) (x y z : α)
    (p : PlayerSystem α) : PlayerSystem α :=
  let p :=
    if p.keys.jump then setY (p.camera.position.y + swimSpeed * e.deltaTime * 5) p
    else setY (p.camera.position.y - 0.05 * e.deltaTime) p
  let terrainHeight := t.getPerlinHeight M x z
  let p := if y ≤ terrainHeight + 1 then setY (terrainHeight + 1) p else p
  { p with isGrounded := false, isJumping := false, jumpCount := 0, canDoubleJump := false }

/-- The branch `else if (!this.isGrounded)` of `update`: gravity, landing, fall damage. -/
def updateAirborne (M : JSMath α) (t : TerrainSystem α) (e : FrameEnv α) (x y z : α)
    (p : PlayerSystem α) : PlayerSystem α :=
  let p := { p with jumpVelocity := p.jumpVelocity - gravity }
  let p := setY (p.camera.position.y + p.jumpVelocity * e.deltaTime) p
  let terrainHeight := t.getPerlinHeight M x z
  let p :=
    if y ≤ terrainHeight + 2 then
      { setY (terrainHeight + 2) p with
        isGrounded := true, isJumping := false, jumpCount := 0, canDoubleJump := false }
    else p
  if p.isGrounded ∧ p.jumpVelocity < -10 then
    let fallDamage := |p.jumpVelocity| - 10
    if fallDamage > 0 then takeDamage fallDamage p else p
  else p

/-- The last branch of `update`: the camera of a grounded player is kept on the terrain. -/
def updateGrounded (M : JSMath α) (t : TerrainSystem α) (x z : α)
    (p : PlayerSystem α) : PlayerSystem α :=
  let terrainHeight := t.getPerlinHeight M x z
  setY (terrainHeight + 2) p

/-- The test "Check if in water" of `update`. -/
def inWater (M : JSMath α) (p : PlayerSystem α) : Bool :=
  TerrainSystem.isWaterArea M p.camera.position.x p.camera.position.z &&
    decide (p.camera.position.y ≤ TerrainSystem.waterHeight + 1)

/-- The chain of movement branches of `update`: flying, swimming, airborne, grounded. -/
def updateMovement (M : JSMath α) (t : TerrainSystem α) (e : FrameEnv α) (x y z : α)
    (p : PlayerSystem α) : PlayerSystem α :=
  if p.isFlying then updateFlying M t e x y z p
  else if p.isSwimming then updateSwimming M t e x y z p
  else if !p.isGrounded then updateAirborne M t e x y z p
  else updateGrounded M t x z p

/-- The body of `update` after the death check: the camera coordinates `x`, `y`, `z`
are read once, before the frame changes the camera; then the swimming state, the oxygen
block and the movement branches follow. -/
def updateAlive (M : JSMath α) (t : TerrainSystem α) (e : FrameEnv α)
    (p : PlayerSystem α) : PlayerSystem α :=
  let x := p.camera.position.x
  let y := p.camera.position.y
  let z := p.camera.position.z
  let p := { p with isSwimming := inWater M p }
  let p := updateOxygen e.deltaTime p
  updateMovement M t e x y z p

/-- The method `update`; the terrain system is there in every frame, the game creating
it before the player system. -/
def update (M : JSMath α) (e : FrameEnv α) (g : Game α) : Game α :=
  if g.playerSystem.isDead then handleDeath e g
  else { g with playerSystem := updateAlive M g.terrainSystem e g.playerSystem }

end PlayerSystem

/-! ## `combat.js` -/

namespace CombatSystem

variable {α : Type} [LinearOrderedField α]

/-- The constructor. -/
def new : CombatSystem :=
  { isAttacking := false, attackPower := 10, health := 100, maxHealth := 100,
    experience := 0, level := 1, expToNextLevel := 100 }

/-- The method `levelUp`. -/
def levelUp (c : CombatSystem) : CombatSystem :=
  let c := { c with level := c.level + 1 }
  let c := { c with experience := c.experience - c.expToNextLevel }
  let c := { c with expToNextLevel := ⌊(c.expToNextLevel : ℚ) * 1.5⌋ }
  let c := { c with maxHealth := c.maxHealth + 20 }
  let c := { c with health := c.maxHealth }
  { c with attackPower := c.attackPower + 5 }

/-- The method `gainExperience`. -/
def gainExperience (amount : Int) (c : CombatSystem) : CombatSystem :=
  let c := { c with experience := c.experience + amount }
  if c.experience ≥ c.expToNextLevel then c.levelUp else c

/-- The loop of `tryAttack`: the first animal whose mesh is the picked mesh or its
parent loses `damage` health, and the loop stops. -/
def attackFirst (pick : Pick) (damage : Int) : List (Animal α) → List (Animal α)
  | [] => []
  | animal :: rest =>
    if pick.pickedMesh = animal.mesh ∨ pick.parent = some animal.mesh then
      { animal with health := animal.health - damage } :: rest
    else animal :: attackFirst pick damage rest

/-- The method `tryAttack`, given what the ray pick returned (`none`: no hit). -/
def tryAttack (hit : Option Pick) (g : Game α) : Game α :=
  if g.combatSystem.isAttacking then g
  else
    let c := { g.combatSystem with isAttacking := true }
    let trace := g.trace ++ [Effect.setTimeout Callback.endAttack 500]
    let animals :=
      match hit with
      | none => g.animalSystem.animals
      | some pick =>
        let damage := c.attackPower + (c.level - 1) * 2
        attackFirst pick damage g.animalSystem.animals
    { g with combatSystem := c, animalSystem := { g.animalSystem with animals := animals },
             trace := trace }

/-- The method `specialAttack`. -/
def specialAttack (M : JSMath α) (g : Game α) : Game α :=
  if g.combatSystem.isAttacking ∨ g.inventorySystem.inventory.tools ≤ 0 then g
  else
    let inventory := { g.inventorySystem.inventory with
      tools := g.inventorySystem.inventory.tools - 1 }
    let c := { g.combatSystem with isAttacking := true }
    let trace := g.trace ++ [Effect.setTimeout Callback.endAttack 1000]
    let attackRange : α := 10
    let inRange := fun (animal : Animal α) =>
      decide (Vec3.distance M g.playerSystem.camera.position animal.position < attackRange)
    let animals := g.animalSystem.animals.map (fun animal =>
      if inRange animal then { animal with health := animal.health - c.attackPower * 3 }
      else animal)
    let animalHit := g.animalSystem.animals.any inRange
    let c := if animalHit then c.gainExperience 10 else c
    { g with inventorySystem := { g.inventorySystem with inventory := inventory },
             combatSystem := c, animalSystem := { g.animalSystem with animals := animals },
             trace := trace }

end CombatSystem

/-! ## `animals.js` -/

/-- What the browser and the engine supply during one `AnimalSystem.update`: the
engine's delta time in milliseconds, the two random values drawn for the animal at
each index, the three random values of a spawn and the new body mesh. -/
structure AnimalEnv (α : Type) where
  deltaTime : α
  wander : Nat → α × α
  spawnDistance : α
  spawnAngle : α
  spawnSpeed : α
  spawnMesh : Nat

namespace AnimalSystem

variable {α : Type} [LinearOrderedField α]

/-- The constructor's `this.animalSpawnInterval = 10000`. -/
def animalSpawnInterval : α := 10000

/-- The constructor. -/
def new : AnimalSystem α := { animals := [], animalSpawnTimer := 0 }

/-- The loop of `update` over the animals from index `i` on; it runs from the last
index down. Each animal wanders and is put on the terrain; one without health is
spliced out and awards 20 experience. Every entry of the list has its mesh, so the
guard that splices out an entry without one never fires. -/
def updateAnimals (M : JSMath α) (t : TerrainSystem α) (wander : Nat → α × α) :
    Nat → List (Animal α) → CombatSystem → List (Animal α) × CombatSystem
  | _, [], c => ([], c)
  | i, animal :: rest, c =>
    let (rest, c) := updateAnimals M t wander (i + 1) rest c
    let randomMove := (wander i).1 * 0.05
    let randomDirection := (wander i).2 * M.pi * 2
    let x := animal.position.x + M.sin randomDirection * randomMove
    let z := animal.position.z + M.cos randomDirection * randomMove
    let terrainHeight := t.getPerlinHeight M x z
    let animal := { animal with position := { x := x, y := terrainHeight + 0.5, z := z } }
    if animal.health ≤ 0 then (rest, c.gainExperience 20)
    else (animal :: rest, c)

/-- The method `spawnAnimal`; `mesh` is the new body mesh and `r` the random value of
the speed. -/
def spawnAnimal (x y z : α) (mesh : Nat) (r : α) (a : AnimalSystem α) : AnimalSystem α :=
  { a with animals := a.animals ++
      [{ mesh := mesh, position := { x := x, y := y + 0.5, z := z }, health := 30,
         speed := 0.05 + r * 0.05 }] }

/-- The method `update`. -/
def update (M : JSMath α) (e : AnimalEnv α) (g : Game α) : Game α :=
  let t := g.terrainSystem
  let (animals, c) := updateAnimals M t e.wander 0 g.animalSystem.animals g.combatSystem
  let a : AnimalSystem α := { g.animalSystem with animals := animals }
  let a : AnimalSystem α := { a with animalSpawnTimer := a.animalSpawnTimer + e.deltaTime }
  let a : AnimalSystem α :=
    if a.animalSpawnTimer > (animalSpawnInterval : α) ∧ a.animals.length < 10 then
      let a : AnimalSystem α := { a with animalSpawnTimer := 0 }
      let spawnDistance := 30 + e.spawnDistance * 20
      let spawnAngle := e.spawnAngle * M.pi * 2
      let spawnX := g.playerSystem.camera.position.x + M.sin spawnAngle * spawnDistance
      let spawnZ := g.playerSystem.camera.position.z + M.cos spawnAngle * spawnDistance
      let terrainHeight := t.getPerlinHeight M spawnX spawnZ
      spawnAnimal spawnX terrainHeight spawnZ e.spawnMesh e.spawnSpeed a
    else a
  { g with animalSystem := a, combatSystem := c }

end AnimalSystem

/-! ## `game.js` -/

namespace Game

variable {α : Type} [LinearOrderedField α]

/-- The systems as `init` constructs them. -/
def new : Game α :=
  { terrainSystem := TerrainSystem.new, playerSystem := PlayerSystem.new,
    inventorySystem := InventorySystem.new, combatSystem := CombatSystem.new,
    animalSystem := AnimalSystem.new, trace := [] }

/-- The `click` listener of `setupControls`: `tryHarvest`, then `tryAttack`, with what
the ray pick of each returns. -/
def click (harvestHit attackHit : Option Pick) (g : Game α) : Game α :=
  CombatSystem.tryAttack attackHit
    { g with inventorySystem := g.inventorySystem.tryHarvest harvestHit }

/-- The props of a generated chunk are pushed onto `harvestableObjects`, as `createTree`
and `createRock` do. -/
def addHarvestables (objects : List Harvestable) (g : Game α) : Game α :=
  { g with inventorySystem := { g.inventorySystem with
      harvestableObjects := g.inventorySystem.harvestableObjects ++ objects } }

/-- The engine puts the camera at a position (player input, collisions, the placement
on the spawn point after the terrain is generated). -/
def cameraAt (position : Vec3 α) (g : Game α) : Game α :=
  { g with playerSystem := { g.playerSystem with
      camera := { g.playerSystem.camera with position := position } } }

/-- A sample state: the constructed game with the player airborne above the spawn
point, at height 3 and falling with velocity -12. -/
def fallingAtSpawn : Game α :=
  { (new : Game α) with playerSystem :=
      { (PlayerSystem.new : PlayerSystem α) with
        isGrounded := false, jumpVelocity := -12,
        camera := { position := { x := 0, y := 3, z := 0 }, speed := 0.5 } } }

/-- The player takes damage: a call of `playerSystem.takeDamage`. -/
def damagePlayer (amount : α) (g : Game α) : Game α :=
  { g with playerSystem := g.playerSystem.takeDamage amount }

/-- The method `levelUp` of the combat system, run in the game: every property it
assigns is one of the combat system (`this.level`, `this.experience`,
`this.expToNextLevel`, `this.maxHealth`, `this.health`, `this.attackPower`), and the
UI calls after them draw only. -/
def levelUp (g : Game α) : Game α :=
  { g with combatSystem := g.combatSystem.levelUp }

/-- The `keydown` listener of `setupControls`: the key state is updated and the space
key (32) jumps; `now` is `Date.now()`. -/
def keydown (keyCode : Nat) (now : Int) (g : Game α) : Game α :=
  let p := g.playerSystem.updateKeyState keyCode true
  let p := if keyCode = 32 then p.jump now else p
  { g with playerSystem := p }

/-- The flags of the player are consistent: a grounded player is not flying, and loot
is marked as dropped only while the player is dead. -/
def PlayerInv (p : PlayerSystem α) : Prop :=
  (p.isGrounded = true → p.isFlying = false) ∧ (p.lootDropped = true → p.isDead = true)

/-- Consecutive `PlayerSystem.update` calls, one for each frame of the list. -/
def runUpdates (M : JSMath α) (es : List (FrameEnv α)) (g : Game α) : Game α :=
  es.foldl (fun g e => PlayerSystem.update M e g) g

variable [FloorRing α]

/-- One call into the game logic: a frame callback, an input handler, a timer
callback, or the engine moving the camera or adding the props of a new chunk. -/
inductive Step (M : JSMath α) : Game α → Game α → Prop
  | playerUpdate (e : FrameEnv α) (g : Game α) : Step M g (PlayerSystem.update M e g)
  | checkChunkUpdates (g : Game α) :
      Step M g { g with terrainSystem := g.terrainSystem.checkChunkUpdates
                          g.playerSystem.camera.position.x g.playerSystem.camera.position.z }
  | inventoryUpdate (g : Game α) :
      Step M g { g with inventorySystem :=
                          g.inventorySystem.update M g.playerSystem.camera.position }
  | animalUpdate (e : AnimalEnv α) (g : Game α) : Step M g (AnimalSystem.update M e g)
  | tryHarvest (hit : Option Pick) (g : Game α) :
      Step M g { g with inventorySystem := g.inventorySystem.tryHarvest hit }
  | tryAttack (hit : Option Pick) (g : Game α) : Step M g (CombatSystem.tryAttack hit g)
  | specialAttack (g : Game α) : Step M g (CombatSystem.specialAttack M g)
  | craftPlanks (g : Game α) :
      Step M g { g with inventorySystem := g.inventorySystem.craftPlanks }
  | craftTool (g : Game α) :
      Step M g { g with inventorySystem := g.inventorySystem.craftTool }
  | dropAllItems (position : Vec3 α) (now : Int) (scatter : ItemType → α × α) (g : Game α) :
      Step M g (PlayerSystem.callDropAllItems position now scatter g)
  | updateKeyState (keyCode : Nat) (isPressed : Bool) (g : Game α) :
      Step M g { g with playerSystem := g.playerSystem.updateKeyState keyCode isPressed }
  | jump (now : Int) (g : Game α) :
      Step M g { g with playerSystem := g.playerSystem.jump now }
  | takeDamage (amount : α) (g : Game α) : Step M g (damagePlayer amount g)
  | respawn (g : Game α) :
      Step M g { g with playerSystem := g.playerSystem.respawn g.terrainSystem }
  | endAttack (g : Game α) :
      Step M g { g with combatSystem := { g.combatSystem with isAttacking := false } }
  | cameraMoved (position : Vec3 α) (g : Game α) : Step M g (cameraAt position g)
  | populated (objects : List Harvestable) (g : Game α) : Step M g (addHarvestables objects g)

/-- The game states that calls into the game logic lead to from the constructed game. -/
inductive Reachable (M : JSMath α) : Game α → Prop
  | init : Reachable M new
  | step {g g' : Game α} : Reachable M g → Step M g g' → Reachable M g'

end Game

/-! ## Specification helpers for the inventory -/

namespace InventorySystem

variable {α : Type} [LinearOrderedField α]

/-- The meshes `tryHarvest` disposes of: the primary mesh of the harvested object, then
its related meshes. -/
def harvestDisposals (hit : Option Pick) (s : InventorySystem α) : List Nat :=
  match hit with
  | none => []
  | some pick =>
    match findHarvested pick.pickedMesh s.harvestableObjects with
    | none => []
    | some (obj, _) => obj.mesh :: obj.relatedMeshes

/-- The entry `createLootBag` pushes for an item type when `dropAllItems` runs on the
inventory `inv`: the type, its count, the scattered position and the time. -/
def lootBagOf (position : Vec3 α) (now : Int) (scatter : ItemType → α × α) (inv : Inventory)
    (itemType : ItemType) : DroppedItem α :=
  { itemType := itemType, count := inv.get itemType,
    position := { x := position.x + ((scatter itemType).1 - 0.5) * 2, y := position.y,
                  z := position.z + ((scatter itemType).2 - 0.5) * 2 },
    createdTime := now }

/-- The names of the methods class `InventorySystem` defines in `inventory.js`. -/
def methodNames : List String :=
  ["constructor", "tryHarvest", "craftPlanks", "craftTool", "dropAllItems", "createLootBag",
   "checkForLoot", "update"]

end InventorySystem

/-! ## `ui.js`: the crafting buttons -/

/-- A JavaScript exception. -/
inductive JSError
  | typeError (message : String)
  deriving DecidableEq, Repr

namespace UISystem

variable {α : Type}

/-- The callback of a crafting button of `createCraftingPanel`, for the recipe name
`"planks"` or `"tools"`: `if (this.game.inventorySystem.craft(recipe)) ...`. The class
defines no method `craft`, and calling a property that is not there throws a
`TypeError` before anything is changed; there is no behaviour of `craft` to run. -/
def craftButtonClick (_recipe : String) (_g : Game α) : Except JSError (Game α) :=
  if h : "craft" ∈ InventorySystem.methodNames then
    absurd h (by simp [InventorySystem.methodNames])
  else
    Except.error (JSError.typeError "this.game.inventorySystem.craft is not a function")

end UISystem

section TerrainProofs

open TerrainSystem

variable {α : Type}

theorem TerrainSystem.SameFrame.refl (t : TerrainSystem α) : SameFrame t t :=
  ⟨rfl, rfl, rfl, rfl⟩

theorem TerrainSystem.SameFrame.trans {t t' t'' : TerrainSystem α}
    (h : SameFrame t t') (h' : SameFrame t' t'') : SameFrame t t'' :=
  ⟨h'.1.trans h.1, h'.2.1.trans h.2.1, h'.2.2.1.trans h.2.2.1, h'.2.2.2.trans h.2.2.2⟩

variable [LinearOrderedField α]

theorem TerrainSystem.generateChunk_sameFrame (t : TerrainSystem α) (a b : Int) :
    SameFrame t (t.generateChunk a b) := by
  by_cases hk : (a, b) ∈ t.keys <;> simp only [generateChunk, hk, if_true, if_false] <;>
    exact ⟨rfl, rfl, rfl, rfl⟩

theorem TerrainSystem.mem_keys_generateChunk (t : TerrainSystem α) (a b : Int) (k : Int × Int) :
    k ∈ (t.generateChunk a b).keys ↔ k ∈ t.keys ∨ k = (a, b) := by
  by_cases hk : (a, b) ∈ t.keys
  · simp only [generateChunk, hk, if_true]
    constructor
    · exact Or.inl
    · rintro (h | h)
      · exact h
      · subst h; exact hk
  · simp only [generateChunk, hk, if_false]
    simp [keys]

theorem TerrainSystem.nodup_keys_generateChunk (t : TerrainSystem α) (a b : Int)
    (h : t.keys.Nodup) : (t.generateChunk a b).keys.Nodup := by
  by_cases hk : (a, b) ∈ t.keys
  · simpa only [generateChunk, hk, if_true] using h
  · simp only [generateChunk, hk, if_false]
    simp only [keys, List.map_append, List.map_cons, List.map_nil] at hk h ⊢
    rw [List.nodup_append]
    refine ⟨h, by simp, ?_⟩
    intro k hk1 hk2
    simp only [List.mem_singleton] at hk2
    subst hk2
    exact hk hk1

/-- The inner loop of `generateAround`, over any list of `z` offsets. -/
theorem TerrainSystem.inner_loop (zs : List Int) (x : Int) (t : TerrainSystem α) :
    SameFrame t (zs.foldl (fun t z => t.generateChunk (t.currentChunkX + x) (t.currentChunkZ + z)) t) ∧
    (∀ k, k ∈ (zs.foldl (fun t z => t.generateChunk (t.currentChunkX + x) (t.currentChunkZ + z)) t).keys ↔
      k ∈ t.keys ∨ ∃ z ∈ zs, k = (t.currentChunkX + x, t.currentChunkZ + z)) ∧
    (t.keys.Nodup →
      (zs.foldl (fun t z => t.generateChunk (t.currentChunkX + x) (t.currentChunkZ + z)) t).keys.Nodup) := by
  induction zs generalizing t with
  | nil => simp [SameFrame.refl]
  | cons z zs ih =>
    simp only [List.foldl_cons]
    obtain ⟨hf, hm, hn⟩ := ih (t.generateChunk (t.currentChunkX + x) (t.currentChunkZ + z))
    have hg := generateChunk_sameFrame t (t.currentChunkX + x) (t.currentChunkZ + z)
    refine ⟨hg.trans hf, ?_, fun h => hn (nodup_keys_generateChunk _ _ _ h)⟩
    intro k
    rw [hm, mem_keys_generateChunk, hg.1, hg.2.1]
    simp only [List.mem_cons, exists_eq_or_imp, or_assoc]

/-- The double loop `generateAround`, over any list of `x` offsets. -/
theorem TerrainSystem.outer_loop (xs zs : List Int) (t : TerrainSystem α) :
    SameFrame t (xs.foldl (fun t x => zs.foldl
      (fun t z => t.generateChunk (t.currentChunkX + x) (t.currentChunkZ + z)) t) t) ∧
    (∀ k, k ∈ (xs.foldl (fun t x => zs.foldl
      (fun t z => t.generateChunk (t.currentChunkX + x) (t.currentChunkZ + z)) t) t).keys ↔
      k ∈ t.keys ∨ ∃ x ∈ xs, ∃ z ∈ zs, k = (t.currentChunkX + x, t.currentChunkZ + z)) ∧
    (t.keys.Nodup → (xs.foldl (fun t x => zs.foldl
      (fun t z => t.generateChunk (t.currentChunkX + x) (t.currentChunkZ + z)) t) t).keys.Nodup) := by
  induction xs generalizing t with
  | nil => simp [SameFrame.refl]
  | cons x xs ih =>
    simp only [List.foldl_cons]
    obtain ⟨hf, hm, hn⟩ := inner_loop zs x t
    obtain ⟨hf', hm', hn'⟩ := ih (zs.foldl
      (fun t z => t.generateChunk (t.currentChunkX + x) (t.currentChunkZ + z)) t)
    refine ⟨hf.trans hf', ?_, fun h => hn' (hn h)⟩
    intro k
    rw [hm', hm, hf.1, hf.2.1]
    simp only [List.mem_cons, exists_eq_or_imp, or_assoc]

theorem TerrainSystem.mem_loopOffsets (d : Int) : d ∈ loopOffsets ↔ -2 ≤ d ∧ d ≤ 2 := by
  have h : loopOffsets = [-2, -1, 0, 1, 2] := by decide
  rw [h]
  simp only [List.mem_cons, List.mem_singleton, List.not_mem_nil, or_false]
  omega

theorem TerrainSystem.length_of_square (keys : List (Int × Int)) (cx cz : Int)
    (hn : keys.Nodup)
    (hm : ∀ kx kz : Int, (kx, kz) ∈ keys ↔ |kx - cx| ≤ 2 ∧ |kz - cz| ≤ 2) :
    keys.length = 25 := by
  have hp : (List.product loopOffsets loopOffsets).Nodup := by decide
  have hinj : Function.Injective (fun d : Int × Int => (cx + d.1, cz + d.2)) := by
    rintro ⟨a, b⟩ ⟨c, d⟩ h
    simp only [Prod.mk.injEq] at h ⊢
    omega
  have hperm : keys.Perm ((List.product loopOffsets loopOffsets).map
      (fun d : Int × Int => (cx + d.1, cz + d.2))) := by
    rw [List.perm_ext_iff_of_nodup hn (hp.map hinj)]
    rintro ⟨kx, kz⟩
    rw [hm, List.mem_map]
    constructor
    · intro h
      rw [abs_le, abs_le] at h
      refine ⟨(kx - cx, kz - cz), ?_, ?_⟩
      · rw [List.pair_mem_product, mem_loopOffsets, mem_loopOffsets]
        omega
      · simp
    · rintro ⟨⟨a, b⟩, hd, he⟩
      rw [List.pair_mem_product, mem_loopOffsets, mem_loopOffsets] at hd
      simp only [Prod.mk.injEq] at he
      rw [abs_le, abs_le]
      omega
  rw [hperm.length_eq, List.length_map]
  decide

theorem TerrainSystem.generateAround_spec (t : TerrainSystem α) :
    SameFrame t t.generateAround ∧
    (∀ kx kz : Int, (kx, kz) ∈ t.generateAround.keys ↔
      (kx, kz) ∈ t.keys ∨ (|kx - t.currentChunkX| ≤ 2 ∧ |kz - t.currentChunkZ| ≤ 2)) ∧
    (t.keys.Nodup → t.generateAround.keys.Nodup) := by
  obtain ⟨hf, hm, hn⟩ := outer_loop loopOffsets loopOffsets t
  refine ⟨hf, ?_, hn⟩
  intro kx kz
  unfold generateAround
  rw [hm, abs_le, abs_le]
  apply or_congr Iff.rfl
  constructor
  · rintro ⟨x, hx, z, hz, he⟩
    rw [mem_loopOffsets] at hx hz
    simp only [Prod.mk.injEq] at he
    omega
  · intro h
    refine ⟨kx - t.currentChunkX, ?_, kz - t.currentChunkZ, ?_, ?_⟩
    · rw [mem_loopOffsets]; omega
    · rw [mem_loopOffsets]; omega
    · simp

theorem TerrainSystem.generateAround_square (t : TerrainSystem α) (hn : t.keys.Nodup)
    (hk : ∀ kx kz : Int, (kx, kz) ∈ t.keys →
      |kx - t.currentChunkX| ≤ 2 ∧ |kz - t.currentChunkZ| ≤ 2) :
    SameFrame t t.generateAround ∧
      SquareAround t.generateAround.keys t.currentChunkX t.currentChunkZ := by
  obtain ⟨hf, hm, hnd⟩ := generateAround_spec t
  have hmem : ∀ kx kz : Int, (kx, kz) ∈ t.generateAround.keys ↔
      |kx - t.currentChunkX| ≤ 2 ∧ |kz - t.currentChunkZ| ≤ 2 := by
    intro kx kz
    rw [hm]
    constructor
    · rintro (h | h)
      · exact hk kx kz h
      · exact h
    · exact Or.inr
  exact ⟨hf, hnd hn, length_of_square _ _ _ (hnd hn) hmem, hmem⟩

theorem TerrainSystem.updateChunks_spec (t : TerrainSystem α) (hn : t.keys.Nodup) :
    SameFrame t t.updateChunks ∧
      SquareAround t.updateChunks.keys t.currentChunkX t.currentChunkZ := by
  have hs : (List.map Prod.fst (t.chunkMap.filter (fun entry =>
      !decide (max |entry.1.1 - t.currentChunkX| |entry.1.2 - t.currentChunkZ| >
        renderDistance)))).Sublist (List.map Prod.fst t.chunkMap) :=
    (List.filter_sublist _).map _
  obtain ⟨hf, hsq⟩ := generateAround_square
    { t with chunkMap := t.chunkMap.filter (fun entry =>
               !decide (max |entry.1.1 - t.currentChunkX| |entry.1.2 - t.currentChunkZ| >
                 renderDistance)) }
    (List.Nodup.sublist hs hn)
    (by
      intro kx kz h
      simp only [keys] at h
      rw [List.mem_map] at h
      obtain ⟨⟨⟨a, b⟩, c⟩, he, hk⟩ := h
      rw [List.mem_filter] at he
      simp only [Prod.mk.injEq] at hk
      obtain ⟨rfl, rfl⟩ := hk
      have h2 := he.2
      simp only [renderDistance, gt_iff_lt, Bool.not_eq_true', decide_eq_false_iff_not, not_lt,
        max_le_iff] at h2
      exact h2)
  exact ⟨⟨hf.1, hf.2.1, hf.2.2.1, hf.2.2.2⟩, hsq⟩

/-- Claim C2. After `checkChunkUpdates`, the recorded cell is the camera's cell
`(⌊x / 32⌋, ⌊z / 32⌋)` and the keys of the chunk map are exactly the 25 cells within
two of it, each once, provided the keys were such a square around the cell
recorded before the call. -/
theorem checkChunkUpdates_square [FloorRing α] (t : TerrainSystem α) (camX camZ : α)
    (h : SquareAround t.keys t.currentChunkX t.currentChunkZ) :
    (t.checkChunkUpdates camX camZ).currentChunkX = ⌊camX / 32⌋ ∧
    (t.checkChunkUpdates camX camZ).currentChunkZ = ⌊camZ / 32⌋ ∧
    SquareAround (t.checkChunkUpdates camX camZ).keys ⌊camX / 32⌋ ⌊camZ / 32⌋ := by
  unfold checkChunkUpdates
  simp only [chunkSize]
  split
  · obtain ⟨hf, hs⟩ := updateChunks_spec
      { t with currentChunkX := ⌊camX / 32⌋, currentChunkZ := ⌊camZ / 32⌋ } h.1
    exact ⟨hf.1, hf.2.1, hs⟩
  · rename_i hne
    rw [not_or, not_not, not_not] at hne
    rw [hne.1, hne.2]
    exact ⟨rfl, rfl, h⟩

theorem TerrainSystem.new_sameFrame :
    SameFrame (createFlatSpawnArea (blank : TerrainSystem α)) (new : TerrainSystem α) := by
  unfold new generateInitialChunks
  exact (generateAround_spec _).1

theorem TerrainSystem.new_square : SquareAround (new : TerrainSystem α).keys 0 0 := by
  obtain ⟨_, hs⟩ := generateAround_square (createFlatSpawnArea (blank : TerrainSystem α))
    (by simp [createFlatSpawnArea, blank, keys]) (by simp [createFlatSpawnArea, blank, keys])
  unfold new generateInitialChunks
  exact hs

/-- Witness of `checkChunkUpdates_square`: the constructed terrain, the camera moved to
`(40, -5)`, which lies in cell `(1, -1)`. -/
theorem checkChunkUpdates_square_witness :
    SquareAround (new : TerrainSystem ℚ).keys
      (new : TerrainSystem ℚ).currentChunkX (new : TerrainSystem ℚ).currentChunkZ ∧
    ((new : TerrainSystem ℚ).checkChunkUpdates 40 (-5)).currentChunkX = 1 ∧
    ((new : TerrainSystem ℚ).checkChunkUpdates 40 (-5)).currentChunkZ = -1 ∧
    SquareAround ((new : TerrainSystem ℚ).checkChunkUpdates 40 (-5)).keys 1 (-1) := by
  have hx : ⌊(40 : ℚ) / 32⌋ = 1 := by
    rw [Int.floor_eq_iff]; norm_num
  have hz : ⌊(-5 : ℚ) / 32⌋ = -1 := by
    rw [Int.floor_eq_iff]; norm_num
  have h0 : SquareAround (new : TerrainSystem ℚ).keys
      (new : TerrainSystem ℚ).currentChunkX (new : TerrainSystem ℚ).currentChunkZ := by
    have hx0 : (new : TerrainSystem ℚ).currentChunkX = 0 := (new_sameFrame : SameFrame (createFlatSpawnArea blank) (new : TerrainSystem ℚ)).1
    have hz0 : (new : TerrainSystem ℚ).currentChunkZ = 0 := (new_sameFrame : SameFrame (createFlatSpawnArea blank) (new : TerrainSystem ℚ)).2.1
    rw [hx0, hz0]
    exact new_square
  have h := checkChunkUpdates_square (new : TerrainSystem ℚ) 40 (-5) h0
  rw [hx, hz] at h
  exact ⟨h0, h⟩

theorem TerrainSystem.updateChunks_spawn (t : TerrainSystem α) :
    t.updateChunks.spawnPosition = t.spawnPosition ∧ t.updateChunks.spawnHeight = t.spawnHeight := by
  unfold updateChunks
  exact ⟨(generateAround_spec _).1.2.2.1, (generateAround_spec _).1.2.2.2⟩

theorem TerrainSystem.checkChunkUpdates_spawn [FloorRing α] (t : TerrainSystem α) (camX camZ : α) :
    (t.checkChunkUpdates camX camZ).spawnPosition = t.spawnPosition ∧
      (t.checkChunkUpdates camX camZ).spawnHeight = t.spawnHeight := by
  unfold checkChunkUpdates
  simp only []
  split
  · exact updateChunks_spawn _
  · exact ⟨rfl, rfl⟩

/-- In every reachable terrain state the spawn point is the origin, at height 2. -/
theorem TerrainSystem.Reachable.spawn [FloorRing α] {t : TerrainSystem α} (h : Reachable t) :
    t.spawnPosition.x = 0 ∧ t.spawnPosition.z = 0 ∧ t.spawnHeight = 2 := by
  induction h with
  | init =>
    have hf : SameFrame (createFlatSpawnArea blank) (new : TerrainSystem α) := new_sameFrame
    rw [hf.2.2.1, hf.2.2.2]
    exact ⟨rfl, rfl, rfl⟩
  | frame t camX camZ _ ih =>
    obtain ⟨hp, hh⟩ := checkChunkUpdates_spawn t camX camZ
    rw [hp, hh]
    exact ih

/-- The value of `getPerlinHeight` over the reals in a reachable terrain state. -/
theorem TerrainSystem.getPerlinHeight_real {t : TerrainSystem ℝ} (h : Reachable t) (x z : ℝ) :
    getPerlinHeight realMath t x z =
      if Real.sqrt (x ^ 2 + z ^ 2) ≤ 20 then 2
      else if Real.sin (x * 0.005) * Real.cos (z * 0.005) > 0.7 then 1
      else max 1.5 (min 3.5 (2 + Real.sin (x * 0.01) * 0.8 + Real.cos (z * 0.01) * 0.8 +
        Real.sin ((x + z) * 0.015) * 0.4)) := by
  obtain ⟨hx, hz, hh⟩ := h.spawn
  simp only [getPerlinHeight, isWaterArea, realMath, spawnAreaRadius, waterHeight, hx, hz, hh,
    sub_zero, decide_eq_true_eq]
  norm_num

/-- Claim C8. In every terrain state the game reaches, whatever chunks it holds,
`getPerlinHeight(x, z)` is the height the specification describes. -/
theorem getPerlinHeight_eq_specHeight (t : TerrainSystem ℝ) (h : Reachable t) (x z : ℝ) :
    getPerlinHeight realMath t x z = specHeight x z := by
  rw [getPerlinHeight_real h, specHeight]
  simp only [mul_comm]
  norm_num

/-- Witness of `getPerlinHeight_eq_specHeight`: the constructed terrain after the camera
has moved to `(40, -5)`, at the point `(200, 0)`. -/
theorem getPerlinHeight_eq_specHeight_witness :
    Reachable ((new : TerrainSystem ℝ).checkChunkUpdates 40 (-5)) ∧
    getPerlinHeight realMath ((new : TerrainSystem ℝ).checkChunkUpdates 40 (-5)) 200 0 =
      specHeight 200 0 :=
  ⟨Reachable.frame _ _ _ Reachable.init,
    getPerlinHeight_eq_specHeight _ (Reachable.frame _ _ _ Reachable.init) 200 0⟩

theorem TerrainSystem.water_at_200 :
    ¬ (Real.sqrt ((200 : ℝ) ^ 2 + 0 ^ 2) ≤ 20) ∧
      Real.sin ((200 : ℝ) * 0.005) * Real.cos ((0 : ℝ) * 0.005) > 0.7 := by
  constructor
  · rw [not_le, Real.lt_sqrt (by norm_num)]; norm_num
  · have h1 : (1 : ℝ) - 1 ^ 3 / 4 < Real.sin 1 := Real.sin_gt_sub_cube (by norm_num) (by norm_num)
    have h2 : (200 : ℝ) * 0.005 = 1 := by norm_num
    rw [h2, zero_mul, Real.cos_zero, mul_one]
    norm_num at h1 ⊢
    linarith

theorem TerrainSystem.isWaterArea_at_200 : isWaterArea realMath (200 : ℝ) 0 = true := by
  simpa [isWaterArea, realMath] using water_at_200.2

theorem TerrainSystem.height_at_200 :
    getPerlinHeight realMath (new : TerrainSystem ℝ) 200 0 = 1 := by
  rw [getPerlinHeight_real Reachable.init, if_neg water_at_200.1, if_pos water_at_200.2]

theorem TerrainSystem.height_at_origin :
    getPerlinHeight realMath (new : TerrainSystem ℝ) 0 0 = 2 := by
  rw [getPerlinHeight_real Reachable.init, if_pos (by norm_num)]

/-- Claim C1, as stated, fails: at `(200, 0)`, a water point outside the spawn area, the
height is the water height `1.0`, below the band. -/
theorem getPerlinHeight_band_counterexample :
    getPerlinHeight realMath (new : TerrainSystem ℝ) 200 0 = 1 ∧
    ¬ (1.5 ≤ getPerlinHeight realMath (new : TerrainSystem ℝ) 200 0 ∧
        getPerlinHeight realMath (new : TerrainSystem ℝ) 200 0 ≤ 3.5) := by
  have h : getPerlinHeight realMath (new : TerrainSystem ℝ) 200 0 = 1 := by
    rw [getPerlinHeight_real Reachable.init, if_neg water_at_200.1, if_pos water_at_200.2]
  rw [h]
  norm_num

/-- Claim C1, amended. In every reachable terrain state and for all real `(x, z)`:
at a water point outside the spawn radius the height is the water height `1.0`;
everywhere else it lies in the band `[1.5, 3.5]`. -/
theorem getPerlinHeight_band (t : TerrainSystem ℝ) (h : Reachable t) (x z : ℝ) :
    (isWaterArea realMath x z = true ∧ ¬ (Real.sqrt (x ^ 2 + z ^ 2) ≤ 20) →
      getPerlinHeight realMath t x z = 1.0) ∧
    (¬ (isWaterArea realMath x z = true ∧ ¬ (Real.sqrt (x ^ 2 + z ^ 2) ≤ 20)) →
      1.5 ≤ getPerlinHeight realMath t x z ∧ getPerlinHeight realMath t x z ≤ 3.5) := by
  rw [getPerlinHeight_real h]
  simp only [isWaterArea, realMath, decide_eq_true_eq]
  constructor
  · rintro ⟨hw, hs⟩
    rw [if_neg hs, if_pos hw]
    norm_num
  · intro hn
    by_cases hs : Real.sqrt (x ^ 2 + z ^ 2) ≤ 20
    · rw [if_pos hs]; norm_num
    · have hw : ¬ (Real.sin (x * 0.005) * Real.cos (z * 0.005) > 0.7) := fun hw => hn ⟨hw, hs⟩
      rw [if_neg hs, if_neg hw]
      exact ⟨le_max_left _ _, max_le (by norm_num) (min_le_left _ _)⟩

/-- Witness of `getPerlinHeight_band`: the constructed terrain at the water point
`(200, 0)` and at the origin. -/
theorem getPerlinHeight_band_witness :
    Reachable (new : TerrainSystem ℝ) ∧
    getPerlinHeight realMath (new : TerrainSystem ℝ) 200 0 = 1.0 ∧
    (1.5 ≤ getPerlinHeight realMath (new : TerrainSystem ℝ) 0 0 ∧
      getPerlinHeight realMath (new : TerrainSystem ℝ) 0 0 ≤ 3.5) :=
  ⟨Reachable.init,
    (getPerlinHeight_band _ Reachable.init 200 0).1
      ⟨isWaterArea_at_200, water_at_200.1⟩,
    (getPerlinHeight_band _ Reachable.init 0 0).2 (fun h => h.2 (by norm_num))⟩

end TerrainProofs

section PlayerProofs

open PlayerSystem

variable {α : Type} [LinearOrderedField α]

@[simp] theorem PlayerSystem.takeDamage_isGrounded (amount : α) (p : PlayerSystem α) :
    (takeDamage amount p).isGrounded = p.isGrounded := by
  unfold takeDamage; simp only []; split <;> rfl

@[simp] theorem PlayerSystem.takeDamage_isFlying (amount : α) (p : PlayerSystem α) :
    (takeDamage amount p).isFlying = p.isFlying := by
  unfold takeDamage; simp only []; split <;> rfl

@[simp] theorem PlayerSystem.takeDamage_lootDropped (amount : α) (p : PlayerSystem α) :
    (takeDamage amount p).lootDropped = p.lootDropped := by
  unfold takeDamage; simp only []; split <;> rfl

@[simp] theorem PlayerSystem.takeDamage_isSwimming (amount : α) (p : PlayerSystem α) :
    (takeDamage amount p).isSwimming = p.isSwimming := by
  unfold takeDamage; simp only []; split <;> rfl

@[simp] theorem PlayerSystem.takeDamage_keys (amount : α) (p : PlayerSystem α) :
    (takeDamage amount p).keys = p.keys := by
  unfold takeDamage; simp only []; split <;> rfl

@[simp] theorem PlayerSystem.takeDamage_camera (amount : α) (p : PlayerSystem α) :
    (takeDamage amount p).camera = p.camera := by
  unfold takeDamage; simp only []; split <;> rfl

@[simp] theorem PlayerSystem.takeDamage_jumpVelocity (amount : α) (p : PlayerSystem α) :
    (takeDamage amount p).jumpVelocity = p.jumpVelocity := by
  unfold takeDamage; simp only []; split <;> rfl

theorem PlayerSystem.takeDamage_isDead (amount : α) (p : PlayerSystem α)
    (h : p.isDead = true) : (takeDamage amount p).isDead = true := by
  unfold takeDamage; simp only []; split
  · rfl
  · exact h

/-- What `update` does to a dead player: `handleDeath` only. -/
theorem PlayerSystem.update_dead (M : JSMath α) (e : FrameEnv α) (g : Game α)
    (h : g.playerSystem.isDead = true) : update M e g = handleDeath e g := by
  unfold update
  simp only [h, if_true]

@[simp] theorem PlayerSystem.updateOxygen_isFlying (dt : α) (p : PlayerSystem α) :
    (updateOxygen dt p).isFlying = p.isFlying := by
  unfold updateOxygen; simp only []; split_ifs <;> simp [setSpeed]

@[simp] theorem PlayerSystem.updateOxygen_isGrounded (dt : α) (p : PlayerSystem α) :
    (updateOxygen dt p).isGrounded = p.isGrounded := by
  unfold updateOxygen; simp only []; split_ifs <;> simp [setSpeed]

@[simp] theorem PlayerSystem.updateOxygen_isSwimming (dt : α) (p : PlayerSystem α) :
    (updateOxygen dt p).isSwimming = p.isSwimming := by
  unfold updateOxygen; simp only []; split_ifs <;> simp [setSpeed]

@[simp] theorem PlayerSystem.updateOxygen_lootDropped (dt : α) (p : PlayerSystem α) :
    (updateOxygen dt p).lootDropped = p.lootDropped := by
  unfold updateOxygen; simp only []; split_ifs <;> simp [setSpeed]

theorem PlayerSystem.updateFlying_flags (M : JSMath α) (t : TerrainSystem α) (e : FrameEnv α)
    (x y z : α) (p : PlayerSystem α) (h : p.isFlying = true) :
    (updateFlying M t e x y z p).isFlying = true ∧
    (updateFlying M t e x y z p).isGrounded = p.isGrounded ∧
    (updateFlying M t e x y z p).lootDropped = p.lootDropped := by
  unfold updateFlying; simp only []; split_ifs <;> simp_all [setY]

theorem PlayerSystem.updateSwimming_flags (M : JSMath α) (t : TerrainSystem α) (e : FrameEnv α)
    (x y z : α) (p : PlayerSystem α) :
    (updateSwimming M t e x y z p).isFlying = p.isFlying ∧
    (updateSwimming M t e x y z p).isGrounded = false ∧
    (updateSwimming M t e x y z p).lootDropped = p.lootDropped := by
  unfold updateSwimming; simp only []; split_ifs <;> simp_all [setY]

theorem PlayerSystem.updateAirborne_flags (M : JSMath α) (t : TerrainSystem α) (e : FrameEnv α)
    (x y z : α) (p : PlayerSystem α) :
    (updateAirborne M t e x y z p).isFlying = p.isFlying ∧
    (updateAirborne M t e x y z p).lootDropped = p.lootDropped := by
  unfold updateAirborne; simp only []; split_ifs <;> simp_all [setY]

theorem PlayerSystem.updateGrounded_flags (M : JSMath α) (t : TerrainSystem α)
    (x z : α) (p : PlayerSystem α) :
    (updateGrounded M t x z p).isFlying = p.isFlying ∧
    (updateGrounded M t x z p).isGrounded = p.isGrounded ∧
    (updateGrounded M t x z p).lootDropped = p.lootDropped := by
  unfold updateGrounded; simp [setY]

theorem PlayerSystem.updateMovement_flags (M : JSMath α) (t : TerrainSystem α) (e : FrameEnv α)
    (x y z : α) (p : PlayerSystem α) :
    (updateMovement M t e x y z p).isFlying = p.isFlying ∧
    (updateMovement M t e x y z p).lootDropped = p.lootDropped ∧
    (p.isFlying = true → (updateMovement M t e x y z p).isGrounded = p.isGrounded) := by
  unfold updateMovement
  split_ifs with h1 h2 h3
  · obtain ⟨a, b, c⟩ := updateFlying_flags M t e x y z p h1
    exact ⟨a.trans h1.symm, c, fun _ => b⟩
  · obtain ⟨a, _, c⟩ := updateSwimming_flags M t e x y z p
    exact ⟨a, c, fun h => absurd h h1⟩
  · obtain ⟨a, c⟩ := updateAirborne_flags M t e x y z p
    exact ⟨a, c, fun h => absurd h h1⟩
  · obtain ⟨a, _, c⟩ := updateGrounded_flags M t x z p
    exact ⟨a, c, fun h => absurd h h1⟩

/-- What `update` does for a living player. -/
theorem PlayerSystem.update_alive (M : JSMath α) (e : FrameEnv α) (g : Game α)
    (h : g.playerSystem.isDead = false) :
    update M e g = { g with playerSystem := updateAlive M g.terrainSystem e g.playerSystem } := by
  unfold update
  rw [if_neg (by simp [h])]

/-- What `updateAlive` does to the flags. -/
theorem PlayerSystem.updateAlive_flags (M : JSMath α) (t : TerrainSystem α) (e : FrameEnv α)
    (p : PlayerSystem α) :
    (updateAlive M t e p).isFlying = p.isFlying ∧
    (updateAlive M t e p).lootDropped = p.lootDropped ∧
    (p.isFlying = true → (updateAlive M t e p).isGrounded = p.isGrounded) := by
  unfold updateAlive
  simp only []
  obtain ⟨a, b, c⟩ := updateMovement_flags M t e p.camera.position.x
    p.camera.position.y p.camera.position.z
    (updateOxygen e.deltaTime { p with isSwimming := inWater M p })
  simp only [updateOxygen_isFlying, updateOxygen_lootDropped, updateOxygen_isGrounded] at a b c
  exact ⟨a, b, c⟩

/-- What `update` does to the flags of a living player. -/
theorem PlayerSystem.update_alive_flags (M : JSMath α) (e : FrameEnv α) (g : Game α)
    (h : g.playerSystem.isDead = false) :
    (update M e g).playerSystem.isFlying = g.playerSystem.isFlying ∧
    (update M e g).playerSystem.lootDropped = g.playerSystem.lootDropped ∧
    (g.playerSystem.isFlying = true →
      (update M e g).playerSystem.isGrounded = g.playerSystem.isGrounded) := by
  rw [update_alive M e g h]
  exact updateAlive_flags M g.terrainSystem e g.playerSystem

/-- What `handleDeath` does: the first call drops the loot and sets the respawn timer,
every later call does nothing. -/
theorem PlayerSystem.handleDeath_spec (e : FrameEnv α) (g : Game α) :
    (g.playerSystem.lootDropped = false →
      handleDeath e g =
        { g with
          inventorySystem := g.inventorySystem.dropAllItems g.playerSystem.camera.position
            e.now e.scatter,
          playerSystem := { g.playerSystem with lootDropped := true },
          trace := g.trace ++ [Effect.dropAllItems g.playerSystem.camera.position,
            Effect.setTimeout Callback.respawn 3000] }) ∧
    (g.playerSystem.lootDropped = true → handleDeath e g = g) := by
  unfold handleDeath dropLoot callDropAllItems
  constructor
  · intro h
    simp [h]
  · intro h
    simp [h]

theorem PlayerSystem.update_inv (M : JSMath α) (e : FrameEnv α) (g : Game α)
    (h : Game.PlayerInv g.playerSystem) : Game.PlayerInv (update M e g).playerSystem := by
  obtain ⟨h1, h2⟩ := h
  cases hd : g.playerSystem.isDead
  · obtain ⟨a, b, c⟩ := update_alive_flags M e g hd
    constructor
    · intro hg
      rw [a]
      cases hf : g.playerSystem.isFlying
      · rfl
      · rw [c hf] at hg
        rw [h1 hg] at hf
        exact absurd hf (by simp)
    · intro hl
      rw [b] at hl
      rw [h2 hl] at hd
      exact absurd hd (by simp)
  · rw [update_dead M e g hd]
    cases hl : g.playerSystem.lootDropped
    · rw [(handleDeath_spec e g).1 hl]
      exact ⟨h1, fun _ => hd⟩
    · rw [(handleDeath_spec e g).2 hl]
      exact ⟨h1, h2⟩

theorem PlayerSystem.jump_inv (now : Int) (p : PlayerSystem α) (h : Game.PlayerInv p) :
    Game.PlayerInv (jump now p) := by
  obtain ⟨h1, h2⟩ := h
  unfold jump
  simp only []
  split_ifs <;> simp_all [Game.PlayerInv]

omit [LinearOrderedField α] in
theorem PlayerSystem.updateKeyState_inv (keyCode : Nat) (isPressed : Bool) (p : PlayerSystem α)
    (h : Game.PlayerInv p) : Game.PlayerInv (updateKeyState keyCode isPressed p) := by
  unfold updateKeyState
  split_ifs <;> exact h

theorem PlayerSystem.takeDamage_inv (amount : α) (p : PlayerSystem α) (h : Game.PlayerInv p) :
    Game.PlayerInv (takeDamage amount p) := by
  obtain ⟨h1, h2⟩ := h
  refine ⟨by simpa using h1, ?_⟩
  intro hl
  rw [takeDamage_lootDropped] at hl
  exact takeDamage_isDead amount p (h2 hl)

theorem PlayerSystem.respawn_inv (t : TerrainSystem α) (p : PlayerSystem α) :
    Game.PlayerInv (respawn t p) := by
  simp [respawn, Game.PlayerInv]

omit [LinearOrderedField α] in
theorem CombatSystem.tryAttack_playerSystem (hit : Option Pick) (g : Game α) :
    (CombatSystem.tryAttack hit g).playerSystem = g.playerSystem := by
  unfold CombatSystem.tryAttack
  split <;> rfl

theorem CombatSystem.specialAttack_playerSystem (M : JSMath α) (g : Game α) :
    (CombatSystem.specialAttack M g).playerSystem = g.playerSystem := by
  unfold CombatSystem.specialAttack
  split <;> rfl

theorem AnimalSystem.animalUpdate_playerSystem (M : JSMath α) (e : AnimalEnv α) (g : Game α) :
    (AnimalSystem.update M e g).playerSystem = g.playerSystem := by
  unfold AnimalSystem.update
  rfl

/-- The flags of the player are consistent in every reachable game state. -/
theorem Game.Reachable.playerInv [FloorRing α] {M : JSMath α} {g : Game α}
    (h : Game.Reachable M g) : Game.PlayerInv g.playerSystem := by
  induction h with
  | init => simp [Game.PlayerInv, Game.new, PlayerSystem.new]
  | step _ hs ih =>
    cases hs with
    | playerUpdate e g => exact update_inv M e _ ih
    | checkChunkUpdates g => exact ih
    | inventoryUpdate g => exact ih
    | animalUpdate e g => rw [AnimalSystem.animalUpdate_playerSystem]; exact ih
    | tryHarvest hit g => exact ih
    | tryAttack hit g => rw [CombatSystem.tryAttack_playerSystem]; exact ih
    | specialAttack g => rw [CombatSystem.specialAttack_playerSystem]; exact ih
    | craftPlanks g => exact ih
    | craftTool g => exact ih
    | dropAllItems position now scatter g => exact ih
    | updateKeyState keyCode isPressed g => exact updateKeyState_inv _ _ _ ih
    | jump now g => exact jump_inv _ _ ih
    | takeDamage amount g => exact takeDamage_inv _ _ ih
    | respawn g => exact respawn_inv _ _
    | endAttack g => exact ih
    | cameraMoved position g => exact ih
    | populated objects g => exact ih

theorem PlayerSystem.playerUpdate_terrainSystem (M : JSMath α) (e : FrameEnv α) (g : Game α) :
    (update M e g).terrainSystem = g.terrainSystem := by
  cases hd : g.playerSystem.isDead
  · rw [update_alive M e g hd]
  · rw [update_dead M e g hd]
    cases hl : g.playerSystem.lootDropped
    · rw [(handleDeath_spec e g).1 hl]
    · rw [(handleDeath_spec e g).2 hl]

omit [LinearOrderedField α] in
theorem CombatSystem.tryAttack_terrainSystem (hit : Option Pick) (g : Game α) :
    (CombatSystem.tryAttack hit g).terrainSystem = g.terrainSystem := by
  unfold CombatSystem.tryAttack
  split <;> rfl

theorem CombatSystem.specialAttack_terrainSystem (M : JSMath α) (g : Game α) :
    (CombatSystem.specialAttack M g).terrainSystem = g.terrainSystem := by
  unfold CombatSystem.specialAttack
  split <;> rfl

theorem AnimalSystem.animalUpdate_terrainSystem (M : JSMath α) (e : AnimalEnv α) (g : Game α) :
    (AnimalSystem.update M e g).terrainSystem = g.terrainSystem := by
  unfold AnimalSystem.update
  rfl

/-- The terrain of a reachable game is a reachable terrain state. -/
theorem Game.Reachable.terrain [FloorRing α] {M : JSMath α} {g : Game α}
    (h : Game.Reachable M g) : TerrainSystem.Reachable g.terrainSystem := by
  induction h with
  | init =>
    have h0 : (Game.new : Game α).terrainSystem = TerrainSystem.new := by
      simp only [Game.new]
    rw [h0]
    exact TerrainSystem.Reachable.init
  | step _ hs ih =>
    cases hs with
    | playerUpdate e g => rw [playerUpdate_terrainSystem]; exact ih
    | checkChunkUpdates g => exact TerrainSystem.Reachable.frame _ _ _ ih
    | inventoryUpdate g => exact ih
    | animalUpdate e g => rw [AnimalSystem.animalUpdate_terrainSystem]; exact ih
    | tryHarvest hit g => exact ih
    | tryAttack hit g => rw [CombatSystem.tryAttack_terrainSystem]; exact ih
    | specialAttack g => rw [CombatSystem.specialAttack_terrainSystem]; exact ih
    | craftPlanks g => exact ih
    | craftTool g => exact ih
    | dropAllItems position now scatter g => exact ih
    | updateKeyState keyCode isPressed g => exact ih
    | jump now g => exact ih
    | takeDamage amount g => exact ih
    | respawn g => exact ih
    | endAttack g => exact ih
    | cameraMoved position g => exact ih
    | populated objects g => exact ih

theorem Game.Reachable.keydown [FloorRing α] {M : JSMath α} {g : Game α}
    (h : Game.Reachable M g) (keyCode : Nat) (now : Int) :
    Game.Reachable M (Game.keydown keyCode now g) := by
  have h1 := Game.Reachable.step h (Game.Step.updateKeyState keyCode true g)
  unfold Game.keydown
  simp only []
  split_ifs
  · exact Game.Reachable.step h1 (Game.Step.jump now _)
  · exact h1

/-- Claim C5. In every game state reachable from the constructed game by calls of
`jump`, `update`, `takeDamage` and `respawn` (and by every other call into the game
logic), the player is not both grounded and flying. -/
theorem grounded_flying_exclusive [FloorRing α] (M : JSMath α) (g : Game α)
    (h : Game.Reachable M g) :
    ¬ (g.playerSystem.isGrounded = true ∧ g.playerSystem.isFlying = true) := by
  rintro ⟨hg, hf⟩
  rw [h.playerInv.1 hg] at hf
  exact absurd hf (by simp)

/-- Witness of `grounded_flying_exclusive`: the key presses jump, jump within the
window and jump, at 0, 100 and 200 ms. -/
theorem grounded_flying_exclusive_witness :
    Game.Reachable realMath
      (Game.keydown 32 200 (Game.keydown 32 100 (Game.keydown 32 0 (Game.new : Game ℝ)))) ∧
    ¬ ((Game.keydown 32 200 (Game.keydown 32 100 (Game.keydown 32 0
          (Game.new : Game ℝ)))).playerSystem.isGrounded = true ∧
       (Game.keydown 32 200 (Game.keydown 32 100 (Game.keydown 32 0
          (Game.new : Game ℝ)))).playerSystem.isFlying = true) :=
  ⟨((Game.Reachable.init.keydown 32 0).keydown 32 100).keydown 32 200,
    grounded_flying_exclusive realMath _
      (((Game.Reachable.init.keydown 32 0).keydown 32 100).keydown 32 200)⟩

/-- Claim C6, as stated, fails: the player that has just activated flying (jumps at 0
and 100 ms) and jumps again is not grounded afterwards. -/
theorem jump_while_flying_counterexample :
    (jump 100 (jump 0 (new : PlayerSystem ℚ))).isFlying = true ∧
    ¬ ((jump 200 (jump 100 (jump 0 (new : PlayerSystem ℚ)))).isGrounded = true ∧
       (jump 200 (jump 100 (jump 0 (new : PlayerSystem ℚ)))).isFlying = false) := by
  simp [jump, new, jumpTimerThreshold]

/-- Claim C6, amended. For every player state that is flying and not grounded, after
`jump()` the player is no longer flying, is still not grounded and has jump velocity 0:
it falls; nothing else changes. -/
theorem jump_while_flying (now : Int) (p : PlayerSystem α)
    (hf : p.isFlying = true) (hg : p.isGrounded = false) :
    (jump now p).isFlying = false ∧ (jump now p).isGrounded = false ∧
    (jump now p).jumpVelocity = 0 ∧
    jump now p = { p with isFlying := false, jumpVelocity := 0 } := by
  unfold jump
  simp [hf, hg]

/-- Witness of `jump_while_flying`: the player that has just activated flying. -/
theorem jump_while_flying_witness :
    (jump 100 (jump 0 (new : PlayerSystem ℚ))).isFlying = true ∧
    (jump 100 (jump 0 (new : PlayerSystem ℚ))).isGrounded = false ∧
    (jump 200 (jump 100 (jump 0 (new : PlayerSystem ℚ)))).isFlying = false ∧
    (jump 200 (jump 100 (jump 0 (new : PlayerSystem ℚ)))).isGrounded = false ∧
    (jump 200 (jump 100 (jump 0 (new : PlayerSystem ℚ)))).jumpVelocity = 0 :=
  have hf : (jump 100 (jump 0 (new : PlayerSystem ℚ))).isFlying = true := by
    simp [jump, new, jumpTimerThreshold]
  have hg : (jump 100 (jump 0 (new : PlayerSystem ℚ))).isGrounded = false := by
    simp [jump, new, jumpTimerThreshold]
  have h := jump_while_flying 200 (jump 100 (jump 0 (new : PlayerSystem ℚ))) hf hg
  ⟨hf, hg, h.1, h.2.1, h.2.2.1⟩

/-- Claim C7. `jump()` from a grounded state enters the airborne state, with jump
velocity `jumpHeight = 5`, the double jump armed and the timer set to the clock. A
second `jump()` of a player that is still airborne (not grounded, not flying, double
jump armed) activates flying exactly when it comes less than 300 ms after the time the
timer holds, then with jump velocity 2.5 and the current camera height as flying
height; in either case it disarms the double jump. -/
theorem jump_then_double_jump (now : Int) (p : PlayerSystem α) (hg : p.isGrounded = true) :
    ((jump now p).isGrounded = false ∧ (jump now p).isJumping = true ∧
      (jump now p).jumpVelocity = jumpHeight ∧ (jumpHeight : α) = 5 ∧
      (jump now p).canDoubleJump = true ∧ (jump now p).jumpTimer = now) ∧
    ∀ (a : PlayerSystem α) (now2 : Int), a.isGrounded = false → a.isFlying = false →
      a.canDoubleJump = true → a.jumpTimer = now →
      ((jump now2 a).isFlying = true ↔ now2 - now < 300) ∧
      (now2 - now < 300 →
        (jump now2 a).jumpVelocity = 2.5 ∧ (jump now2 a).flyingHeight = a.camera.position.y) ∧
      (jump now2 a).canDoubleJump = false := by
  constructor
  · unfold jump
    simp [hg, jumpHeight]
  · intro a now2 h1 h2 h3 h4
    unfold jump
    simp only [h1, h2, h3, h4, jumpTimerThreshold, jumpHeight]
    by_cases hw : now2 - now < 300
    · simp [hw]
      norm_num
    · simp [hw]

/-- Witness of `jump_then_double_jump`: the constructed player jumps at 0 ms. -/
theorem jump_then_double_jump_witness :
    (new : PlayerSystem ℚ).isGrounded = true ∧
    (jump 0 (new : PlayerSystem ℚ)).jumpVelocity = 5 ∧
    ((jump 100 (jump 0 (new : PlayerSystem ℚ))).isFlying = true ↔ (100 : Int) - 0 < 300) ∧
    ((jump 400 (jump 0 (new : PlayerSystem ℚ))).isFlying = true ↔ (400 : Int) - 0 < 300) :=
  have h := jump_then_double_jump 0 (new : PlayerSystem ℚ) rfl
  have ha : (jump 0 (new : PlayerSystem ℚ)).isFlying = false := by simp [jump, new]
  ⟨rfl, h.1.2.2.1.trans h.1.2.2.2.1,
    (h.2 (jump 0 new) 100 h.1.1 ha h.1.2.2.2.2.1 h.1.2.2.2.2.2).1,
    (h.2 (jump 0 new) 400 h.1.1 ha h.1.2.2.2.2.1 h.1.2.2.2.2.2).1⟩

/-- An `update` of a dead player whose loot has been dropped changes nothing. -/
theorem PlayerSystem.update_dead_dropped (M : JSMath α) (e : FrameEnv α) (g : Game α)
    (hd : g.playerSystem.isDead = true) (hl : g.playerSystem.lootDropped = true) :
    update M e g = g := by
  rw [update_dead M e g hd, (handleDeath_spec e g).2 hl]

theorem Game.runUpdates_dead_dropped (M : JSMath α) (es : List (FrameEnv α)) (g : Game α)
    (hd : g.playerSystem.isDead = true) (hl : g.playerSystem.lootDropped = true) :
    Game.runUpdates M es g = g := by
  induction es with
  | nil => rfl
  | cons e es ih =>
    unfold Game.runUpdates at ih ⊢
    rw [List.foldl_cons, update_dead_dropped M e g hd hl]
    exact ih

/-- Claim C4. Let a `takeDamage` call kill the living player of a reachable game. The
first `update` after it appends exactly one `dropAllItems` call (at the camera
position) and one respawn timer (3000 ms) to the trace, and any number of further
`update` calls leaves the game, its trace included, as it is, the player still dead. -/
theorem death_drops_loot_once [FloorRing α] (M : JSMath α) (g : Game α)
    (hr : Game.Reachable M g) (amount : α)
    (hlive : g.playerSystem.isDead = false)
    (hkill : (g.playerSystem.takeDamage amount).isDead = true)
    (e : FrameEnv α) (es : List (FrameEnv α)) :
    (update M e (Game.damagePlayer amount g)).trace =
      g.trace ++ [Effect.dropAllItems g.playerSystem.camera.position,
        Effect.setTimeout Callback.respawn 3000] ∧
    Game.runUpdates M es (update M e (Game.damagePlayer amount g)) =
      update M e (Game.damagePlayer amount g) ∧
    (Game.runUpdates M es (update M e (Game.damagePlayer amount g))).playerSystem.isDead = true := by
  have hl : g.playerSystem.lootDropped = false := by
    cases h : g.playerSystem.lootDropped
    · rfl
    · rw [hr.playerInv.2 h] at hlive
      exact absurd hlive (by simp)
  have hl0 : (Game.damagePlayer amount g).playerSystem.lootDropped = false := by
    simp [Game.damagePlayer, hl]
  have hd0 : (Game.damagePlayer amount g).playerSystem.isDead = true := hkill
  have h1 : update M e (Game.damagePlayer amount g) = _ :=
    (update_dead M e _ hd0).trans ((handleDeath_spec e _).1 hl0)
  have hd1 : (update M e (Game.damagePlayer amount g)).playerSystem.isDead = true := by
    rw [h1]; exact hd0
  have hl1 : (update M e (Game.damagePlayer amount g)).playerSystem.lootDropped = true := by
    rw [h1]
  have hrun := Game.runUpdates_dead_dropped M es _ hd1 hl1
  refine ⟨?_, hrun, ?_⟩
  · rw [h1]
    simp [Game.damagePlayer]
  · rw [hrun]; exact hd1

/-- Witness of `death_drops_loot_once`: the constructed game, the player taking 100
damage, then three frames. -/
theorem death_drops_loot_once_witness :
    Game.Reachable realMath (Game.new : Game ℝ) ∧
    (Game.new : Game ℝ).playerSystem.isDead = false ∧
    ((Game.new : Game ℝ).playerSystem.takeDamage 100).isDead = true ∧
    (update realMath ⟨1, 0, fun _ => (0, 0)⟩ (Game.damagePlayer 100 (Game.new : Game ℝ))).trace =
      [Effect.dropAllItems ⟨0, 5, -10⟩, Effect.setTimeout Callback.respawn 3000] ∧
    (Game.runUpdates realMath [⟨1, 16, fun _ => (0, 0)⟩, ⟨1, 32, fun _ => (0, 0)⟩]
      (update realMath ⟨1, 0, fun _ => (0, 0)⟩ (Game.damagePlayer 100 (Game.new : Game ℝ)))).trace =
      [Effect.dropAllItems ⟨0, 5, -10⟩, Effect.setTimeout Callback.respawn 3000] := by
  have hkill : ((Game.new : Game ℝ).playerSystem.takeDamage 100).isDead = true := by
    simp [Game.new, PlayerSystem.new, takeDamage]
  have h := death_drops_loot_once realMath (Game.new : Game ℝ) Game.Reachable.init 100 rfl hkill
    ⟨1, 0, fun _ => (0, 0)⟩ [⟨1, 16, fun _ => (0, 0)⟩, ⟨1, 32, fun _ => (0, 0)⟩]
  refine ⟨Game.Reachable.init, rfl, hkill, ?_, ?_⟩
  · rw [h.1]
    simp [Game.new, PlayerSystem.new]
  · rw [h.2.1, h.1]
    simp [Game.new, PlayerSystem.new]

end PlayerProofs

section InventoryProofs

open InventorySystem

variable {α : Type} [LinearOrderedField α]

omit [LinearOrderedField α] in
theorem InventorySystem.tryHarvest_inv (hit : Option Pick) (s : InventorySystem α)
    (h : s.CountsNonneg) : (tryHarvest hit s).CountsNonneg := by
  obtain ⟨⟨h1, h2, h3, h4⟩, h5⟩ := h
  unfold tryHarvest
  split
  · exact ⟨⟨h1, h2, h3, h4⟩, h5⟩
  · split
    · exact ⟨⟨h1, h2, h3, h4⟩, h5⟩
    · simp only [CountsNonneg]
      refine ⟨?_, h5⟩
      split_ifs
      · exact ⟨by simp only []; omega, h2, h3, h4⟩
      · exact ⟨h1, by simp only []; omega, h3, h4⟩
      · exact ⟨h1, h2, h3, h4⟩

omit [LinearOrderedField α] in
theorem InventorySystem.craftPlanks_inv (s : InventorySystem α) (h : s.CountsNonneg) :
    (craftPlanks s).CountsNonneg := by
  obtain ⟨⟨h1, h2, h3, h4⟩, h5⟩ := h
  unfold craftPlanks
  split_ifs with hw
  · exact ⟨⟨by simp only []; omega, h2, by simp only []; omega, h4⟩, h5⟩
  · exact ⟨⟨h1, h2, h3, h4⟩, h5⟩

omit [LinearOrderedField α] in
theorem InventorySystem.craftTool_inv (s : InventorySystem α) (h : s.CountsNonneg) :
    (craftTool s).CountsNonneg := by
  obtain ⟨⟨h1, h2, h3, h4⟩, h5⟩ := h
  unfold craftTool
  split_ifs with hw
  · exact ⟨⟨h1, by simp only []; omega, by simp only []; omega, by simp only []; omega⟩, h5⟩
  · exact ⟨⟨h1, h2, h3, h4⟩, h5⟩

/-- One round of the loop of `dropAllItems` keeps the counters and the dropped counts
non-negative. -/
theorem InventorySystem.dropRound_inv (position : Vec3 α) (now : Int)
    (scatter : ItemType → α × α) (s : InventorySystem α) (itemType : ItemType) (h : s.CountsNonneg) :
    (dropRound position now scatter s itemType).CountsNonneg := by
  obtain ⟨⟨h1, h2, h3, h4⟩, h5⟩ := h
  unfold dropRound
  simp only []
  split_ifs with hc
  · constructor
    · cases itemType <;> simp [createLootBag, Inventory.set, h1, h2, h3, h4]
    · intro item hi
      simp only [createLootBag, List.mem_append, List.mem_singleton] at hi
      rcases hi with hi | hi
      · exact h5 item hi
      · rw [hi]
        exact le_of_lt hc
  · exact ⟨⟨h1, h2, h3, h4⟩, h5⟩

theorem InventorySystem.dropAllItems_inv (position : Vec3 α) (now : Int)
    (scatter : ItemType → α × α) (s : InventorySystem α) (h : s.CountsNonneg) :
    (dropAllItems position now scatter s).CountsNonneg := by
  unfold dropAllItems
  simp only [List.foldl_cons, List.foldl_nil]
  exact dropRound_inv _ _ _ _ _ (dropRound_inv _ _ _ _ _ (dropRound_inv _ _ _ _ _
    (dropRound_inv _ _ _ _ _ h)))

/-- One round of the loop of `checkForLoot` keeps the counters and the dropped counts
non-negative. -/
theorem InventorySystem.lootRound_inv (M : JSMath α) (playerPos : Vec3 α)
    (item : DroppedItem α) (s : InventorySystem α) (h : s.CountsNonneg) (hitem : 0 ≤ item.count) :
    (lootRound M playerPos item s).CountsNonneg := by
  obtain ⟨⟨h1, h2, h3, h4⟩, h5⟩ := h
  unfold lootRound
  simp only []
  split_ifs
  · refine ⟨?_, h5⟩
    cases hk : item.itemType <;> simp only [Inventory.set, Inventory.get] <;>
      refine ⟨?_, ?_, ?_, ?_⟩ <;> first | assumption | omega
  · refine ⟨⟨h1, h2, h3, h4⟩, ?_⟩
    intro i hm
    simp only [List.mem_cons] at hm
    rcases hm with hm | hm
    · rw [hm]; exact hitem
    · exact h5 i hm

theorem InventorySystem.checkForLoot_inv (M : JSMath α) (playerPos : Vec3 α)
    (s : InventorySystem α) (h : s.CountsNonneg) : (checkForLoot M playerPos s).CountsNonneg := by
  unfold checkForLoot
  split_ifs
  · exact h
  · have hbase : CountsNonneg ({ s with droppedItems := [] } : InventorySystem α) :=
      ⟨h.1, fun item hi => absurd hi (List.not_mem_nil item)⟩
    have hall := h.2
    generalize s.droppedItems = items at hall
    induction items with
    | nil => exact hbase
    | cons item items ih =>
      rw [List.foldr_cons]
      exact lootRound_inv M playerPos item _
        (ih (fun i hm => hall i (List.mem_cons_of_mem _ hm))) (hall item (List.mem_cons_self _ _))

theorem CombatSystem.specialAttack_inv (M : JSMath α) (g : Game α)
    (h : g.inventorySystem.CountsNonneg) : (CombatSystem.specialAttack M g).inventorySystem.CountsNonneg := by
  obtain ⟨⟨h1, h2, h3, h4⟩, h5⟩ := h
  unfold CombatSystem.specialAttack
  split_ifs with hc
  · exact ⟨⟨h1, h2, h3, h4⟩, h5⟩
  · rw [not_or, not_le] at hc
    exact ⟨⟨h1, h2, h3, by simp only []; omega⟩, h5⟩

omit [LinearOrderedField α] in
theorem CombatSystem.tryAttack_inventorySystem (hit : Option Pick) (g : Game α) :
    (CombatSystem.tryAttack hit g).inventorySystem = g.inventorySystem := by
  unfold CombatSystem.tryAttack
  split <;> rfl

theorem AnimalSystem.animalUpdate_inventorySystem (M : JSMath α) (e : AnimalEnv α) (g : Game α) :
    (AnimalSystem.update M e g).inventorySystem = g.inventorySystem := by
  unfold AnimalSystem.update
  rfl

theorem PlayerSystem.update_inventory_inv (M : JSMath α) (e : FrameEnv α) (g : Game α)
    (h : g.inventorySystem.CountsNonneg) : (PlayerSystem.update M e g).inventorySystem.CountsNonneg := by
  cases hd : g.playerSystem.isDead
  · rw [PlayerSystem.update_alive M e g hd]
    exact h
  · rw [PlayerSystem.update_dead M e g hd]
    cases hl : g.playerSystem.lootDropped
    · rw [(PlayerSystem.handleDeath_spec e g).1 hl]
      exact dropAllItems_inv _ _ _ _ h
    · rw [(PlayerSystem.handleDeath_spec e g).2 hl]
      exact h

/-- The counters and the dropped counts are non-negative in every reachable game state. -/
theorem Game.Reachable.inventoryInv [FloorRing α] {M : JSMath α} {g : Game α}
    (h : Game.Reachable M g) : g.inventorySystem.CountsNonneg := by
  induction h with
  | init => simp [CountsNonneg, Game.new, InventorySystem.new]
  | step _ hs ih =>
    cases hs with
    | playerUpdate e g => exact PlayerSystem.update_inventory_inv M e _ ih
    | checkChunkUpdates g => exact ih
    | inventoryUpdate g => exact checkForLoot_inv M _ _ ih
    | animalUpdate e g => rw [AnimalSystem.animalUpdate_inventorySystem]; exact ih
    | tryHarvest hit g => exact tryHarvest_inv hit _ ih
    | tryAttack hit g => rw [CombatSystem.tryAttack_inventorySystem]; exact ih
    | specialAttack g => exact CombatSystem.specialAttack_inv M _ ih
    | craftPlanks g => exact craftPlanks_inv _ ih
    | craftTool g => exact craftTool_inv _ ih
    | dropAllItems position now scatter g => exact dropAllItems_inv _ _ _ _ ih
    | updateKeyState keyCode isPressed g => exact ih
    | jump now g => exact ih
    | takeDamage amount g => exact ih
    | respawn g => exact ih
    | endAttack g => exact ih
    | cameraMoved position g => exact ih
    | populated objects g => exact ih

/-- Claim C3. In every game state reachable from the constructed game (all counters
zero) by `tryHarvest`, `craftPlanks`, `craftTool`, `dropAllItems`, `checkForLoot`,
`specialAttack` and every other call into the game logic, the four inventory counters
are not negative. -/
theorem inventory_counters_nonneg [FloorRing α] (M : JSMath α) (g : Game α)
    (h : Game.Reachable M g) :
    0 ≤ g.inventorySystem.inventory.wood ∧ 0 ≤ g.inventorySystem.inventory.stone ∧
    0 ≤ g.inventorySystem.inventory.planks ∧ 0 ≤ g.inventorySystem.inventory.tools :=
  h.inventoryInv.1

/-- Witness of `inventory_counters_nonneg`: a tree (mesh 7) is generated and harvested
with a click. -/
theorem inventory_counters_nonneg_witness :
    Game.Reachable realMath (Game.click (some ⟨7, none⟩) (some ⟨7, none⟩)
      (Game.addHarvestables [⟨7, "tree", [8]⟩] (Game.new : Game ℝ))) ∧
    (0 ≤ (Game.click (some ⟨7, none⟩) (some ⟨7, none⟩)
        (Game.addHarvestables [⟨7, "tree", [8]⟩]
          (Game.new : Game ℝ))).inventorySystem.inventory.wood ∧
      0 ≤ (Game.click (some ⟨7, none⟩) (some ⟨7, none⟩)
        (Game.addHarvestables [⟨7, "tree", [8]⟩]
          (Game.new : Game ℝ))).inventorySystem.inventory.stone ∧
      0 ≤ (Game.click (some ⟨7, none⟩) (some ⟨7, none⟩)
        (Game.addHarvestables [⟨7, "tree", [8]⟩]
          (Game.new : Game ℝ))).inventorySystem.inventory.planks ∧
      0 ≤ (Game.click (some ⟨7, none⟩) (some ⟨7, none⟩)
        (Game.addHarvestables [⟨7, "tree", [8]⟩]
          (Game.new : Game ℝ))).inventorySystem.inventory.tools) :=
  have hr : Game.Reachable realMath (Game.click (some ⟨7, none⟩) (some ⟨7, none⟩)
      (Game.addHarvestables [⟨7, "tree", [8]⟩] (Game.new : Game ℝ))) :=
    Game.Reachable.step
      (Game.Reachable.step
        (Game.Reachable.step Game.Reachable.init (Game.Step.populated _ _))
        (Game.Step.tryHarvest _ _))
      (Game.Step.tryAttack _ _)
  ⟨hr, inventory_counters_nonneg realMath _ hr⟩

end InventoryProofs

section MovementProofs

open PlayerSystem

variable {α : Type} [LinearOrderedField α]

/-- What `takeDamage` does to health and to the death flag. -/
theorem PlayerSystem.takeDamage_health (amount : α) (p : PlayerSystem α) :
    (takeDamage amount p).health = max 0 (p.health - amount) ∧
    ((takeDamage amount p).isDead = true ↔ (p.isDead = true ∨ p.health - amount ≤ 0)) := by
  unfold takeDamage
  simp only []
  split_ifs with h
  · simp [h]
  · rw [not_le] at h
    simp [h, le_of_lt h, not_le.mpr h]

/-- What the airborne branch of `update` does to the jump velocity, the health and the
death flag; `y` is the camera height read at the start of the frame. -/
theorem PlayerSystem.updateAirborne_spec (M : JSMath α) (t : TerrainSystem α) (e : FrameEnv α)
    (x y z : α) (p : PlayerSystem α) (hg : p.isGrounded = false) :
    (updateAirborne M t e x y z p).jumpVelocity = p.jumpVelocity - gravity ∧
    ((updateAirborne M t e x y z p).isGrounded = true ↔ y ≤ t.getPerlinHeight M x z + 2) ∧
    (y ≤ t.getPerlinHeight M x z + 2 → p.jumpVelocity - gravity < -10 →
      (updateAirborne M t e x y z p).health =
          max 0 (p.health - (|p.jumpVelocity - gravity| - 10)) ∧
        ((updateAirborne M t e x y z p).isDead = true ↔
          (p.isDead = true ∨ p.health - (|p.jumpVelocity - gravity| - 10) ≤ 0))) ∧
    (y ≤ t.getPerlinHeight M x z + 2 → ¬ (p.jumpVelocity - gravity < -10) →
      (updateAirborne M t e x y z p).health = p.health ∧
        (updateAirborne M t e x y z p).isDead = p.isDead) ∧
    (¬ (y ≤ t.getPerlinHeight M x z + 2) →
      (updateAirborne M t e x y z p).health = p.health ∧
        (updateAirborne M t e x y z p).isDead = p.isDead) := by
  unfold updateAirborne
  simp only []
  by_cases hl : y ≤ t.getPerlinHeight M x z + 2
  · by_cases hv : p.jumpVelocity - gravity < -10
    · have hpos : |p.jumpVelocity - gravity| - 10 > 0 := by
        have : |p.jumpVelocity - gravity| = -(p.jumpVelocity - gravity) :=
          abs_of_neg (by linarith)
        rw [this]; linarith
      simp only [hl, if_true, setY, hv, and_self, hpos, takeDamage_jumpVelocity,
        takeDamage_isGrounded, true_implies, not_true_eq_false, false_implies, and_true]
      exact ⟨trivial, trivial, takeDamage_health _ _⟩
    · simp [hl, hv, setY]
  · simp [hl, hg, setY]

/-- The oxygen block of `update` for a player that is not swimming. -/
theorem PlayerSystem.updateOxygen_of_not_swimming (dt : α) (p : PlayerSystem α)
    (h : p.isSwimming = false) :
    updateOxygen dt p = setSpeed 0.5
      { p with oxygenLevel := min maxOxygen (p.oxygenLevel + oxygenRefillRate * dt) } := by
  unfold updateOxygen
  simp [h]

/-- The frame of a living player that is neither flying nor in water nor grounded runs
the airborne branch. -/
theorem PlayerSystem.updateAlive_airborne (M : JSMath α) (t : TerrainSystem α) (e : FrameEnv α)
    (p : PlayerSystem α) (hfly : p.isFlying = false) (hwater : inWater M p = false)
    (hair : p.isGrounded = false) :
    updateAlive M t e p =
      updateAirborne M t e p.camera.position.x p.camera.position.y p.camera.position.z
        (updateOxygen e.deltaTime { p with isSwimming := false }) := by
  unfold updateAlive updateMovement
  simp [hfly, hwater, hair]

/-- Claim C10. In the `update` frame of a living player that is airborne (not grounded),
not flying and not in water, gravity is subtracted from the jump velocity. The frame
lands the player exactly when the camera height read at its start is at most the
terrain height plus 2. On a landing frame with the new jump velocity below -10 the
health drops by the absolute velocity minus 10, floored at 0, and the player dies
exactly when that takes the health to 0 or below; on a landing frame with the new
velocity at least -10, and on a frame that does not land, health and death flag are
unchanged. -/
theorem fall_damage_on_landing (M : JSMath α) (e : FrameEnv α) (g : Game α)
    (hlive : g.playerSystem.isDead = false) (hfly : g.playerSystem.isFlying = false)
    (hwater : inWater M g.playerSystem = false) (hair : g.playerSystem.isGrounded = false) :
    (update M e g).playerSystem.jumpVelocity = g.playerSystem.jumpVelocity - gravity ∧
    ((update M e g).playerSystem.isGrounded = true ↔
      g.playerSystem.camera.position.y ≤
        g.terrainSystem.getPerlinHeight M g.playerSystem.camera.position.x
          g.playerSystem.camera.position.z + 2) ∧
    (g.playerSystem.camera.position.y ≤
        g.terrainSystem.getPerlinHeight M g.playerSystem.camera.position.x
          g.playerSystem.camera.position.z + 2 →
      g.playerSystem.jumpVelocity - gravity < -10 →
      (update M e g).playerSystem.health =
          max 0 (g.playerSystem.health - (|g.playerSystem.jumpVelocity - gravity| - 10)) ∧
        ((update M e g).playerSystem.isDead = true ↔
          g.playerSystem.health - (|g.playerSystem.jumpVelocity - gravity| - 10) ≤ 0)) ∧
    (g.playerSystem.camera.position.y ≤
        g.terrainSystem.getPerlinHeight M g.playerSystem.camera.position.x
          g.playerSystem.camera.position.z + 2 →
      ¬ (g.playerSystem.jumpVelocity - gravity < -10) →
      (update M e g).playerSystem.health = g.playerSystem.health ∧
        (update M e g).playerSystem.isDead = false) ∧
    (¬ (g.playerSystem.camera.position.y ≤
        g.terrainSystem.getPerlinHeight M g.playerSystem.camera.position.x
          g.playerSystem.camera.position.z + 2) →
      (update M e g).playerSystem.health = g.playerSystem.health ∧
        (update M e g).playerSystem.isDead = false) := by
  rw [update_alive M e g hlive]
  simp only [updateAlive_airborne M g.terrainSystem e g.playerSystem hfly hwater hair]
  have hq : (updateOxygen e.deltaTime { g.playerSystem with isSwimming := false }).isGrounded
      = false := by
    rw [updateOxygen_isGrounded]; exact hair
  have hjv : (updateOxygen e.deltaTime { g.playerSystem with isSwimming := false }).jumpVelocity
      = g.playerSystem.jumpVelocity := by
    rw [updateOxygen_of_not_swimming _ _ rfl]; rfl
  have hh : (updateOxygen e.deltaTime { g.playerSystem with isSwimming := false }).health
      = g.playerSystem.health := by
    rw [updateOxygen_of_not_swimming _ _ rfl]; rfl
  have hdd : (updateOxygen e.deltaTime { g.playerSystem with isSwimming := false }).isDead
      = false := by
    rw [updateOxygen_of_not_swimming _ _ rfl]; exact hlive
  obtain ⟨h1, h2, h3, h4, h5⟩ := updateAirborne_spec M g.terrainSystem e
    g.playerSystem.camera.position.x g.playerSystem.camera.position.y
    g.playerSystem.camera.position.z
    (updateOxygen e.deltaTime { g.playerSystem with isSwimming := false }) hq
  rw [hjv] at h1 h3 h4
  rw [hh, hdd] at h3 h4 h5
  simp only [Bool.false_eq_true, false_or] at h3
  exact ⟨h1, h2, h3, h4, h5⟩

/-- Witness of `fall_damage_on_landing`: the player lands on the spawn point with
velocity -12.5 and loses 2.5 health. -/
theorem fall_damage_on_landing_witness :
    (Game.fallingAtSpawn : Game ℝ).playerSystem.isDead = false ∧
    (Game.fallingAtSpawn : Game ℝ).playerSystem.isFlying = false ∧
    inWater realMath (Game.fallingAtSpawn : Game ℝ).playerSystem = false ∧
    (Game.fallingAtSpawn : Game ℝ).playerSystem.isGrounded = false ∧
    (update realMath ⟨1, 0, fun _ => (0, 0)⟩ Game.fallingAtSpawn).playerSystem.jumpVelocity
      = -12.5 ∧
    (update realMath ⟨1, 0, fun _ => (0, 0)⟩ Game.fallingAtSpawn).playerSystem.health = 97.5 := by
  have hw : inWater realMath (Game.fallingAtSpawn : Game ℝ).playerSystem = false := by
    simp only [inWater, Game.fallingAtSpawn, TerrainSystem.isWaterArea, realMath]
    norm_num
  have h := fall_damage_on_landing realMath ⟨1, 0, fun _ => (0, 0)⟩
    (Game.fallingAtSpawn : Game ℝ) rfl rfl hw rfl
  have hland : (Game.fallingAtSpawn : Game ℝ).playerSystem.camera.position.y ≤
      (Game.fallingAtSpawn : Game ℝ).terrainSystem.getPerlinHeight realMath
        (Game.fallingAtSpawn : Game ℝ).playerSystem.camera.position.x
        (Game.fallingAtSpawn : Game ℝ).playerSystem.camera.position.z + 2 := by
    simp only [Game.fallingAtSpawn, Game.new, TerrainSystem.height_at_origin]
    norm_num
  have hv : (Game.fallingAtSpawn : Game ℝ).playerSystem.jumpVelocity - gravity < -10 := by
    simp only [Game.fallingAtSpawn, gravity]
    norm_num
  refine ⟨rfl, rfl, hw, rfl, ?_, ?_⟩
  · rw [h.1]
    simp only [Game.fallingAtSpawn, gravity]
    norm_num
  · rw [(h.2.2.1 hland hv).1]
    simp only [Game.fallingAtSpawn, gravity, PlayerSystem.new]
    norm_num [abs_of_neg]

@[simp] theorem PlayerSystem.updateOxygen_keys (dt : α) (p : PlayerSystem α) :
    (updateOxygen dt p).keys = p.keys := by
  unfold updateOxygen; simp only []; split_ifs <;> simp [setSpeed]

@[simp] theorem PlayerSystem.updateOxygen_position (dt : α) (p : PlayerSystem α) :
    (updateOxygen dt p).camera.position = p.camera.position := by
  unfold updateOxygen; simp only []; split_ifs <;> simp [setSpeed]

/-- The frame of a living player that is in water and not flying runs the swimming
branch. -/
theorem PlayerSystem.updateAlive_swimming (M : JSMath α) (t : TerrainSystem α) (e : FrameEnv α)
    (p : PlayerSystem α) (hfly : p.isFlying = false) (hwater : inWater M p = true) :
    updateAlive M t e p =
      updateSwimming M t e p.camera.position.x p.camera.position.y p.camera.position.z
        (updateOxygen e.deltaTime { p with isSwimming := true }) := by
  unfold updateAlive updateMovement
  simp [hfly, hwater]

/-- The camera height after the swimming branch; `y` is the height read at the start of
the frame. -/
theorem PlayerSystem.updateSwimming_y (M : JSMath α) (t : TerrainSystem α) (e : FrameEnv α)
    (x y z : α) (p : PlayerSystem α) :
    (updateSwimming M t e x y z p).camera.position.y =
      if y ≤ t.getPerlinHeight M x z + 1 then t.getPerlinHeight M x z + 1
      else if p.keys.jump = true then p.camera.position.y + swimSpeed * e.deltaTime * 5
      else p.camera.position.y - 0.05 * e.deltaTime := by
  unfold updateSwimming
  simp only []
  split_ifs <;> simp_all [setY]

/-- The camera height after the frame of a living player that is in water and not
flying. -/
theorem PlayerSystem.update_swimming_y (M : JSMath α) (e : FrameEnv α) (g : Game α)
    (hlive : g.playerSystem.isDead = false) (hfly : g.playerSystem.isFlying = false)
    (hwater : inWater M g.playerSystem = true) :
    (update M e g).playerSystem.camera.position.y =
      if g.playerSystem.camera.position.y ≤
          g.terrainSystem.getPerlinHeight M g.playerSystem.camera.position.x
            g.playerSystem.camera.position.z + 1
      then g.terrainSystem.getPerlinHeight M g.playerSystem.camera.position.x
            g.playerSystem.camera.position.z + 1
      else if g.playerSystem.keys.jump = true
        then g.playerSystem.camera.position.y + swimSpeed * e.deltaTime * 5
        else g.playerSystem.camera.position.y - 0.05 * e.deltaTime := by
  rw [update_alive _ _ _ hlive, updateAlive_swimming _ _ _ _ hfly hwater, updateSwimming_y]
  simp only [updateOxygen_keys, updateOxygen_position]

theorem Game.cameraAt_new (position : Vec3 α) :
    (Game.cameraAt position (Game.new : Game α)).terrainSystem = TerrainSystem.new ∧
    (Game.cameraAt position (Game.new : Game α)).playerSystem.camera.position = position ∧
    (Game.cameraAt position (Game.new : Game α)).playerSystem.isDead = false ∧
    (Game.cameraAt position (Game.new : Game α)).playerSystem.isFlying = false ∧
    (Game.cameraAt position (Game.new : Game α)).playerSystem.isGrounded = true ∧
    (Game.cameraAt position (Game.new : Game α)).playerSystem.keys.jump = false := by
  simp only [Game.cameraAt, Game.new, PlayerSystem.new, and_self]

theorem Game.keydown_space (now : Int) (g : Game α) (hg : g.playerSystem.isGrounded = true) :
    (Game.keydown 32 now g).terrainSystem = g.terrainSystem ∧
    (Game.keydown 32 now g).playerSystem.camera.position = g.playerSystem.camera.position ∧
    (Game.keydown 32 now g).playerSystem.isDead = g.playerSystem.isDead ∧
    (Game.keydown 32 now g).playerSystem.isFlying = g.playerSystem.isFlying ∧
    (Game.keydown 32 now g).playerSystem.keys.jump = true := by
  simp [Game.keydown, updateKeyState, jump, hg]

/-- Claim C9 fails on the code. The player is in water at `(200, 1.5, 0)`, alive and not
flying, and the frame has animation ratio 1. With the jump key up the camera height
after `update` is 2, not `1.5 - 0.05`; with the jump key held (the key press that also
calls `jump`) it is 2 as well, not `1.5 + 0.15 * 5`. -/
theorem swimming_hold_input_failing :
    Game.Reachable realMath (Game.cameraAt ⟨200, 1.5, 0⟩ (Game.new : Game ℝ)) ∧
    inWater realMath (Game.cameraAt ⟨200, 1.5, 0⟩ (Game.new : Game ℝ)).playerSystem = true ∧
    (Game.cameraAt ⟨200, 1.5, 0⟩ (Game.new : Game ℝ)).playerSystem.keys.jump = false ∧
    (update realMath ⟨1, 0, fun _ => (0, 0)⟩
      (Game.cameraAt ⟨200, 1.5, 0⟩ (Game.new : Game ℝ))).playerSystem.camera.position.y = 2 ∧
    (2 : ℝ) ≠ 1.5 - 0.05 * 1 ∧
    (Game.keydown 32 0 (Game.cameraAt ⟨200, 1.5, 0⟩ (Game.new : Game ℝ))).playerSystem.keys.jump
      = true ∧
    (update realMath ⟨1, 0, fun _ => (0, 0)⟩ (Game.keydown 32 0
      (Game.cameraAt ⟨200, 1.5, 0⟩ (Game.new : Game ℝ)))).playerSystem.camera.position.y = 2 ∧
    (2 : ℝ) ≠ 1.5 + swimSpeed * 1 * 5 := by
  obtain ⟨c1, c2, c3, c4, c5, c6⟩ := Game.cameraAt_new (⟨200, 1.5, 0⟩ : Vec3 ℝ)
  obtain ⟨k1, k2, k3, k4, k5⟩ :=
    Game.keydown_space 0 (Game.cameraAt ⟨200, 1.5, 0⟩ (Game.new : Game ℝ)) c5
  have hw : inWater realMath
      (Game.cameraAt ⟨200, 1.5, 0⟩ (Game.new : Game ℝ)).playerSystem = true := by
    unfold inWater
    rw [c2]
    simp only [TerrainSystem.isWaterArea_at_200, TerrainSystem.waterHeight]
    norm_num
  have hw2 : inWater realMath (Game.keydown 32 0
      (Game.cameraAt ⟨200, 1.5, 0⟩ (Game.new : Game ℝ))).playerSystem = true := by
    unfold inWater
    rw [k2, c2]
    simp only [TerrainSystem.isWaterArea_at_200, TerrainSystem.waterHeight]
    norm_num
  refine ⟨Game.Reachable.step Game.Reachable.init (Game.Step.cameraMoved _ _), hw, c6, ?_,
    by norm_num, k5, ?_, by norm_num [swimSpeed]⟩
  · rw [update_swimming_y _ _ _ c3 c4 hw, c1, c2]
    simp only [TerrainSystem.height_at_200]
    norm_num
  · rw [update_swimming_y _ _ _ (k3.trans c3) (k4.trans c4) hw2, k1, k2, c1, c2]
    simp only [TerrainSystem.height_at_200]
    norm_num

end MovementProofs

section OxygenProofs

open PlayerSystem

variable {α : Type} [LinearOrderedField α]

theorem PlayerSystem.takeDamage_oxygenLevel (amount : α) (p : PlayerSystem α) :
    (takeDamage amount p).oxygenLevel = p.oxygenLevel := by
  unfold takeDamage; simp only []; split <;> rfl

/-- What the oxygen block of `update` does to the oxygen level, the health and the
death flag. -/
theorem PlayerSystem.updateOxygen_spec (dt : α) (p : PlayerSystem α) :
    (p.isSwimming = true →
      (updateOxygen dt p).oxygenLevel = max 0 (p.oxygenLevel - oxygenDepletionRate * dt) ∧
      (p.oxygenLevel - oxygenDepletionRate * dt ≤ 0 →
        (updateOxygen dt p).health = max 0 (p.health - 0.5 * dt) ∧
        ((updateOxygen dt p).isDead = true ↔ (p.isDead = true ∨ p.health - 0.5 * dt ≤ 0))) ∧
      (¬ (p.oxygenLevel - oxygenDepletionRate * dt ≤ 0) →
        (updateOxygen dt p).health = p.health ∧ (updateOxygen dt p).isDead = p.isDead)) ∧
    (p.isSwimming = false →
      (updateOxygen dt p).oxygenLevel = min maxOxygen (p.oxygenLevel + oxygenRefillRate * dt) ∧
      (updateOxygen dt p).health = p.health ∧ (updateOxygen dt p).isDead = p.isDead) := by
  constructor
  · intro hs
    unfold updateOxygen
    rw [if_pos hs]
    simp only []
    by_cases ho : p.oxygenLevel - oxygenDepletionRate * dt ≤ 0
    · rw [if_pos ho]
      refine ⟨?_, fun _ => ?_, fun h => absurd ho h⟩
      · simp only [setSpeed, takeDamage_oxygenLevel]
        exact (max_eq_left ho).symm
      · exact takeDamage_health (0.5 * dt) _
    · rw [if_neg ho]
      refine ⟨?_, fun h => absurd h ho, fun _ => ⟨rfl, rfl⟩⟩
      simp only [setSpeed]
      exact (max_eq_right (le_of_lt (not_le.mp ho))).symm
  · intro hs
    rw [updateOxygen_of_not_swimming dt p hs]
    exact ⟨rfl, rfl, rfl⟩

theorem PlayerSystem.updateMovement_oxygenLevel (M : JSMath α) (t : TerrainSystem α)
    (e : FrameEnv α) (x y z : α) (p : PlayerSystem α) :
    (updateMovement M t e x y z p).oxygenLevel = p.oxygenLevel := by
  unfold updateMovement updateFlying updateSwimming updateAirborne updateGrounded
  simp only []
  split_ifs <;> simp [setY, takeDamage_oxygenLevel]

/-- Outside the airborne branch the movement branches of `update` leave the health and
the death flag alone. -/
theorem PlayerSystem.updateMovement_health (M : JSMath α) (t : TerrainSystem α)
    (e : FrameEnv α) (x y z : α) (p : PlayerSystem α)
    (h : p.isFlying = true ∨ p.isSwimming = true ∨ p.isGrounded = true) :
    (updateMovement M t e x y z p).health = p.health ∧
    (updateMovement M t e x y z p).isDead = p.isDead := by
  unfold updateMovement updateFlying updateSwimming updateGrounded
  simp only []
  split_ifs with h1 h2 h3 <;> simp_all [setY]

theorem PlayerSystem.updateMovement_airborne (M : JSMath α) (t : TerrainSystem α)
    (e : FrameEnv α) (x y z : α) (p : PlayerSystem α)
    (h1 : p.isFlying = false) (h2 : p.isSwimming = false) (h3 : p.isGrounded = false) :
    updateMovement M t e x y z p = updateAirborne M t e x y z p := by
  unfold updateMovement
  simp [h1, h2, h3]

/-- The frame of a living player, the water test having come out as `w`. -/
theorem PlayerSystem.updateAlive_eq (M : JSMath α) (t : TerrainSystem α) (e : FrameEnv α)
    (p : PlayerSystem α) (w : Bool) (hw : inWater M p = w) :
    updateAlive M t e p =
      updateMovement M t e p.camera.position.x p.camera.position.y p.camera.position.z
        (updateOxygen e.deltaTime { p with isSwimming := w }) := by
  unfold updateAlive
  simp only [hw]

/-- Claim C11. In the `update` frame of a living player, whatever the animation ratio:
in water the oxygen level becomes `max 0 (oxygen - 0.2 dt)` and, when that is 0, the
player takes `0.5 dt` damage (health floored at 0, death when it reaches 0), otherwise
none; out of water the oxygen level becomes `min 100 (oxygen + 0.5 dt)` and the health
changes only by the fall damage of a landing. -/
theorem oxygen_and_drowning (M : JSMath α) (e : FrameEnv α) (g : Game α)
    (hlive : g.playerSystem.isDead = false) :
    (inWater M g.playerSystem = true →
      (update M e g).playerSystem.oxygenLevel =
        max 0 (g.playerSystem.oxygenLevel - 0.2 * e.deltaTime) ∧
      (max 0 (g.playerSystem.oxygenLevel - 0.2 * e.deltaTime) = 0 →
        (update M e g).playerSystem.health = max 0 (g.playerSystem.health - 0.5 * e.deltaTime) ∧
        ((update M e g).playerSystem.isDead = true ↔
          g.playerSystem.health - 0.5 * e.deltaTime ≤ 0)) ∧
      (max 0 (g.playerSystem.oxygenLevel - 0.2 * e.deltaTime) ≠ 0 →
        (update M e g).playerSystem.health = g.playerSystem.health ∧
        (update M e g).playerSystem.isDead = false)) ∧
    (inWater M g.playerSystem = false →
      (update M e g).playerSystem.oxygenLevel =
        min 100 (g.playerSystem.oxygenLevel + 0.5 * e.deltaTime) ∧
      (((update M e g).playerSystem.health = g.playerSystem.health ∧
          (update M e g).playerSystem.isDead = false) ∨
        (g.playerSystem.isFlying = false ∧ g.playerSystem.isGrounded = false ∧
          g.playerSystem.camera.position.y ≤
            g.terrainSystem.getPerlinHeight M g.playerSystem.camera.position.x
              g.playerSystem.camera.position.z + 2 ∧
          g.playerSystem.jumpVelocity - gravity < -10 ∧
          (update M e g).playerSystem.health =
            max 0 (g.playerSystem.health - (|g.playerSystem.jumpVelocity - gravity| - 10))))) := by
  rw [update_alive M e g hlive]
  constructor
  · intro hw
    rw [updateAlive_eq M _ e _ true hw]
    obtain ⟨h1, h2, h3⟩ := (updateOxygen_spec e.deltaTime
      { g.playerSystem with isSwimming := true }).1 rfl
    obtain ⟨m1, m2⟩ := updateMovement_health M g.terrainSystem e
      g.playerSystem.camera.position.x g.playerSystem.camera.position.y
      g.playerSystem.camera.position.z
      (updateOxygen e.deltaTime { g.playerSystem with isSwimming := true })
      (Or.inr (Or.inl (by rw [updateOxygen_isSwimming])))
    simp only [updateMovement_oxygenLevel, m1, m2]
    simp only [oxygenDepletionRate] at h1 h2 h3
    have hnd : ¬ g.playerSystem.isDead = true := by simp [hlive]
    refine ⟨h1, fun h0 => ?_, fun h0 => ?_⟩
    · obtain ⟨b1, b2⟩ := h2 (max_eq_left_iff.mp h0)
      exact ⟨b1, b2.trans ⟨fun h => h.resolve_left hnd, Or.inr⟩⟩
    · obtain ⟨b1, b2⟩ := h3 (fun hle => h0 (max_eq_left hle))
      exact ⟨b1, b2.trans hlive⟩
  · intro hw
    rw [updateAlive_eq M _ e _ false hw]
    obtain ⟨h1, h2, h3⟩ := (updateOxygen_spec e.deltaTime
      { g.playerSystem with isSwimming := false }).2 rfl
    simp only [updateMovement_oxygenLevel]
    simp only [maxOxygen, oxygenRefillRate] at h1
    refine ⟨h1, ?_⟩
    by_cases hm : g.playerSystem.isFlying = true ∨ g.playerSystem.isGrounded = true
    · left
      obtain ⟨m1, m2⟩ := updateMovement_health M g.terrainSystem e
        g.playerSystem.camera.position.x g.playerSystem.camera.position.y
        g.playerSystem.camera.position.z
        (updateOxygen e.deltaTime { g.playerSystem with isSwimming := false })
        (by
          rcases hm with hm | hm
          · exact Or.inl (by rw [updateOxygen_isFlying]; exact hm)
          · exact Or.inr (Or.inr (by rw [updateOxygen_isGrounded]; exact hm)))
      rw [m1, m2, h2, h3]
      exact ⟨rfl, hlive⟩
    · rw [not_or] at hm
      have hf : g.playerSystem.isFlying = false := by simpa using hm.1
      have hg : g.playerSystem.isGrounded = false := by simpa using hm.2
      have hjv : (updateOxygen e.deltaTime
          { g.playerSystem with isSwimming := false }).jumpVelocity =
          g.playerSystem.jumpVelocity := by
        rw [updateOxygen_of_not_swimming _ _ rfl]; rfl
      rw [updateMovement_airborne M _ e _ _ _ _ (by rw [updateOxygen_isFlying]; exact hf)
        (by rw [updateOxygen_isSwimming]) (by rw [updateOxygen_isGrounded]; exact hg)]
      obtain ⟨a1, a2, a3, a4, a5⟩ := updateAirborne_spec M g.terrainSystem e
        g.playerSystem.camera.position.x g.playerSystem.camera.position.y
        g.playerSystem.camera.position.z
        (updateOxygen e.deltaTime { g.playerSystem with isSwimming := false })
        (by rw [updateOxygen_isGrounded]; exact hg)
      rw [hjv] at a3 a4
      rw [h2, h3] at a3 a4 a5
      by_cases hl : g.playerSystem.camera.position.y ≤
          g.terrainSystem.getPerlinHeight M g.playerSystem.camera.position.x
            g.playerSystem.camera.position.z + 2
      · by_cases hv : g.playerSystem.jumpVelocity - gravity < -10
        · right
          exact ⟨hf, hg, hl, hv, (a3 hl hv).1⟩
        · left
          obtain ⟨b1, b2⟩ := a4 hl hv
          exact ⟨b1, b2.trans hlive⟩
      · left
        obtain ⟨b1, b2⟩ := a5 hl
        exact ⟨b1, b2.trans hlive⟩

theorem Game.cameraAt_new_oxygen (position : Vec3 α) :
    (Game.cameraAt position (Game.new : Game α)).playerSystem.oxygenLevel = 100 ∧
    (Game.cameraAt position (Game.new : Game α)).playerSystem.health = 100 := by
  simp only [Game.cameraAt, Game.new, PlayerSystem.new, and_self]

/-- Witness of `oxygen_and_drowning`: the living player in water at `(200, 1.5, 0)`
loses 0.2 oxygen in a frame of animation ratio 1 and no health; on the spawn point
the full oxygen stays at 100. -/
theorem oxygen_and_drowning_witness :
    (Game.cameraAt ⟨200, 1.5, 0⟩ (Game.new : Game ℝ)).playerSystem.isDead = false ∧
    inWater realMath (Game.cameraAt ⟨200, 1.5, 0⟩ (Game.new : Game ℝ)).playerSystem = true ∧
    (update realMath ⟨1, 0, fun _ => (0, 0)⟩
      (Game.cameraAt ⟨200, 1.5, 0⟩ (Game.new : Game ℝ))).playerSystem.oxygenLevel = 99.8 ∧
    (update realMath ⟨1, 0, fun _ => (0, 0)⟩
      (Game.cameraAt ⟨200, 1.5, 0⟩ (Game.new : Game ℝ))).playerSystem.health = 100 ∧
    inWater realMath (Game.cameraAt ⟨0, 4, 0⟩ (Game.new : Game ℝ)).playerSystem = false ∧
    (update realMath ⟨1, 0, fun _ => (0, 0)⟩
      (Game.cameraAt ⟨0, 4, 0⟩ (Game.new : Game ℝ))).playerSystem.oxygenLevel = 100 := by
  obtain ⟨_, c2, c3, _, _, _⟩ := Game.cameraAt_new (⟨200, 1.5, 0⟩ : Vec3 ℝ)
  obtain ⟨o1, o2⟩ := Game.cameraAt_new_oxygen (⟨200, 1.5, 0⟩ : Vec3 ℝ)
  obtain ⟨_, d2, d3, _, _, _⟩ := Game.cameraAt_new (⟨0, 4, 0⟩ : Vec3 ℝ)
  obtain ⟨p1, _⟩ := Game.cameraAt_new_oxygen (⟨0, 4, 0⟩ : Vec3 ℝ)
  have hw : inWater realMath
      (Game.cameraAt ⟨200, 1.5, 0⟩ (Game.new : Game ℝ)).playerSystem = true := by
    unfold inWater
    rw [c2]
    simp only [TerrainSystem.isWaterArea_at_200, TerrainSystem.waterHeight]
    norm_num
  have hd : inWater realMath
      (Game.cameraAt ⟨0, 4, 0⟩ (Game.new : Game ℝ)).playerSystem = false := by
    unfold inWater
    rw [d2]
    simp only [TerrainSystem.waterHeight]
    norm_num
  have h := (oxygen_and_drowning realMath ⟨1, 0, fun _ => (0, 0)⟩
    (Game.cameraAt ⟨200, 1.5, 0⟩ (Game.new : Game ℝ)) c3).1 hw
  have h' := (oxygen_and_drowning realMath ⟨1, 0, fun _ => (0, 0)⟩
    (Game.cameraAt ⟨0, 4, 0⟩ (Game.new : Game ℝ)) d3).2 hd
  rw [o1, o2] at h
  rw [p1] at h'
  refine ⟨c3, hw, ?_, ?_, hd, ?_⟩
  · rw [h.1]; norm_num
  · rw [(h.2.2 (by norm_num)).1]
  · rw [h'.1]; norm_num

end OxygenProofs

section RespawnCraftProofs

open PlayerSystem InventorySystem

variable {α : Type} [LinearOrderedField α]

/-- Claim C12. After `respawn()` the health is `maxHealth = 100`, the player is neither
dead nor marked as having dropped loot, the oxygen is `maxOxygen`, the player is grounded
and not jumping, flying or swimming, and the camera is at the terrain's spawn position
`(spawnPosition.x, spawnHeight + 2, spawnPosition.z)`, whatever the state before,
its recorded `respawnPoint` included. -/
theorem respawn_resets (t : TerrainSystem α) (p : PlayerSystem α) :
    (respawn t p).health = maxHealth ∧ (maxHealth : α) = 100 ∧
    (respawn t p).isDead = false ∧ (respawn t p).lootDropped = false ∧
    (respawn t p).oxygenLevel = maxOxygen ∧
    (respawn t p).isGrounded = true ∧ (respawn t p).isJumping = false ∧
    (respawn t p).isFlying = false ∧ (respawn t p).isSwimming = false ∧
    (respawn t p).camera.position =
      { x := t.spawnPosition.x, y := t.spawnHeight + 2, z := t.spawnPosition.z } ∧
    ∀ r : Vec3 α, (respawn t { p with respawnPoint := r }).camera.position =
      (respawn t p).camera.position := by
  simp [respawn, maxHealth]

end RespawnCraftProofs

section CraftProofs

open InventorySystem

variable {α : Type}

/-- Claim C15. `craftPlanks()` with `wood >= 2` takes 2 wood, adds 1 plank and leaves
stone and tools as they are; with `wood < 2` it leaves the inventory as it is. Nothing
else of the inventory system changes. -/
theorem craftPlanks_spec (s : InventorySystem α) :
    (s.inventory.wood ≥ 2 →
      (craftPlanks s).inventory.wood = s.inventory.wood - 2 ∧
      (craftPlanks s).inventory.planks = s.inventory.planks + 1 ∧
      (craftPlanks s).inventory.stone = s.inventory.stone ∧
      (craftPlanks s).inventory.tools = s.inventory.tools) ∧
    (s.inventory.wood < 2 → (craftPlanks s).inventory = s.inventory) ∧
    (craftPlanks s).harvestableObjects = s.harvestableObjects ∧
    (craftPlanks s).droppedItems = s.droppedItems := by
  unfold craftPlanks
  refine ⟨fun h => ?_, fun h => ?_, ?_, ?_⟩
  · rw [if_pos h]
    exact ⟨rfl, rfl, rfl, rfl⟩
  · rw [if_neg (not_le.mpr h)]
  · split_ifs <;> rfl
  · split_ifs <;> rfl

/-- Claim C16 fails on the code. With 1 plank and 2 stone `craftTool()` crafts a tool,
where the button's recipe (3 planks) is not met; with 3 planks and 2 stone it takes one
plank, not three. -/
theorem craftTool_recipe_failing :
    (craftTool ({ inventory := { wood := 0, stone := 2, planks := 1, tools := 0 },
                  harvestableObjects := [], droppedItems := [] } : InventorySystem ℚ)).inventory
      = { wood := 0, stone := 0, planks := 0, tools := 1 } ∧
    (craftTool ({ inventory := { wood := 0, stone := 2, planks := 3, tools := 0 },
                  harvestableObjects := [], droppedItems := [] } : InventorySystem ℚ)).inventory
      = { wood := 0, stone := 0, planks := 2, tools := 1 } := by
  constructor <;> simp [craftTool]

/-- What `craftTool()` does: with at least 1 plank and 2 stone it takes 1 plank and 2
stone and adds 1 tool; otherwise it leaves the inventory as it is. -/
theorem InventorySystem.craftTool_spec (s : InventorySystem α) :
    (s.inventory.planks ≥ 1 ∧ s.inventory.stone ≥ 2 →
      (craftTool s).inventory = { s.inventory with
        planks := s.inventory.planks - 1, stone := s.inventory.stone - 2,
        tools := s.inventory.tools + 1 }) ∧
    (¬ (s.inventory.planks ≥ 1 ∧ s.inventory.stone ≥ 2) → craftTool s = s) := by
  unfold craftTool
  constructor
  · intro h
    rw [if_pos h]
  · intro h
    rw [if_neg h]

/-- Claim C17 fails on the code. A click on either crafting button throws a `TypeError`,
whatever the inventory holds, so no recipe is applied. -/
theorem craftButtonClick_failing (recipe : String) (g : Game α) :
    UISystem.craftButtonClick recipe g =
      Except.error (JSError.typeError "this.game.inventorySystem.craft is not a function") ∧
    "craft" ∉ InventorySystem.methodNames ∧
    "craftPlanks" ∈ InventorySystem.methodNames ∧ "craftTool" ∈ InventorySystem.methodNames := by
  refine ⟨?_, ?_, ?_, ?_⟩
  · unfold UISystem.craftButtonClick
    rw [dif_neg (by simp [InventorySystem.methodNames])]
  · simp [InventorySystem.methodNames]
  · simp [InventorySystem.methodNames]
  · simp [InventorySystem.methodNames]

end CraftProofs

section LootProofs

open InventorySystem

variable {α : Type} [LinearOrderedField α]

theorem Inventory.get_set (inv : Inventory) (k k' : ItemType) (v : Int) :
    (inv.set k v).get k' = if k = k' then v else inv.get k' := by
  cases k <;> cases k' <;> simp [Inventory.set, Inventory.get]

/-- What `dropAllItems` does to an inventory without negative counters. -/
theorem InventorySystem.dropAllItems_of_nonneg (position : Vec3 α) (now : Int)
    (scatter : ItemType → α × α) (s : InventorySystem α)
    (h : 0 ≤ s.inventory.wood ∧ 0 ≤ s.inventory.stone ∧ 0 ≤ s.inventory.planks ∧
      0 ≤ s.inventory.tools) :
    (dropAllItems position now scatter s).inventory =
      { wood := 0, stone := 0, planks := 0, tools := 0 } ∧
    (dropAllItems position now scatter s).droppedItems =
      s.droppedItems ++
        ([ItemType.wood, ItemType.stone, ItemType.planks, ItemType.tools].filter
          (fun k => decide (s.inventory.get k > 0))).map
          (lootBagOf position now scatter s.inventory) ∧
    (dropAllItems position now scatter s).harvestableObjects = s.harvestableObjects := by
  obtain ⟨⟨w, st, pl, tl⟩, objs, items⟩ := s
  obtain ⟨h1, h2, h3, h4⟩ := h
  simp only at h1 h2 h3 h4
  unfold dropAllItems
  simp only [List.foldl_cons, List.foldl_nil]
  rcases h1.lt_or_eq with h1 | rfl <;> rcases h2.lt_or_eq with h2 | rfl <;>
    rcases h3.lt_or_eq with h3 | rfl <;> rcases h4.lt_or_eq with h4 | rfl <;>
    simp [dropRound, createLootBag, lootBagOf, Inventory.get, Inventory.set, List.filter, *]

/-- The entries `dropAllItems` adds, by item type: one for a counter above zero, none
for a counter that is zero. -/
theorem InventorySystem.newBags_of_type (position : Vec3 α) (now : Int)
    (scatter : ItemType → α × α) (inv : Inventory) (k : ItemType) :
    (([ItemType.wood, ItemType.stone, ItemType.planks, ItemType.tools].filter
        (fun k => decide (inv.get k > 0))).map (lootBagOf position now scatter inv)).filter
      (fun item => decide (item.itemType = k)) =
    if inv.get k > 0 then [lootBagOf position now scatter inv k] else [] := by
  obtain ⟨w, st, pl, tl⟩ := inv
  by_cases h1 : w > 0 <;> by_cases h2 : st > 0 <;> by_cases h3 : pl > 0 <;>
    by_cases h4 : tl > 0 <;> cases k <;>
    simp [lootBagOf, Inventory.get, List.filter, h1, h2, h3, h4]

/-- Claim C13. In every reachable game state `dropAllItems(position)` leaves all four
counters at 0 and appends to `droppedItems`, in the order wood, stone, planks, tools,
one entry for each item type whose counter was above 0, with that type and that count
(scattered around the position, stamped with the time); so the new entries of a type
are that one entry when its counter was above 0 and none when it was 0. -/
theorem dropAllItems_converts [FloorRing α] (M : JSMath α) (g : Game α)
    (hr : Game.Reachable M g) (position : Vec3 α) (now : Int) (scatter : ItemType → α × α) :
    (dropAllItems position now scatter g.inventorySystem).inventory =
      { wood := 0, stone := 0, planks := 0, tools := 0 } ∧
    (dropAllItems position now scatter g.inventorySystem).droppedItems =
      g.inventorySystem.droppedItems ++
        ([ItemType.wood, ItemType.stone, ItemType.planks, ItemType.tools].filter
          (fun k => decide (g.inventorySystem.inventory.get k > 0))).map
          (lootBagOf position now scatter g.inventorySystem.inventory) ∧
    (∀ k : ItemType,
      (lootBagOf position now scatter g.inventorySystem.inventory k).itemType = k ∧
      (lootBagOf position now scatter g.inventorySystem.inventory k).count =
        g.inventorySystem.inventory.get k ∧
      (([ItemType.wood, ItemType.stone, ItemType.planks, ItemType.tools].filter
          (fun k => decide (g.inventorySystem.inventory.get k > 0))).map
          (lootBagOf position now scatter g.inventorySystem.inventory)).filter
        (fun item => decide (item.itemType = k)) =
      if g.inventorySystem.inventory.get k > 0
        then [lootBagOf position now scatter g.inventorySystem.inventory k] else []) ∧
    (dropAllItems position now scatter g.inventorySystem).harvestableObjects =
      g.inventorySystem.harvestableObjects := by
  obtain ⟨h1, h2, h3⟩ := dropAllItems_of_nonneg position now scatter g.inventorySystem
    hr.inventoryInv.1
  exact ⟨h1, h2, fun k => ⟨rfl, rfl, newBags_of_type position now scatter _ k⟩, h3⟩

/-- The game of the harvested tree: a tree (mesh 7) is generated and harvested with a
click; its inventory system holds 2 wood and nothing else. -/
theorem Game.harvestedTree_inventorySystem :
    (Game.click (some ⟨7, none⟩) (some ⟨7, none⟩)
      (Game.addHarvestables [⟨7, "tree", [8]⟩] (Game.new : Game α))).inventorySystem =
    { inventory := { wood := 2, stone := 0, planks := 0, tools := 0 },
      harvestableObjects := [], droppedItems := [] } := by
  unfold Game.click
  rw [CombatSystem.tryAttack_inventorySystem]
  simp [Game.addHarvestables, Game.new, InventorySystem.new, tryHarvest, findHarvested]

theorem Game.harvestedTree_reachable [FloorRing α] (M : JSMath α) :
    Game.Reachable M (Game.click (some ⟨7, none⟩) (some ⟨7, none⟩)
      (Game.addHarvestables [⟨7, "tree", [8]⟩] (Game.new : Game α))) :=
  Game.Reachable.step
    (Game.Reachable.step
      (Game.Reachable.step Game.Reachable.init (Game.Step.populated _ _))
      (Game.Step.tryHarvest _ _))
    (Game.Step.tryAttack _ _)

/-- Witness of `dropAllItems_converts`: the game of the harvested tree drops its 2 wood
as one bag. -/
theorem dropAllItems_converts_witness :
    Game.Reachable realMath (Game.click (some ⟨7, none⟩) (some ⟨7, none⟩)
      (Game.addHarvestables [⟨7, "tree", [8]⟩] (Game.new : Game ℝ))) ∧
    (dropAllItems ⟨0, 5, -10⟩ 0 (fun _ => (0.5, 0.5))
      (Game.click (some ⟨7, none⟩) (some ⟨7, none⟩)
        (Game.addHarvestables [⟨7, "tree", [8]⟩] (Game.new : Game ℝ))).inventorySystem).inventory =
      { wood := 0, stone := 0, planks := 0, tools := 0 } ∧
    (dropAllItems ⟨0, 5, -10⟩ 0 (fun _ => (0.5, 0.5))
      (Game.click (some ⟨7, none⟩) (some ⟨7, none⟩)
        (Game.addHarvestables [⟨7, "tree", [8]⟩]
          (Game.new : Game ℝ))).inventorySystem).droppedItems =
      [{ itemType := ItemType.wood, count := 2, position := ⟨0, 5, -10⟩, createdTime := 0 }] := by
  have h := dropAllItems_converts realMath _ (Game.harvestedTree_reachable realMath)
    ⟨0, 5, -10⟩ 0 (fun _ => (0.5, 0.5))
  refine ⟨Game.harvestedTree_reachable realMath, h.1, ?_⟩
  rw [h.2.1, Game.harvestedTree_inventorySystem]
  simp [lootBagOf, Inventory.get, List.filter]

/-- The loop of `checkForLoot` over any list of items, from any state: the items out of
range are put in front of the kept ones in their order, every counter grows by the
counts of the items of its type in range, the harvestable objects stay. -/
theorem InventorySystem.lootLoop_spec (M : JSMath α) (playerPos : Vec3 α)
    (items : List (DroppedItem α)) (b : InventorySystem α) :
    (items.foldr (lootRound M playerPos) b).droppedItems =
      items.filter (fun item => !decide (Vec3.distance M playerPos item.position ≤ 3)) ++
        b.droppedItems ∧
    (∀ k : ItemType, (items.foldr (lootRound M playerPos) b).inventory.get k =
      b.inventory.get k + ((items.filter (fun item =>
        decide (Vec3.distance M playerPos item.position ≤ 3) &&
          decide (item.itemType = k))).map (fun item => item.count)).sum) ∧
    (items.foldr (lootRound M playerPos) b).harvestableObjects = b.harvestableObjects := by
  induction items with
  | nil => simp
  | cons item items ih =>
    obtain ⟨h1, h2, h3⟩ := ih
    rw [List.foldr_cons]
    generalize items.foldr (lootRound M playerPos) b = r at h1 h2 h3
    unfold lootRound
    simp only [pickupRange]
    by_cases hd : Vec3.distance M playerPos item.position ≤ 3
    · simp only [hd, if_true]
      refine ⟨?_, ?_, h3⟩
      · rw [h1]
        simp [List.filter, hd]
      · intro k
        rw [Inventory.get_set]
        by_cases hk : item.itemType = k
        · subst hk
          simp only [if_true, h2, List.filter, hd, decide_True, Bool.and_self, List.map_cons,
            List.sum_cons]
          omega
        · simp only [hk, if_false, h2, List.filter, hd, decide_True, decide_False,
            Bool.and_false]
    · simp only [hd, if_false]
      refine ⟨?_, ?_, h3⟩
      · rw [h1]
        simp [List.filter, hd]
      · intro k
        rw [h2]
        simp [List.filter, hd]

/-- Claim C14. `checkForLoot()` removes from `droppedItems` exactly the items whose
distance to the camera is at most `pickupRange = 3` and keeps the others in their
order; every inventory counter grows by the counts of the removed items of its type,
so a counter without such an item does not change; nothing else changes. -/
theorem checkForLoot_spec (M : JSMath α) (playerPos : Vec3 α) (s : InventorySystem α) :
    (checkForLoot M playerPos s).droppedItems =
      s.droppedItems.filter
        (fun item => !decide (Vec3.distance M playerPos item.position ≤ 3)) ∧
    (∀ k : ItemType, (checkForLoot M playerPos s).inventory.get k =
      s.inventory.get k + ((s.droppedItems.filter (fun item =>
        decide (Vec3.distance M playerPos item.position ≤ 3) &&
          decide (item.itemType = k))).map (fun item => item.count)).sum) ∧
    (checkForLoot M playerPos s).harvestableObjects = s.harvestableObjects ∧
    (pickupRange : α) = 3 := by
  unfold checkForLoot
  split_ifs with h0
  · have hnil : s.droppedItems = [] := List.length_eq_zero.mp h0
    simp [hnil, pickupRange]
  · obtain ⟨h1, h2, h3⟩ := lootLoop_spec M playerPos s.droppedItems
      { s with droppedItems := [] }
    refine ⟨?_, h2, h3, rfl⟩
    rw [h1]
    simp

end LootProofs

section HarvestProofs

open InventorySystem

variable {α : Type}

/-- The loop of `tryHarvest` finds the last object with the picked mesh. -/
theorem InventorySystem.findHarvested_last (m : Nat) (l1 : List Harvestable) (obj : Harvestable)
    (l2 : List Harvestable) (hobj : obj.mesh = m) (hl2 : ∀ o ∈ l2, o.mesh ≠ m) :
    findHarvested m (l1 ++ obj :: l2) = some (obj, l1 ++ l2) := by
  have hnone : findHarvested m l2 = none := by
    induction l2 with
    | nil => rfl
    | cons o l2 ih =>
      have ho : ¬ m = o.mesh := fun h => hl2 o (List.mem_cons_self _ _) h.symm
      simp only [findHarvested, ih (fun o' h' => hl2 o' (List.mem_cons_of_mem _ h')), ho,
        if_false]
  induction l1 with
  | nil => simp [findHarvested, hnone, hobj]
  | cons o l1 ih => simp [findHarvested, ih]

/-- The loop of `tryHarvest` finds nothing when no object has the picked mesh. -/
theorem InventorySystem.findHarvested_none (m : Nat) (l : List Harvestable)
    (hl : ∀ o ∈ l, o.mesh ≠ m) : findHarvested m l = none := by
  induction l with
  | nil => rfl
  | cons o l ih =>
    have ho : ¬ m = o.mesh := fun h => hl o (List.mem_cons_self _ _) h.symm
    simp only [findHarvested, ih (fun o' h' => hl o' (List.mem_cons_of_mem _ h')), ho, if_false]

/-- Claim C18. When the picked mesh is the primary mesh of a harvestable object (the
last such object of the list, should several share it), `tryHarvest()` removes exactly
that object, disposes of its primary and related meshes, and adds 2 wood for a tree or
2 stone for a rock, leaving every other counter, every other object and the dropped
items as they are. When no object has the picked mesh, or the ray hits nothing, the
inventory system is unchanged and nothing is disposed of. -/
theorem tryHarvest_spec (pick : Pick) (s : InventorySystem α) :
    (∀ (l1 : List Harvestable) (obj : Harvestable) (l2 : List Harvestable),
      s.harvestableObjects = l1 ++ obj :: l2 → obj.mesh = pick.pickedMesh →
      (∀ o ∈ l2, o.mesh ≠ pick.pickedMesh) →
      (tryHarvest (some pick) s).harvestableObjects = l1 ++ l2 ∧
      harvestDisposals (some pick) s = obj.mesh :: obj.relatedMeshes ∧
      (obj.type = "tree" → (tryHarvest (some pick) s).inventory =
        { s.inventory with wood := s.inventory.wood + 2 }) ∧
      (obj.type = "rock" → (tryHarvest (some pick) s).inventory =
        { s.inventory with stone := s.inventory.stone + 2 }) ∧
      (tryHarvest (some pick) s).droppedItems = s.droppedItems) ∧
    ((∀ o ∈ s.harvestableObjects, o.mesh ≠ pick.pickedMesh) →
      tryHarvest (some pick) s = s ∧ harvestDisposals (some pick) s = []) ∧
    tryHarvest none s = s ∧ harvestDisposals none s = [] := by
  refine ⟨?_, ?_, rfl, rfl⟩
  · intro l1 obj l2 hs hobj hl2
    have hf := findHarvested_last pick.pickedMesh l1 obj l2 hobj hl2
    rw [← hs] at hf
    unfold tryHarvest harvestDisposals
    simp only [hf]
    refine ⟨trivial, trivial, ?_, ?_, trivial⟩
    · intro ht
      simp [ht]
    · intro hr
      simp [hr]
  · intro hl
    have hf := findHarvested_none pick.pickedMesh s.harvestableObjects hl
    unfold tryHarvest harvestDisposals
    simp only [hf]
    exact ⟨trivial, trivial⟩

end HarvestProofs

section CombatProofs

open CombatSystem

/-- What `levelUp` assigns. -/
theorem CombatSystem.levelUp_fields (c : CombatSystem) :
    c.levelUp.level = c.level + 1 ∧
    c.levelUp.experience = c.experience - c.expToNextLevel ∧
    c.levelUp.expToNextLevel = ⌊(c.expToNextLevel : ℚ) * 1.5⌋ ∧
    c.levelUp.maxHealth = c.maxHealth + 20 ∧
    c.levelUp.health = c.maxHealth + 20 ∧
    c.levelUp.attackPower = c.attackPower + 5 ∧
    c.levelUp.isAttacking = c.isAttacking :=
  ⟨rfl, rfl, rfl, rfl, rfl, rfl, rfl⟩

/-- The next threshold is not below the old one when that is not negative, and above it
when that is at least 2. -/
theorem CombatSystem.threshold_grows (x : Int) :
    (0 ≤ x → x ≤ ⌊(x : ℚ) * 1.5⌋) ∧ (2 ≤ x → x < ⌊(x : ℚ) * 1.5⌋) := by
  constructor
  · intro h
    rw [Int.le_floor]
    have : (0 : ℚ) ≤ x := by exact_mod_cast h
    linarith
  · intro h
    rw [Int.lt_iff_add_one_le, Int.le_floor]
    have : (2 : ℚ) ≤ x := by exact_mod_cast h
    push_cast
    linarith

/-- What `gainExperience` does: the amount is added, and when the sum reaches the
threshold the level goes up, once. -/
theorem CombatSystem.gainExperience_eq (amount : Int) (c : CombatSystem) :
    (c.experience + amount ≥ c.expToNextLevel →
      gainExperience amount c = levelUp { c with experience := c.experience + amount }) ∧
    (c.experience + amount < c.expToNextLevel →
      gainExperience amount c = { c with experience := c.experience + amount }) := by
  unfold gainExperience
  simp only []
  constructor
  · intro h; rw [if_pos h]
  · intro h; rw [if_neg (not_le.mpr h)]

theorem CombatSystem.gainExperience_threshold (amount : Int) (c : CombatSystem)
    (h : 100 ≤ c.expToNextLevel) : 100 ≤ (gainExperience amount c).expToNextLevel := by
  by_cases hx : c.experience + amount ≥ c.expToNextLevel
  · rw [(gainExperience_eq amount c).1 hx, (levelUp_fields _).2.2.1]
    exact le_trans h ((threshold_grows c.expToNextLevel).1 (by omega))
  · rw [(gainExperience_eq amount c).2 (not_le.mp hx)]
    exact h

theorem CombatSystem.gainExperience_isAttacking (amount : Int) (c : CombatSystem) :
    (gainExperience amount c).isAttacking = c.isAttacking := by
  by_cases hx : c.experience + amount ≥ c.expToNextLevel
  · rw [(gainExperience_eq amount c).1 hx]; rfl
  · rw [(gainExperience_eq amount c).2 (not_le.mp hx)]

variable {α : Type} [LinearOrderedField α]

theorem AnimalSystem.updateAnimals_threshold (M : JSMath α) (t : TerrainSystem α)
    (wander : Nat → α × α) (i : Nat) (animals : List (Animal α)) (c : CombatSystem)
    (h : 100 ≤ c.expToNextLevel) :
    100 ≤ (AnimalSystem.updateAnimals M t wander i animals c).2.expToNextLevel := by
  induction animals generalizing i with
  | nil => exact h
  | cons animal rest ih =>
    unfold AnimalSystem.updateAnimals
    simp only []
    split_ifs
    · exact gainExperience_threshold 20 _ (ih (i + 1))
    · exact ih (i + 1)

theorem PlayerSystem.playerUpdate_combatSystem (M : JSMath α) (e : FrameEnv α) (g : Game α) :
    (PlayerSystem.update M e g).combatSystem = g.combatSystem := by
  cases hd : g.playerSystem.isDead
  · rw [PlayerSystem.update_alive M e g hd]
  · rw [PlayerSystem.update_dead M e g hd]
    cases hl : g.playerSystem.lootDropped
    · rw [(PlayerSystem.handleDeath_spec e g).1 hl]
    · rw [(PlayerSystem.handleDeath_spec e g).2 hl]

theorem AnimalSystem.animalUpdate_threshold (M : JSMath α) (e : AnimalEnv α) (g : Game α)
    (h : 100 ≤ g.combatSystem.expToNextLevel) :
    100 ≤ (AnimalSystem.update M e g).combatSystem.expToNextLevel := by
  unfold AnimalSystem.update
  exact AnimalSystem.updateAnimals_threshold M g.terrainSystem e.wander 0
    g.animalSystem.animals g.combatSystem h

omit [LinearOrderedField α] in
theorem CombatSystem.tryAttack_threshold (hit : Option Pick) (g : Game α) :
    (tryAttack hit g).combatSystem.expToNextLevel = g.combatSystem.expToNextLevel := by
  unfold tryAttack
  split <;> rfl

/-- What `specialAttack` does when it is not gated: one tool is used, the attack flag is
set and its timer started, every animal closer than 10 to the camera loses three times
the attack power, and 10 experience is gained once if some animal was that close. -/
theorem CombatSystem.specialAttack_run (M : JSMath α) (g : Game α)
    (ha : g.combatSystem.isAttacking = false) (ht : 0 < g.inventorySystem.inventory.tools) :
    (specialAttack M g).inventorySystem =
      { g.inventorySystem with inventory :=
          { g.inventorySystem.inventory with tools := g.inventorySystem.inventory.tools - 1 } } ∧
    (specialAttack M g).animalSystem.animals = g.animalSystem.animals.map (fun animal =>
      if Vec3.distance M g.playerSystem.camera.position animal.position < 10
      then { animal with health := animal.health - g.combatSystem.attackPower * 3 }
      else animal) ∧
    (specialAttack M g).animalSystem.animalSpawnTimer = g.animalSystem.animalSpawnTimer ∧
    (specialAttack M g).combatSystem =
      (if g.animalSystem.animals.any (fun animal =>
          decide (Vec3.distance M g.playerSystem.camera.position animal.position < 10)) = true
        then gainExperience 10 { g.combatSystem with isAttacking := true }
        else { g.combatSystem with isAttacking := true }) ∧
    (specialAttack M g).trace = g.trace ++ [Effect.setTimeout Callback.endAttack 1000] ∧
    (specialAttack M g).playerSystem = g.playerSystem ∧
    (specialAttack M g).terrainSystem = g.terrainSystem := by
  unfold specialAttack
  rw [if_neg (by simp [ha, ht])]
  refine ⟨rfl, ?_, rfl, ?_, rfl, rfl, rfl⟩
  · simp only [decide_eq_true_eq]
  · simp only []

theorem CombatSystem.specialAttack_threshold (M : JSMath α) (g : Game α)
    (h : 100 ≤ g.combatSystem.expToNextLevel) :
    100 ≤ (specialAttack M g).combatSystem.expToNextLevel := by
  by_cases hgate : g.combatSystem.isAttacking = true ∨ g.inventorySystem.inventory.tools ≤ 0
  · unfold specialAttack
    rw [if_pos hgate]
    exact h
  · rw [not_or] at hgate
    rw [(specialAttack_run M g (by simpa using hgate.1) (not_le.mp hgate.2)).2.2.2.1]
    split_ifs
    · exact gainExperience_threshold 10 _ h
    · exact h

/-- The experience threshold is at least 100 in every reachable game state. -/
theorem Game.Reachable.threshold [FloorRing α] {M : JSMath α} {g : Game α}
    (h : Game.Reachable M g) : 100 ≤ g.combatSystem.expToNextLevel := by
  induction h with
  | init => simp [Game.new, CombatSystem.new]
  | step _ hs ih =>
    cases hs with
    | playerUpdate e g => rw [PlayerSystem.playerUpdate_combatSystem]; exact ih
    | checkChunkUpdates g => exact ih
    | inventoryUpdate g => exact ih
    | animalUpdate e g => exact AnimalSystem.animalUpdate_threshold M e _ ih
    | tryHarvest hit g => exact ih
    | tryAttack hit g => rw [tryAttack_threshold]; exact ih
    | specialAttack g => exact specialAttack_threshold M _ ih
    | craftPlanks g => exact ih
    | craftTool g => exact ih
    | dropAllItems position now scatter g => exact ih
    | updateKeyState keyCode isPressed g => exact ih
    | jump now g => exact ih
    | takeDamage amount g => exact ih
    | respawn g => exact ih
    | endAttack g => exact ih
    | cameraMoved position g => exact ih
    | populated objects g => exact ih

/-- Claim C19. In every reachable game state `levelUp()` raises the level by 1, takes
the old threshold off the experience, sets the threshold to the floor of 1.5 times the
old one, which is strictly larger, raises `maxHealth` by 20 and `attackPower` by 5 and
leaves the health at the new `maxHealth`. -/
theorem levelUp_spec [FloorRing α] (M : JSMath α) (g : Game α) (hr : Game.Reachable M g) :
    g.combatSystem.levelUp.level = g.combatSystem.level + 1 ∧
    g.combatSystem.levelUp.experience =
      g.combatSystem.experience - g.combatSystem.expToNextLevel ∧
    g.combatSystem.levelUp.expToNextLevel = ⌊(1.5 : ℚ) * g.combatSystem.expToNextLevel⌋ ∧
    g.combatSystem.expToNextLevel < g.combatSystem.levelUp.expToNextLevel ∧
    g.combatSystem.levelUp.maxHealth = g.combatSystem.maxHealth + 20 ∧
    g.combatSystem.levelUp.attackPower = g.combatSystem.attackPower + 5 ∧
    g.combatSystem.levelUp.health = g.combatSystem.levelUp.maxHealth := by
  obtain ⟨h1, h2, h3, h4, h5, h6, _⟩ := levelUp_fields g.combatSystem
  refine ⟨h1, h2, ?_, ?_, h4, h6, h5.trans h4.symm⟩
  · rw [h3, mul_comm]
  · rw [h3]
    exact (threshold_grows _).2 (le_trans (by norm_num) hr.threshold)

/-- Witness of `levelUp_spec`: the constructed game, whose threshold goes from 100 to
150. -/
theorem levelUp_spec_witness :
    Game.Reachable realMath (Game.new : Game ℝ) ∧
    (Game.new : Game ℝ).combatSystem.levelUp.level = 2 ∧
    (Game.new : Game ℝ).combatSystem.levelUp.expToNextLevel = 150 ∧
    (Game.new : Game ℝ).combatSystem.levelUp.health = 120 := by
  obtain ⟨h1, _, h3, _, h5, _, h7⟩ := levelUp_spec realMath (Game.new : Game ℝ)
    Game.Reachable.init
  have hc : (Game.new : Game ℝ).combatSystem = CombatSystem.new := by simp only [Game.new]
  refine ⟨Game.Reachable.init, ?_, ?_, ?_⟩
  · rw [h1, hc]; rfl
  · rw [h3, hc]
    simp only [CombatSystem.new]
    rw [Int.floor_eq_iff]
    norm_num
  · rw [h7, h5, hc]; rfl

/-- Claim C20. `specialAttack()` changes nothing while `isAttacking` is set or no tool is
left. Otherwise it uses exactly one tool, sets `isAttacking` (and the timer that clears
it), takes three times the attack power off the health of every animal closer than 10
to the camera and of no other animal, and gains 10 experience, once, exactly when some
animal was that close. -/
theorem specialAttack_spec (M : JSMath α) (g : Game α) :
    (g.combatSystem.isAttacking = true ∨ g.inventorySystem.inventory.tools ≤ 0 →
      specialAttack M g = g) ∧
    (g.combatSystem.isAttacking = false → 0 < g.inventorySystem.inventory.tools →
      (specialAttack M g).inventorySystem.inventory =
        { g.inventorySystem.inventory with tools := g.inventorySystem.inventory.tools - 1 } ∧
      (specialAttack M g).combatSystem.isAttacking = true ∧
      (specialAttack M g).animalSystem.animals = g.animalSystem.animals.map (fun animal =>
        if Vec3.distance M g.playerSystem.camera.position animal.position < 10
        then { animal with health := animal.health - 3 * g.combatSystem.attackPower }
        else animal) ∧
      ((∃ animal ∈ g.animalSystem.animals,
          Vec3.distance M g.playerSystem.camera.position animal.position < 10) →
        (specialAttack M g).combatSystem =
          gainExperience 10 { g.combatSystem with isAttacking := true }) ∧
      ((∀ animal ∈ g.animalSystem.animals,
          ¬ Vec3.distance M g.playerSystem.camera.position animal.position < 10) →
        (specialAttack M g).combatSystem = { g.combatSystem with isAttacking := true }) ∧
      (specialAttack M g).trace = g.trace ++ [Effect.setTimeout Callback.endAttack 1000] ∧
      (specialAttack M g).inventorySystem.droppedItems = g.inventorySystem.droppedItems ∧
      (specialAttack M g).inventorySystem.harvestableObjects =
        g.inventorySystem.harvestableObjects ∧
      (specialAttack M g).playerSystem = g.playerSystem ∧
      (specialAttack M g).terrainSystem = g.terrainSystem) := by
  constructor
  · intro hgate
    unfold specialAttack
    rw [if_pos hgate]
  · intro ha ht
    obtain ⟨h1, h2, _, h4, h5, h6, h7⟩ := specialAttack_run M g ha ht
    refine ⟨by rw [h1], ?_, ?_, ?_, ?_, h5, by rw [h1], by rw [h1], h6, h7⟩
    · rw [h4]
      split_ifs
      · rw [gainExperience_isAttacking]
      · rfl
    · rw [h2]
      simp only [mul_comm]
    · rintro ⟨animal, hm, hd⟩
      rw [h4, if_pos]
      rw [List.any_eq_true]
      exact ⟨animal, hm, by simpa using hd⟩
    · intro hall
      rw [h4, if_neg]
      rw [List.any_eq_true]
      rintro ⟨animal, hm, hd⟩
      exact hall animal hm (by simpa using hd)

end CombatProofs

section AttackProofs

open CombatSystem AnimalSystem

variable {α : Type}

/-- What the loop of `tryAttack` does to the list: the first animal the pick hits loses
the damage and every other entry stays as it is; without such an animal the list stays
as it is. -/
theorem CombatSystem.attackFirst_spec (pick : Pick) (damage : Int) (animals : List (Animal α)) :
    (∀ (before : List (Animal α)) (animal : Animal α) (after : List (Animal α)),
      animals = before ++ animal :: after →
      (∀ b ∈ before, ¬ (pick.pickedMesh = b.mesh ∨ pick.parent = some b.mesh)) →
      (pick.pickedMesh = animal.mesh ∨ pick.parent = some animal.mesh) →
      attackFirst pick damage animals =
        before ++ { animal with health := animal.health - damage } :: after) ∧
    ((∀ b ∈ animals, ¬ (pick.pickedMesh = b.mesh ∨ pick.parent = some b.mesh)) →
      attackFirst pick damage animals = animals) := by
  induction animals with
  | nil =>
    refine ⟨?_, fun _ => rfl⟩
    intro before animal after h
    cases before <;> simp at h
  | cons a rest ih =>
    constructor
    · intro before animal after h hb ha
      cases before with
      | nil =>
        simp only [List.nil_append, List.cons.injEq] at h
        obtain ⟨rfl, rfl⟩ := h
        simp only [attackFirst, if_pos ha, List.nil_append]
      | cons b before =>
        simp only [List.cons_append, List.cons.injEq] at h
        obtain ⟨rfl, rfl⟩ := h
        have hna := hb a (List.mem_cons_self _ _)
        simp only [attackFirst, if_neg hna, List.cons_append]
        rw [ih.1 before animal after rfl (fun b hm => hb b (List.mem_cons_of_mem _ hm)) ha]
    · intro hb
      have hna := hb a (List.mem_cons_self _ _)
      simp only [attackFirst, if_neg hna]
      rw [ih.2 (fun b hm => hb b (List.mem_cons_of_mem _ hm))]

theorem CombatSystem.attackFirst_length (pick : Pick) (damage : Int) (animals : List (Animal α)) :
    (attackFirst pick damage animals).length = animals.length := by
  induction animals with
  | nil => rfl
  | cons a rest ih =>
    unfold attackFirst
    split_ifs
    · rfl
    · simp only [List.length_cons, ih]

theorem CombatSystem.tryAttack_length (hit : Option Pick) (g : Game α) :
    (tryAttack hit g).animalSystem.animals.length = g.animalSystem.animals.length := by
  unfold tryAttack
  split
  · rfl
  · cases hit with
    | none => rfl
    | some pick => exact attackFirst_length pick _ _

/-- Claim C21. `tryAttack()` is gated by the attack flag and damages one target: while
`isAttacking` is set it changes nothing; otherwise it sets `isAttacking`, starts the
500 ms timer and leaves every other combat field, the player, the inventory and the
terrain as they are, and when the picked mesh is the mesh of an animal or a child of it,
the first such animal of the list loses `attackPower + 2 * (level - 1)` health and every
other entry of the list stays as it is; when the pick hits no animal or nothing at all,
the list stays as it is. -/
theorem tryAttack_spec (hit : Option Pick) (g : Game α) :
    (g.combatSystem.isAttacking = true → tryAttack hit g = g) ∧
    (g.combatSystem.isAttacking = false →
      (tryAttack hit g).combatSystem = { g.combatSystem with isAttacking := true } ∧
      (tryAttack hit g).trace = g.trace ++ [Effect.setTimeout Callback.endAttack 500] ∧
      (tryAttack hit g).playerSystem = g.playerSystem ∧
      (tryAttack hit g).inventorySystem = g.inventorySystem ∧
      (tryAttack hit g).terrainSystem = g.terrainSystem ∧
      (tryAttack hit g).animalSystem.animalSpawnTimer = g.animalSystem.animalSpawnTimer ∧
      (tryAttack hit g).animalSystem.animals.length = g.animalSystem.animals.length ∧
      (∀ (pick : Pick) (before : List (Animal α)) (animal : Animal α) (after : List (Animal α)),
        hit = some pick →
        g.animalSystem.animals = before ++ animal :: after →
        (∀ b ∈ before, ¬ (pick.pickedMesh = b.mesh ∨ pick.parent = some b.mesh)) →
        (pick.pickedMesh = animal.mesh ∨ pick.parent = some animal.mesh) →
        (tryAttack hit g).animalSystem.animals =
          before ++ { animal with health := animal.health -
            (g.combatSystem.attackPower + 2 * (g.combatSystem.level - 1)) } :: after) ∧
      (∀ pick : Pick, hit = some pick →
        (∀ b ∈ g.animalSystem.animals,
          ¬ (pick.pickedMesh = b.mesh ∨ pick.parent = some b.mesh)) →
        (tryAttack hit g).animalSystem.animals = g.animalSystem.animals) ∧
      (hit = none → (tryAttack hit g).animalSystem.animals = g.animalSystem.animals)) := by
  constructor
  · intro ha
    unfold tryAttack
    rw [if_pos ha]
  · intro ha
    unfold tryAttack
    rw [if_neg (by simp [ha])]
    refine ⟨rfl, rfl, rfl, rfl, rfl, rfl, ?_, ?_, ?_, ?_⟩
    · cases hit with
      | none => rfl
      | some pick => exact attackFirst_length pick _ _
    · intro pick before animal after hh hl hb hm
      subst hh
      simp only []
      rw [(attackFirst_spec pick _ _).1 before animal after hl hb hm, mul_comm]
    · intro pick hh hb
      subst hh
      exact (attackFirst_spec pick _ _).2 hb
    · intro hh
      subst hh
      rfl

end AttackProofs

section AnimalProofs

open CombatSystem AnimalSystem

variable {α : Type} [LinearOrderedField α]

/-- What the loop of `update` keeps: the animals with health above 0, in their order,
each with its mesh, health and speed. -/
theorem AnimalSystem.updateAnimals_kept (M : JSMath α) (t : TerrainSystem α)
    (wander : Nat → α × α) (i : Nat) (animals : List (Animal α)) (c : CombatSystem) :
    (updateAnimals M t wander i animals c).1.map (fun a => (a.mesh, a.health, a.speed)) =
      (animals.filter (fun a => decide (0 < a.health))).map
        (fun a => (a.mesh, a.health, a.speed)) := by
  induction animals generalizing i with
  | nil => rfl
  | cons animal rest ih =>
    unfold updateAnimals
    simp only []
    by_cases hd : animal.health ≤ 0
    · rw [if_pos hd, List.filter_cons_of_neg (by simpa using hd)]
      exact ih (i + 1)
    · rw [if_neg hd, List.filter_cons_of_pos (by simpa using hd)]
      simp only [List.map_cons, ih (i + 1)]

/-- The loop of `update` calls `gainExperience(20)` once for each animal without
health. -/
theorem AnimalSystem.updateAnimals_experience (M : JSMath α) (t : TerrainSystem α)
    (wander : Nat → α × α) (i : Nat) (animals : List (Animal α)) (c : CombatSystem) :
    (updateAnimals M t wander i animals c).2 =
      (gainExperience 20)^[(animals.filter (fun a => decide (a.health ≤ 0))).length] c := by
  induction animals generalizing i with
  | nil => rfl
  | cons animal rest ih =>
    unfold updateAnimals
    simp only []
    by_cases hd : animal.health ≤ 0
    · rw [if_pos hd, List.filter_cons_of_pos (by simpa using hd), List.length_cons,
        Function.iterate_succ_apply']
      simp only [ih (i + 1)]
    · rw [if_neg hd, List.filter_cons_of_neg (by simpa using hd)]
      exact ih (i + 1)

theorem AnimalSystem.updateAnimals_length (M : JSMath α) (t : TerrainSystem α)
    (wander : Nat → α × α) (i : Nat) (animals : List (Animal α)) (c : CombatSystem) :
    (updateAnimals M t wander i animals c).1.length ≤ animals.length := by
  have h := congrArg List.length (updateAnimals_kept M t wander i animals c)
  rw [List.length_map, List.length_map] at h
  rw [h]
  exact List.length_filter_le _ _

/-- The list `update` leaves: what its loop keeps, and one new animal at the end when
the spawn timer is above the interval and fewer than 10 are kept. -/
theorem AnimalSystem.update_animals (M : JSMath α) (e : AnimalEnv α) (g : Game α) :
    (g.animalSystem.animalSpawnTimer + e.deltaTime > animalSpawnInterval ∧
      (updateAnimals M g.terrainSystem e.wander 0 g.animalSystem.animals
        g.combatSystem).1.length < 10 →
      (update M e g).animalSystem.animalSpawnTimer = 0 ∧
      ∃ animal : Animal α, animal.health = 30 ∧ animal.mesh = e.spawnMesh ∧
        (update M e g).animalSystem.animals =
          (updateAnimals M g.terrainSystem e.wander 0 g.animalSystem.animals
            g.combatSystem).1 ++ [animal]) ∧
    (¬ (g.animalSystem.animalSpawnTimer + e.deltaTime > animalSpawnInterval ∧
      (updateAnimals M g.terrainSystem e.wander 0 g.animalSystem.animals
        g.combatSystem).1.length < 10) →
      (update M e g).animalSystem.animalSpawnTimer =
        g.animalSystem.animalSpawnTimer + e.deltaTime ∧
      (update M e g).animalSystem.animals =
        (updateAnimals M g.terrainSystem e.wander 0 g.animalSystem.animals
          g.combatSystem).1) ∧
    (update M e g).combatSystem =
      (updateAnimals M g.terrainSystem e.wander 0 g.animalSystem.animals g.combatSystem).2 := by
  refine ⟨?_, ?_, rfl⟩
  · intro h
    unfold update
    simp only []
    rw [if_pos h]
    exact ⟨rfl, _, rfl, rfl, rfl⟩
  · intro h
    unfold update
    simp only []
    rw [if_neg h]
    exact ⟨rfl, rfl⟩

theorem AnimalSystem.update_length (M : JSMath α) (e : AnimalEnv α) (g : Game α)
    (h : g.animalSystem.animals.length ≤ 10) :
    (update M e g).animalSystem.animals.length ≤ 10 := by
  have hl := updateAnimals_length M g.terrainSystem e.wander 0 g.animalSystem.animals
    g.combatSystem
  by_cases hc : g.animalSystem.animalSpawnTimer + e.deltaTime > animalSpawnInterval ∧
      (updateAnimals M g.terrainSystem e.wander 0 g.animalSystem.animals
        g.combatSystem).1.length < 10
  · obtain ⟨_, animal, _, _, ha⟩ := (update_animals M e g).1 hc
    rw [ha, List.length_append, List.length_singleton]
    omega
  · rw [((update_animals M e g).2.1 hc).2]
    omega

theorem CombatSystem.specialAttack_length (M : JSMath α) (g : Game α) :
    (specialAttack M g).animalSystem.animals.length = g.animalSystem.animals.length := by
  by_cases hgate : g.combatSystem.isAttacking = true ∨ g.inventorySystem.inventory.tools ≤ 0
  · unfold specialAttack
    rw [if_pos hgate]
  · rw [not_or] at hgate
    rw [(specialAttack_run M g (by simpa using hgate.1) (not_le.mp hgate.2)).2.1,
      List.length_map]

theorem PlayerSystem.playerUpdate_animalSystem (M : JSMath α) (e : FrameEnv α) (g : Game α) :
    (PlayerSystem.update M e g).animalSystem = g.animalSystem := by
  cases hd : g.playerSystem.isDead
  · rw [PlayerSystem.update_alive M e g hd]
  · rw [PlayerSystem.update_dead M e g hd]
    cases hl : g.playerSystem.lootDropped
    · rw [(PlayerSystem.handleDeath_spec e g).1 hl]
    · rw [(PlayerSystem.handleDeath_spec e g).2 hl]

/-- There are at most 10 animals in every reachable game state. -/
theorem Game.Reachable.population [FloorRing α] {M : JSMath α} {g : Game α}
    (h : Game.Reachable M g) : g.animalSystem.animals.length ≤ 10 := by
  induction h with
  | init => simp [Game.new, AnimalSystem.new]
  | step _ hs ih =>
    cases hs with
    | playerUpdate e g => rw [PlayerSystem.playerUpdate_animalSystem]; exact ih
    | checkChunkUpdates g => exact ih
    | inventoryUpdate g => exact ih
    | animalUpdate e g => exact AnimalSystem.update_length M e _ ih
    | tryHarvest hit g => exact ih
    | tryAttack hit g => rw [tryAttack_length]; exact ih
    | specialAttack g => rw [specialAttack_length]; exact ih
    | craftPlanks g => exact ih
    | craftTool g => exact ih
    | dropAllItems position now scatter g => exact ih
    | updateKeyState keyCode isPressed g => exact ih
    | jump now g => exact ih
    | takeDamage amount g => exact ih
    | respawn g => exact ih
    | endAttack g => exact ih
    | cameraMoved position g => exact ih
    | populated objects g => exact ih

/-- Claim C22. The animal population is bounded: in every reachable game state there
are at most 10 animals, and one `AnimalSystem.update()` leaves at most one animal more
than it found: its list is what the loop keeps of the old list, with one new animal at
the end exactly when the accumulated spawn timer is above 10000 ms and fewer than 10
animals are kept. -/
theorem animal_population_bounded [FloorRing α] (M : JSMath α) (g : Game α)
    (hr : Game.Reachable M g) (e : AnimalEnv α) :
    g.animalSystem.animals.length ≤ 10 ∧
    (update M e g).animalSystem.animals.length ≤ 10 ∧
    (update M e g).animalSystem.animals.length ≤ g.animalSystem.animals.length + 1 ∧
    (updateAnimals M g.terrainSystem e.wander 0 g.animalSystem.animals
      g.combatSystem).1.length ≤ g.animalSystem.animals.length ∧
    (g.animalSystem.animalSpawnTimer + e.deltaTime > 10000 ∧
      (updateAnimals M g.terrainSystem e.wander 0 g.animalSystem.animals
        g.combatSystem).1.length < 10 →
      ∃ animal : Animal α, (update M e g).animalSystem.animals =
        (updateAnimals M g.terrainSystem e.wander 0 g.animalSystem.animals
          g.combatSystem).1 ++ [animal]) ∧
    (¬ (g.animalSystem.animalSpawnTimer + e.deltaTime > 10000 ∧
      (updateAnimals M g.terrainSystem e.wander 0 g.animalSystem.animals
        g.combatSystem).1.length < 10) →
      (update M e g).animalSystem.animals =
        (updateAnimals M g.terrainSystem e.wander 0 g.animalSystem.animals
          g.combatSystem).1) := by
  have hp := hr.population
  have hl := updateAnimals_length M g.terrainSystem e.wander 0 g.animalSystem.animals
    g.combatSystem
  have hu := update_animals M e g
  unfold animalSpawnInterval at hu
  refine ⟨hp, update_length M e g hp, ?_, hl, ?_, ?_⟩
  · by_cases hc : g.animalSystem.animalSpawnTimer + e.deltaTime > 10000 ∧
        (updateAnimals M g.terrainSystem e.wander 0 g.animalSystem.animals
          g.combatSystem).1.length < 10
    · obtain ⟨_, animal, _, _, ha⟩ := hu.1 hc
      rw [ha, List.length_append, List.length_singleton]
      omega
    · rw [(hu.2.1 hc).2]
      omega
  · intro hc
    obtain ⟨_, animal, _, _, ha⟩ := hu.1 hc
    exact ⟨animal, ha⟩
  · intro hc
    exact (hu.2.1 hc).2

/-- The population bound at the constructed game, whose first `update()` with a frame
of 10001 ms spawns the first animal. -/
theorem animal_population_bounded_witness :
    (Game.new : Game ℚ).animalSystem.animals.length ≤ 10 ∧
    (update (⟨fun _ => 0, fun _ => 1, fun x => x, 3⟩ : JSMath ℚ)
      ⟨10001, fun _ => (0, 0), 30, 0, 0, 7⟩ Game.new).animalSystem.animals.length ≤ 10 :=
  have h := animal_population_bounded (⟨fun _ => 0, fun _ => 1, fun x => x, 3⟩ : JSMath ℚ)
    Game.new Game.Reachable.init ⟨10001, fun _ => (0, 0), 30, 0, 0, 7⟩
  ⟨h.1, h.2.1⟩

/-- Claim C23. Animals without health are removed and award experience: after
`AnimalSystem.update()` the list consists of the animals that had health above 0, in
their order and each with its mesh, health and speed, followed by at most one newly
spawned animal of health 30; the animals that had health 0 or less are gone, and
`gainExperience(20)` has run once for each of them. -/
theorem update_removes_dead (M : JSMath α) (e : AnimalEnv α) (g : Game α) :
    (∃ kept spawned : List (Animal α),
      (update M e g).animalSystem.animals = kept ++ spawned ∧
      kept.map (fun a => (a.mesh, a.health, a.speed)) =
        (g.animalSystem.animals.filter (fun a => decide (0 < a.health))).map
          (fun a => (a.mesh, a.health, a.speed)) ∧
      spawned.length ≤ 1 ∧ (∀ a ∈ spawned, a.health = 30 ∧ a.mesh = e.spawnMesh)) ∧
    (∀ a ∈ (update M e g).animalSystem.animals, 0 < a.health) ∧
    (update M e g).combatSystem =
      (gainExperience 20)^[(g.animalSystem.animals.filter
        (fun a => decide (a.health ≤ 0))).length] g.combatSystem := by
  have hk := updateAnimals_kept M g.terrainSystem e.wander 0 g.animalSystem.animals
    g.combatSystem
  have hu := update_animals M e g
  have hex : ∃ kept spawned : List (Animal α),
      (update M e g).animalSystem.animals = kept ++ spawned ∧
      kept.map (fun a => (a.mesh, a.health, a.speed)) =
        (g.animalSystem.animals.filter (fun a => decide (0 < a.health))).map
          (fun a => (a.mesh, a.health, a.speed)) ∧
      spawned.length ≤ 1 ∧ (∀ a ∈ spawned, a.health = 30 ∧ a.mesh = e.spawnMesh) := by
    by_cases hc : g.animalSystem.animalSpawnTimer + e.deltaTime > animalSpawnInterval ∧
        (updateAnimals M g.terrainSystem e.wander 0 g.animalSystem.animals
          g.combatSystem).1.length < 10
    · obtain ⟨_, animal, h30, hm, ha⟩ := hu.1 hc
      refine ⟨_, [animal], ha, hk, le_refl _, ?_⟩
      intro a hmem
      rw [List.mem_singleton] at hmem
      subst hmem
      exact ⟨h30, hm⟩
    · refine ⟨_, [], ?_, hk, Nat.zero_le _, ?_⟩
      · rw [List.append_nil]; exact (hu.2.1 hc).2
      · intro a hmem; cases hmem
  refine ⟨hex, ?_, ?_⟩
  · obtain ⟨kept, spawned, ha, hkept, _, hs⟩ := hex
    intro a hmem
    rw [ha, List.mem_append] at hmem
    rcases hmem with hmem | hmem
    · have h1 : (a.mesh, a.health, a.speed) ∈
          kept.map (fun a => (a.mesh, a.health, a.speed)) := List.mem_map_of_mem _ hmem
      rw [hkept, List.mem_map] at h1
      obtain ⟨b, hb, hbe⟩ := h1
      rw [List.mem_filter] at hb
      have h2 : b.health = a.health := by
        have := congrArg (fun p => p.2.1) hbe
        exact this
      rw [← h2]
      simpa using hb.2
    · rw [(hs a hmem).1]; decide
  · rw [hu.2.2]
    exact updateAnimals_experience M g.terrainSystem e.wander 0 g.animalSystem.animals
      g.combatSystem

end AnimalProofs

section WaterProofs

open TerrainSystem PlayerSystem

/-- The water noise is at most 0.1 within distance 20 of the origin. -/
theorem TerrainSystem.noise_near_origin (x z : ℝ) (h : Real.sqrt (x ^ 2 + z ^ 2) ≤ 20) :
    Real.sin (x * 0.005) * Real.cos (z * 0.005) ≤ 0.1 := by
  have h400 : x ^ 2 + z ^ 2 ≤ 20 ^ 2 := (Real.sqrt_le_left (by norm_num)).mp h
  have hx : |x| ≤ 20 := abs_le_of_sq_le_sq' (by nlinarith [sq_nonneg z]) (by norm_num) |>
    fun ⟨a, b⟩ => abs_le.mpr ⟨a, b⟩
  have hs : |Real.sin (x * 0.005)| ≤ 0.1 := by
    refine le_trans Real.abs_sin_le_abs ?_
    rw [abs_mul]
    have : |(0.005 : ℝ)| = 0.005 := abs_of_pos (by norm_num)
    rw [this]
    nlinarith
  have hc : |Real.cos (z * 0.005)| ≤ 1 := Real.abs_cos_le_one _
  calc Real.sin (x * 0.005) * Real.cos (z * 0.005)
      ≤ |Real.sin (x * 0.005) * Real.cos (z * 0.005)| := le_abs_self _
    _ = |Real.sin (x * 0.005)| * |Real.cos (z * 0.005)| := abs_mul _ _
    _ ≤ 0.1 * 1 := mul_le_mul hs hc (abs_nonneg _) (by norm_num)
    _ = 0.1 := by norm_num

/-- In a reachable terrain state the height of every water point outside the spawn
area is the water height, and there is no water point inside it. -/
theorem TerrainSystem.height_of_water {t : TerrainSystem ℝ} (h : Reachable t) (x z : ℝ)
    (hw : isWaterArea realMath x z = true) :
    ¬ (Real.sqrt (x ^ 2 + z ^ 2) ≤ 20) ∧ getPerlinHeight realMath t x z = 1 := by
  have hn : Real.sin (x * 0.005) * Real.cos (z * 0.005) > 0.7 := by
    simpa [isWaterArea, realMath] using hw
  have hfar : ¬ (Real.sqrt (x ^ 2 + z ^ 2) ≤ 20) := by
    intro hnear
    have := noise_near_origin x z hnear
    norm_num at hn this
    linarith
  refine ⟨hfar, ?_⟩
  rw [getPerlinHeight_real h, if_neg hfar, if_pos hn]

/-- Claim C28. The spawn area contains no water: at every real point within distance
`spawnAreaRadius = 20` of the origin the water noise `sin(0.005 x) * cos(0.005 z)` is at
most 0.1, below the water threshold 0.7, so `isWaterArea` is false there; in every
reachable terrain state such a point is within the spawn area and has the spawn height
2, and no point at all is both within the spawn area and a water point. -/
theorem spawn_area_has_no_water (x z : ℝ)
    (h : realMath.sqrt (x ^ 2 + z ^ 2) ≤ spawnAreaRadius) :
    realMath.sin (x * 0.005) * realMath.cos (z * 0.005) ≤ 0.1 ∧
    (0.1 : ℝ) < 0.7 ∧
    isWaterArea realMath x z = false ∧
    (∀ t : TerrainSystem ℝ, Reachable t →
      isWithinSpawnArea realMath t x z = true ∧ getPerlinHeight realMath t x z = 2) ∧
    (∀ (t : TerrainSystem ℝ) (x1 z1 : ℝ), Reachable t →
      ¬ (isWithinSpawnArea realMath t x1 z1 = true ∧ isWaterArea realMath x1 z1 = true)) := by
  have h20 : Real.sqrt (x ^ 2 + z ^ 2) ≤ 20 := by
    simpa [realMath, spawnAreaRadius] using h
  have hn := noise_near_origin x z h20
  refine ⟨by simpa [realMath] using hn, by norm_num, ?_, ?_, ?_⟩
  · have : ¬ (Real.sin (x * 0.005) * Real.cos (z * 0.005) > 0.7) := by
      norm_num at hn ⊢
      linarith
    simpa [isWaterArea, realMath] using this
  · intro t ht
    obtain ⟨hx, hz, _⟩ := ht.spawn
    constructor
    · simpa [isWithinSpawnArea, realMath, spawnAreaRadius, hx, hz] using h20
    · rw [getPerlinHeight_real ht, if_pos h20]
  · intro t x1 z1 ht hboth
    obtain ⟨hx, hz, _⟩ := ht.spawn
    have hnear : Real.sqrt (x1 ^ 2 + z1 ^ 2) ≤ 20 := by
      simpa [isWithinSpawnArea, realMath, spawnAreaRadius, hx, hz] using hboth.1
    exact (height_of_water ht x1 z1 hboth.2).1 hnear

/-- The claim at the point `(12, 16)`, at distance 20 from the origin. -/
theorem spawn_area_has_no_water_witness :
    realMath.sqrt ((12 : ℝ) ^ 2 + 16 ^ 2) ≤ spawnAreaRadius ∧
    isWaterArea realMath (12 : ℝ) 16 = false :=
  have h : realMath.sqrt ((12 : ℝ) ^ 2 + 16 ^ 2) ≤ spawnAreaRadius := by
    simp only [realMath, spawnAreaRadius]
    rw [Real.sqrt_le_left (by norm_num)]
    norm_num
  ⟨h, (spawn_area_has_no_water 12 16 h).2.2.1⟩

/-- Claim C25. Swimming pins the camera to a fixed height: in every reachable terrain
state, after the `update()` frame of a living player that is not flying and is in water
(`isWaterArea(x, z)` and `y <= waterHeight + 1`), whatever the jump key and the
animation ratio, the camera height is `waterHeight + 1 = 2`: the terrain height at the
camera is the water height 1, and the floor clamp `y <= terrainHeight + 1` is taken. -/
theorem swimming_pins_camera (e : FrameEnv ℝ) (g : Game ℝ)
    (hr : Reachable g.terrainSystem)
    (hlive : g.playerSystem.isDead = false) (hfly : g.playerSystem.isFlying = false)
    (hwater : inWater realMath g.playerSystem = true) :
    g.terrainSystem.getPerlinHeight realMath g.playerSystem.camera.position.x
      g.playerSystem.camera.position.z = 1 ∧
    g.playerSystem.camera.position.y ≤
      g.terrainSystem.getPerlinHeight realMath g.playerSystem.camera.position.x
        g.playerSystem.camera.position.z + 1 ∧
    (update realMath e g).playerSystem.camera.position.y = waterHeight + 1 ∧
    (update realMath e g).playerSystem.camera.position.y = 2 := by
  have hw := hwater
  unfold inWater at hw
  rw [Bool.and_eq_true, decide_eq_true_eq] at hw
  have hh := (height_of_water hr _ _ hw.1).2
  have hy : g.playerSystem.camera.position.y ≤
      g.terrainSystem.getPerlinHeight realMath g.playerSystem.camera.position.x
        g.playerSystem.camera.position.z + 1 := by
    rw [hh]
    have := hw.2
    unfold waterHeight at this
    norm_num at this ⊢
    linarith
  have hu := update_swimming_y realMath e g hlive hfly hwater
  rw [if_pos hy, hh] at hu
  refine ⟨hh, hy, ?_, ?_⟩
  · rw [hu]; unfold waterHeight; norm_num
  · rw [hu]; norm_num

/-- The swimming frame at `(200, 1.5, 0)` with the jump key up and animation ratio 1. -/
theorem swimming_pins_camera_witness :
    inWater realMath (Game.cameraAt ⟨200, 1.5, 0⟩ (Game.new : Game ℝ)).playerSystem = true ∧
    (update realMath ⟨1, 0, fun _ => (0, 0)⟩
      (Game.cameraAt ⟨200, 1.5, 0⟩ (Game.new : Game ℝ))).playerSystem.camera.position.y
      = 2 := by
  obtain ⟨c1, c2, c3, c4, c5, c6⟩ := Game.cameraAt_new (⟨200, 1.5, 0⟩ : Vec3 ℝ)
  have hw : inWater realMath
      (Game.cameraAt ⟨200, 1.5, 0⟩ (Game.new : Game ℝ)).playerSystem = true := by
    unfold inWater
    rw [c2]
    simp only [TerrainSystem.isWaterArea_at_200, TerrainSystem.waterHeight]
    norm_num
  have ht : Reachable (Game.cameraAt ⟨200, 1.5, 0⟩ (Game.new : Game ℝ)).terrainSystem := by
    rw [c1]; exact Reachable.init
  exact ⟨hw, (swimming_pins_camera ⟨1, 0, fun _ => (0, 0)⟩
    (Game.cameraAt ⟨200, 1.5, 0⟩ (Game.new : Game ℝ)) ht c3 c4 hw).2.2.2⟩

end WaterProofs

section StandingProofs

open TerrainSystem PlayerSystem

variable {α : Type} [LinearOrderedField α]

/-- In a reachable terrain state every height is at least 1, whatever the sine and
cosine are. -/
theorem TerrainSystem.getPerlinHeight_ge_one [FloorRing α] (M : JSMath α) {t : TerrainSystem α}
    (h : Reachable t) (x z : α) : 1 ≤ getPerlinHeight M t x z := by
  obtain ⟨_, _, hh⟩ := h.spawn
  unfold getPerlinHeight
  simp only []
  split_ifs
  · rw [hh]; norm_num
  · unfold waterHeight; norm_num
  · exact le_trans (by norm_num) (le_max_left _ _)

/-- In a reachable terrain state the height is 2 where the distance to the origin is at
most 20. -/
theorem TerrainSystem.getPerlinHeight_near [FloorRing α] (M : JSMath α) {t : TerrainSystem α}
    (h : Reachable t) (x z : α) (hd : M.sqrt (x ^ 2 + z ^ 2) ≤ 20) :
    getPerlinHeight M t x z = 2 := by
  obtain ⟨hx, hz, hh⟩ := h.spawn
  unfold getPerlinHeight
  simp only [hx, hz, sub_zero, spawnAreaRadius]
  rw [if_pos hd, hh]

/-- A camera above `waterHeight + 1` is not in water. -/
theorem PlayerSystem.inWater_of_high (M : JSMath α) (p : PlayerSystem α)
    (h : waterHeight + 1 < p.camera.position.y) : inWater M p = false := by
  unfold inWater
  rw [Bool.and_eq_false_iff]
  right
  exact decide_eq_false (not_le.mpr h)

/-- The movement branches of `update` leave the swimming flag alone. -/
theorem PlayerSystem.updateMovement_isSwimming (M : JSMath α) (t : TerrainSystem α)
    (e : FrameEnv α) (x y z : α) (p : PlayerSystem α) :
    (updateMovement M t e x y z p).isSwimming = p.isSwimming := by
  unfold updateMovement updateFlying updateSwimming updateAirborne updateGrounded
  simp only []
  split_ifs <;> simp [setY, takeDamage_isSwimming]

/-- After the frame of a living player the swimming flag is the water test of its
start, and out of water the oxygen is refilled up to the maximum. -/
theorem PlayerSystem.updateAlive_isSwimming (M : JSMath α) (t : TerrainSystem α)
    (e : FrameEnv α) (p : PlayerSystem α) :
    (updateAlive M t e p).isSwimming = inWater M p ∧
    (inWater M p = false → (updateAlive M t e p).oxygenLevel =
      min maxOxygen (p.oxygenLevel + oxygenRefillRate * e.deltaTime)) := by
  constructor
  · rw [updateAlive_eq M t e p _ rfl, updateMovement_isSwimming, updateOxygen_isSwimming]
  · intro hw
    rw [updateAlive_eq M t e p _ hw, updateMovement_oxygenLevel]
    exact ((updateOxygen_spec e.deltaTime _).2 rfl).1

/-- The frame of a living player that is neither flying nor in water and is grounded,
or at most 2 above the terrain, leaves the camera 2 above the terrain and the player
grounded and not swimming. -/
theorem PlayerSystem.updateAlive_lands (M : JSMath α) (t : TerrainSystem α) (e : FrameEnv α)
    (p : PlayerSystem α) (hfly : p.isFlying = false) (hwater : inWater M p = false)
    (hland : p.isGrounded = true ∨
      p.camera.position.y ≤ t.getPerlinHeight M p.camera.position.x p.camera.position.z + 2) :
    (updateAlive M t e p).camera.position.y =
      t.getPerlinHeight M p.camera.position.x p.camera.position.z + 2 ∧
    (updateAlive M t e p).isGrounded = true ∧
    (updateAlive M t e p).camera.position.x = p.camera.position.x ∧
    (updateAlive M t e p).camera.position.z = p.camera.position.z := by
  rw [updateAlive_eq M t e p false hwater, updateOxygen_of_not_swimming _ _ rfl]
  unfold updateMovement
  simp only [setSpeed, hfly, Bool.false_eq_true, if_false]
  cases hg : p.isGrounded
  · have hy : p.camera.position.y ≤
        t.getPerlinHeight M p.camera.position.x p.camera.position.z + 2 := by
      rcases hland with h | h
      · rw [hg] at h; cases h
      · exact h
    simp only [Bool.not_false, if_true]
    unfold updateAirborne
    simp only [hy, if_true, setY]
    split_ifs <;> simp
  · simp [updateGrounded, setY]

/-- Claim C26. A jump from standing gains no height: in every reachable terrain state,
for a living player that is not flying and is grounded with the camera 2 above the
terrain, `jump()` followed by one `update()` at the same place, whatever the animation
ratio, leaves the player grounded again (`isGrounded` true, `isJumping` false,
`jumpCount` 0, `canDoubleJump` false) with the camera 2 above the terrain and health
and death flag unchanged: the landing test reads the height of the start of the
frame. -/
theorem jump_from_standing [FloorRing α] (M : JSMath α) (e : FrameEnv α) (now : Int)
    (g : Game α) (hr : Reachable g.terrainSystem)
    (hlive : g.playerSystem.isDead = false) (hfly : g.playerSystem.isFlying = false)
    (hg : g.playerSystem.isGrounded = true)
    (hy : g.playerSystem.camera.position.y =
      g.terrainSystem.getPerlinHeight M g.playerSystem.camera.position.x
        g.playerSystem.camera.position.z + 2) :
    (g.playerSystem.jump now).isGrounded = false ∧
    (g.playerSystem.jump now).isJumping = true ∧
    (g.playerSystem.jump now).jumpVelocity = jumpHeight ∧
    (update M e { g with playerSystem := g.playerSystem.jump now }).playerSystem.isGrounded
      = true ∧
    (update M e { g with playerSystem := g.playerSystem.jump now }).playerSystem.isJumping
      = false ∧
    (update M e { g with playerSystem := g.playerSystem.jump now }).playerSystem.jumpCount
      = 0 ∧
    (update M e { g with playerSystem := g.playerSystem.jump now }).playerSystem.canDoubleJump
      = false ∧
    (update M e { g with playerSystem := g.playerSystem.jump now }).playerSystem.camera.position
      = { g.playerSystem.camera.position with
          y := g.terrainSystem.getPerlinHeight M g.playerSystem.camera.position.x
            g.playerSystem.camera.position.z + 2 } ∧
    (update M e { g with playerSystem := g.playerSystem.jump now }).playerSystem.health
      = g.playerSystem.health ∧
    (update M e { g with playerSystem := g.playerSystem.jump now }).playerSystem.isDead
      = false := by
  have h1 := getPerlinHeight_ge_one M hr g.playerSystem.camera.position.x
    g.playerSystem.camera.position.z
  have hj : g.playerSystem.jump now =
      { g.playerSystem with isJumping := true, isGrounded := false, jumpVelocity := jumpHeight,
                            jumpCount := 1, jumpTimer := now, canDoubleJump := true } := by
    unfold jump
    rw [if_pos hg]
  have hw : inWater M (g.playerSystem.jump now) = false := by
    apply inWater_of_high
    rw [hj]
    simp only []
    rw [hy]
    unfold waterHeight
    norm_num
    linarith
  have hv : ¬ ((jumpHeight : α) - gravity < -10) := by
    unfold jumpHeight gravity
    norm_num
  refine ⟨by rw [hj], by rw [hj], by rw [hj], ?_⟩
  rw [update_alive M e _ (by rw [hj]; exact hlive)]
  simp only []
  rw [updateAlive_airborne M _ e _ (by rw [hj]; exact hfly) hw (by rw [hj]),
    updateOxygen_of_not_swimming _ _ rfl]
  rw [hj]
  unfold updateAirborne
  simp only [setSpeed, setY, hy, le_refl, if_true, hv, and_false, if_false]
  exact ⟨trivial, trivial, trivial, trivial, trivial, trivial, hlive⟩

/-- The jump at the spawn point, where the terrain height is 2 and the standing camera
height 4, with animation ratio 1. -/
theorem jump_from_standing_witness :
    (update (⟨fun _ => 0, fun _ => 1, fun x => x, 3⟩ : JSMath ℚ) ⟨1, 0, fun _ => (0, 0)⟩
      { Game.cameraAt ⟨0, 4, 0⟩ (Game.new : Game ℚ) with
        playerSystem := (Game.cameraAt ⟨0, 4, 0⟩ (Game.new : Game ℚ)).playerSystem.jump 0
      }).playerSystem.camera.position = ⟨0, 4, 0⟩ := by
  obtain ⟨c1, c2, c3, c4, c5, c6⟩ := Game.cameraAt_new (⟨0, 4, 0⟩ : Vec3 ℚ)
  have ht : Reachable (Game.cameraAt ⟨0, 4, 0⟩ (Game.new : Game ℚ)).terrainSystem := by
    rw [c1]; exact Reachable.init
  have hh : (Game.cameraAt ⟨0, 4, 0⟩ (Game.new : Game ℚ)).terrainSystem.getPerlinHeight
      (⟨fun _ => 0, fun _ => 1, fun x => x, 3⟩ : JSMath ℚ) 0 0 = 2 :=
    getPerlinHeight_near _ ht 0 0 (by norm_num)
  have h := (jump_from_standing (⟨fun _ => 0, fun _ => 1, fun x => x, 3⟩ : JSMath ℚ)
    ⟨1, 0, fun _ => (0, 0)⟩ 0 (Game.cameraAt ⟨0, 4, 0⟩ (Game.new : Game ℚ)) ht c3 c4 c5
    (by rw [c2]; simp only []; rw [hh]; norm_num)).2.2.2.2.2.2.2.1
  rw [h, c2]
  simp only []
  rw [hh]
  norm_num

/-- Claim C27. A grounded player cannot walk into swimming: in every reachable terrain
state, the `update()` frame of a living player that is not flying and not in water and
is grounded, or lands (the camera at most 2 above the terrain), leaves the camera 2
above the terrain, which is at least 3 and above `waterHeight + 1`; so wherever the
camera is moved horizontally before the next `update()`, that frame finds the player
out of water, leaves `isSwimming` false and depletes no oxygen: the oxygen is refilled
up to the maximum, or untouched if the landing killed the player. -/
theorem grounded_never_swims [FloorRing α] (M : JSMath α) (e e2 : FrameEnv α) (g : Game α)
    (x2 z2 : α) (hr : Reachable g.terrainSystem)
    (hlive : g.playerSystem.isDead = false) (hfly : g.playerSystem.isFlying = false)
    (hwater : inWater M g.playerSystem = false)
    (hland : g.playerSystem.isGrounded = true ∨
      g.playerSystem.camera.position.y ≤
        g.terrainSystem.getPerlinHeight M g.playerSystem.camera.position.x
          g.playerSystem.camera.position.z + 2) :
    (update M e g).playerSystem.camera.position.y =
      g.terrainSystem.getPerlinHeight M g.playerSystem.camera.position.x
        g.playerSystem.camera.position.z + 2 ∧
    3 ≤ (update M e g).playerSystem.camera.position.y ∧
    waterHeight + 1 < (update M e g).playerSystem.camera.position.y ∧
    inWater M (Game.cameraAt ⟨x2, (update M e g).playerSystem.camera.position.y, z2⟩
      (update M e g)).playerSystem = false ∧
    (update M e2 (Game.cameraAt ⟨x2, (update M e g).playerSystem.camera.position.y, z2⟩
      (update M e g))).playerSystem.isSwimming = false ∧
    (update M e2 (Game.cameraAt ⟨x2, (update M e g).playerSystem.camera.position.y, z2⟩
      (update M e g))).playerSystem.oxygenLevel =
      (if (update M e g).playerSystem.isDead = true
        then (update M e g).playerSystem.oxygenLevel
        else min maxOxygen
          ((update M e g).playerSystem.oxygenLevel + oxygenRefillRate * e2.deltaTime)) ∧
    (0 ≤ e2.deltaTime → (update M e g).playerSystem.oxygenLevel ≤ maxOxygen →
      (update M e g).playerSystem.oxygenLevel ≤
        (update M e2 (Game.cameraAt ⟨x2, (update M e g).playerSystem.camera.position.y, z2⟩
          (update M e g))).playerSystem.oxygenLevel) := by
  have h1 := getPerlinHeight_ge_one M hr g.playerSystem.camera.position.x
    g.playerSystem.camera.position.z
  have hy : (update M e g).playerSystem.camera.position.y =
      g.terrainSystem.getPerlinHeight M g.playerSystem.camera.position.x
        g.playerSystem.camera.position.z + 2 := by
    rw [update_alive M e g hlive]
    exact (updateAlive_lands M g.terrainSystem e g.playerSystem hfly hwater hland).1
  have hs : (update M e g).playerSystem.isSwimming = false := by
    rw [update_alive M e g hlive]
    exact ((updateAlive_isSwimming M g.terrainSystem e g.playerSystem).1).trans hwater
  have h3 : 3 ≤ (update M e g).playerSystem.camera.position.y := by
    rw [hy]; linarith
  have hhigh : waterHeight + 1 < (update M e g).playerSystem.camera.position.y := by
    unfold waterHeight
    have : ((1.0 : α) + 1) < 3 := by norm_num
    exact lt_of_lt_of_le this h3
  generalize hg1 : update M e g = g1 at hy hs h3 hhigh ⊢
  have hw2 : inWater M (Game.cameraAt ⟨x2, g1.playerSystem.camera.position.y, z2⟩
      g1).playerSystem = false := inWater_of_high M _ hhigh
  have hfin : (update M e2 (Game.cameraAt ⟨x2, g1.playerSystem.camera.position.y, z2⟩
        g1)).playerSystem.isSwimming = false ∧
      (update M e2 (Game.cameraAt ⟨x2, g1.playerSystem.camera.position.y, z2⟩
        g1)).playerSystem.oxygenLevel =
      (if g1.playerSystem.isDead = true then g1.playerSystem.oxygenLevel
        else min maxOxygen (g1.playerSystem.oxygenLevel + oxygenRefillRate * e2.deltaTime)) := by
    cases hd : g1.playerSystem.isDead
    · have hd2 : (Game.cameraAt ⟨x2, g1.playerSystem.camera.position.y, z2⟩
          g1).playerSystem.isDead = false := hd
      rw [update_alive M e2 _ hd2]
      simp only [Bool.false_eq_true, if_false]
      obtain ⟨a, b⟩ := updateAlive_isSwimming M
        (Game.cameraAt ⟨x2, g1.playerSystem.camera.position.y, z2⟩ g1).terrainSystem e2
        (Game.cameraAt ⟨x2, g1.playerSystem.camera.position.y, z2⟩ g1).playerSystem
      exact ⟨a.trans hw2, b hw2⟩
    · have hd2 : (Game.cameraAt ⟨x2, g1.playerSystem.camera.position.y, z2⟩
          g1).playerSystem.isDead = true := hd
      rw [update_dead M e2 _ hd2]
      simp only [if_true]
      cases hl : (Game.cameraAt ⟨x2, g1.playerSystem.camera.position.y, z2⟩
          g1).playerSystem.lootDropped
      · rw [(handleDeath_spec e2 _).1 hl]
        exact ⟨hs, rfl⟩
      · rw [(handleDeath_spec e2 _).2 hl]
        exact ⟨hs, rfl⟩
  refine ⟨hy, h3, hhigh, hw2, hfin.1, hfin.2, ?_⟩
  intro hdt hox
  rw [hfin.2]
  split_ifs
  · exact le_refl _
  · refine le_min hox ?_
    have : (0 : α) ≤ oxygenRefillRate * e2.deltaTime := by
      unfold oxygenRefillRate
      exact mul_nonneg (by norm_num) hdt
    linarith

/-- The grounded frame at the spawn point with animation ratio 1, followed by a frame
with the camera moved to `(200, 4, 0)`. -/
theorem grounded_never_swims_witness :
    (update (⟨fun _ => 0, fun _ => 1, fun x => x, 3⟩ : JSMath ℚ) ⟨1, 0, fun _ => (0, 0)⟩
      (Game.cameraAt ⟨200, (update (⟨fun _ => 0, fun _ => 1, fun x => x, 3⟩ : JSMath ℚ)
          ⟨1, 0, fun _ => (0, 0)⟩
          (Game.cameraAt ⟨0, 4, 0⟩ (Game.new : Game ℚ))).playerSystem.camera.position.y, 0⟩
        (update (⟨fun _ => 0, fun _ => 1, fun x => x, 3⟩ : JSMath ℚ) ⟨1, 0, fun _ => (0, 0)⟩
          (Game.cameraAt ⟨0, 4, 0⟩ (Game.new : Game ℚ))))).playerSystem.isSwimming = false := by
  obtain ⟨c1, c2, c3, c4, c5, c6⟩ := Game.cameraAt_new (⟨0, 4, 0⟩ : Vec3 ℚ)
  have ht : Reachable (Game.cameraAt ⟨0, 4, 0⟩ (Game.new : Game ℚ)).terrainSystem := by
    rw [c1]; exact Reachable.init
  have hw : inWater (⟨fun _ => 0, fun _ => 1, fun x => x, 3⟩ : JSMath ℚ)
      (Game.cameraAt ⟨0, 4, 0⟩ (Game.new : Game ℚ)).playerSystem = false := by
    apply inWater_of_high
    rw [c2]
    unfold waterHeight
    norm_num
  exact (grounded_never_swims (⟨fun _ => 0, fun _ => 1, fun x => x, 3⟩ : JSMath ℚ)
    ⟨1, 0, fun _ => (0, 0)⟩ ⟨1, 0, fun _ => (0, 0)⟩
    (Game.cameraAt ⟨0, 4, 0⟩ (Game.new : Game ℚ)) 200 0 ht c3 c4 hw (Or.inl c5)).2.2.2.2.1

end StandingProofs

section DeathLootProofs

open InventorySystem

/-- What `dropAllItems` does to any inventory: a counter above 0 is cleared, any other
counter stays, and one bag is appended for each counter above 0. -/
theorem InventorySystem.dropAllItems_any {α : Type} [LinearOrderedField α]
    (position : Vec3 α) (now : Int) (scatter : ItemType → α × α) (s : InventorySystem α) :
    (∀ k : ItemType, (dropAllItems position now scatter s).inventory.get k =
      if s.inventory.get k > 0 then 0 else s.inventory.get k) ∧
    (dropAllItems position now scatter s).droppedItems =
      s.droppedItems ++
        ([ItemType.wood, ItemType.stone, ItemType.planks, ItemType.tools].filter
          (fun k => decide (s.inventory.get k > 0))).map
          (lootBagOf position now scatter s.inventory) := by
  obtain ⟨⟨w, st, pl, tl⟩, objs, items⟩ := s
  unfold dropAllItems
  simp only [List.foldl_cons, List.foldl_nil]
  by_cases h1 : w > 0 <;> by_cases h2 : st > 0 <;> by_cases h3 : pl > 0 <;>
    by_cases h4 : tl > 0 <;>
    refine ⟨fun k => by cases k <;>
      simp [dropRound, createLootBag, Inventory.get, Inventory.set, h1, h2, h3, h4], ?_⟩ <;>
    simp [dropRound, createLootBag, lootBagOf, Inventory.get, Inventory.set, List.filter,
      h1, h2, h3, h4]

/-- What `checkForLoot` does: the items out of range are kept in their order, every
counter grows by the counts of the items of its type in range. -/
theorem InventorySystem.checkForLoot_loop {α : Type} [LinearOrderedField α] (M : JSMath α)
    (playerPos : Vec3 α) (s : InventorySystem α) :
    (checkForLoot M playerPos s).droppedItems =
      s.droppedItems.filter
        (fun item => !decide (Vec3.distance M playerPos item.position ≤ 3)) ∧
    (∀ k : ItemType, (checkForLoot M playerPos s).inventory.get k =
      s.inventory.get k + ((s.droppedItems.filter (fun item =>
        decide (Vec3.distance M playerPos item.position ≤ 3) &&
          decide (item.itemType = k))).map (fun item => item.count)).sum) := by
  unfold checkForLoot
  split_ifs with h0
  · have hnil : s.droppedItems = [] := List.length_eq_zero.mp h0
    simp [hnil]
  · obtain ⟨h1, h2, _⟩ := lootLoop_spec M playerPos s.droppedItems
      { s with droppedItems := [] }
    refine ⟨?_, h2⟩
    rw [h1]
    simp

/-- An inventory is its four counters. -/
theorem Inventory.eq_of_get (a b : Inventory) (h : ∀ k : ItemType, a.get k = b.get k) :
    a = b := by
  obtain ⟨w, st, pl, tl⟩ := a
  obtain ⟨w', st', pl', tl'⟩ := b
  have h1 := h ItemType.wood
  have h2 := h ItemType.stone
  have h3 := h ItemType.planks
  have h4 := h ItemType.tools
  simp only [Inventory.get] at h1 h2 h3 h4
  rw [h1, h2, h3, h4]

/-- A bag dropped at a position with scatter values in `[0, 1)` lies within `sqrt 2` of
that position. -/
theorem InventorySystem.lootBag_near (p : Vec3 ℝ) (now : Int) (scatter : ItemType → ℝ × ℝ)
    (inv : Inventory) (k : ItemType)
    (hs : (0 ≤ (scatter k).1 ∧ (scatter k).1 < 1) ∧ (0 ≤ (scatter k).2 ∧ (scatter k).2 < 1)) :
    Vec3.distance realMath p (lootBagOf p now scatter inv k).position ≤ Real.sqrt 2 := by
  obtain ⟨⟨a0, a1⟩, b0, b1⟩ := hs
  unfold Vec3.distance lootBagOf realMath
  simp only []
  apply Real.sqrt_le_sqrt
  have e1 : (p.x - (p.x + ((scatter k).1 - 0.5) * 2)) ^ 2 = (2 * (scatter k).1 - 1) ^ 2 := by
    ring
  have e2 : (p.z - (p.z + ((scatter k).2 - 0.5) * 2)) ^ 2 = (2 * (scatter k).2 - 1) ^ 2 := by
    ring
  rw [e1, e2, sub_self]
  nlinarith

theorem InventorySystem.sqrt_two_in_range : Real.sqrt 2 < (pickupRange : ℝ) := by
  unfold pickupRange
  rw [Real.sqrt_lt' (by norm_num)]
  norm_num

/-- Claim C24. Dying costs the player no inventory within the frame: for every
inventory system, camera position `p` and scatter values in `[0, 1)`, every bag
`dropAllItems(p)` creates lies within `sqrt 2 < pickupRange = 3` of `p`, so the
`checkForLoot()` that follows with the camera still at `p` (as in the frame of a dead
player, where `InventorySystem.update` runs right after `PlayerSystem.update`) picks
all of them up: the dropped items left are the older ones out of range, every counter
is its value before the drop plus the counts of the older bags of its type in range,
hence at least that value when no older bag has a negative count, and exactly that
value when no older bag is in range. -/
theorem death_costs_no_inventory (p : Vec3 ℝ) (now : Int) (scatter : ItemType → ℝ × ℝ)
    (s : InventorySystem ℝ)
    (hs : ∀ k : ItemType,
      (0 ≤ (scatter k).1 ∧ (scatter k).1 < 1) ∧ (0 ≤ (scatter k).2 ∧ (scatter k).2 < 1)) :
    (∀ k : ItemType,
      Vec3.distance realMath p (lootBagOf p now scatter s.inventory k).position ≤ Real.sqrt 2) ∧
    Real.sqrt 2 < (pickupRange : ℝ) ∧
    (checkForLoot realMath p (dropAllItems p now scatter s)).droppedItems =
      s.droppedItems.filter
        (fun item => !decide (Vec3.distance realMath p item.position ≤ 3)) ∧
    (∀ k : ItemType,
      (checkForLoot realMath p (dropAllItems p now scatter s)).inventory.get k =
        s.inventory.get k + ((s.droppedItems.filter (fun item =>
          decide (Vec3.distance realMath p item.position ≤ 3) &&
            decide (item.itemType = k))).map (fun item => item.count)).sum) ∧
    ((∀ item ∈ s.droppedItems, 0 ≤ item.count) → ∀ k : ItemType,
      s.inventory.get k ≤
        (checkForLoot realMath p (dropAllItems p now scatter s)).inventory.get k) ∧
    ((∀ item ∈ s.droppedItems, ¬ (Vec3.distance realMath p item.position ≤ 3)) →
      (checkForLoot realMath p (dropAllItems p now scatter s)).inventory = s.inventory) ∧
    (∀ (g : Game ℝ) (e : FrameEnv ℝ), g.playerSystem.isDead = true →
      g.playerSystem.lootDropped = false → g.inventorySystem = s →
      g.playerSystem.camera.position = p → e.now = now → e.scatter = scatter →
      (PlayerSystem.update realMath e g).playerSystem.camera.position = p ∧
      (PlayerSystem.update realMath e g).inventorySystem = dropAllItems p now scatter s ∧
      InventorySystem.update realMath
        (PlayerSystem.update realMath e g).playerSystem.camera.position
        (PlayerSystem.update realMath e g).inventorySystem =
        checkForLoot realMath p (dropAllItems p now scatter s)) := by
  have hnear : ∀ k : ItemType,
      Vec3.distance realMath p (lootBagOf p now scatter s.inventory k).position ≤ 3 := by
    intro k
    have h1 := lootBag_near p now scatter s.inventory k (hs k)
    have h2 := sqrt_two_in_range
    unfold pickupRange at h2
    linarith
  obtain ⟨hinv, hdrop⟩ := dropAllItems_any p now scatter s
  obtain ⟨hl1, hl2⟩ := checkForLoot_loop realMath p (dropAllItems p now scatter s)
  have hnew1 : (([ItemType.wood, ItemType.stone, ItemType.planks, ItemType.tools].filter
        (fun k => decide (s.inventory.get k > 0))).map
          (lootBagOf p now scatter s.inventory)).filter
      (fun item => !decide (Vec3.distance realMath p item.position ≤ 3)) = [] := by
    rw [List.filter_eq_nil_iff]
    intro item hmem
    rw [List.mem_map] at hmem
    obtain ⟨k, _, rfl⟩ := hmem
    simp [hnear k]
  have hnew2 : ∀ k : ItemType,
      (([ItemType.wood, ItemType.stone, ItemType.planks, ItemType.tools].filter
        (fun k => decide (s.inventory.get k > 0))).map
          (lootBagOf p now scatter s.inventory)).filter
        (fun item => decide (Vec3.distance realMath p item.position ≤ 3) &&
          decide (item.itemType = k)) =
      if s.inventory.get k > 0 then [lootBagOf p now scatter s.inventory k] else [] := by
    intro k
    rw [← newBags_of_type p now scatter s.inventory k]
    apply List.filter_congr
    intro item hmem
    rw [List.mem_map] at hmem
    obtain ⟨k', _, rfl⟩ := hmem
    simp [hnear k']
  have hget : ∀ k : ItemType,
      (checkForLoot realMath p (dropAllItems p now scatter s)).inventory.get k =
        s.inventory.get k + ((s.droppedItems.filter (fun item =>
          decide (Vec3.distance realMath p item.position ≤ 3) &&
            decide (item.itemType = k))).map (fun item => item.count)).sum := by
    intro k
    rw [hl2 k, hinv k, hdrop, List.filter_append, List.map_append, List.sum_append, hnew2 k]
    by_cases hk : s.inventory.get k > 0
    · simp only [hk, if_true, List.map_cons, List.map_nil, List.sum_cons, List.sum_nil,
        lootBagOf]
      omega
    · simp only [hk, if_false, List.map_nil, List.sum_nil]
      omega
  refine ⟨fun k => lootBag_near p now scatter s.inventory k (hs k), sqrt_two_in_range, ?_,
    hget, ?_, ?_, ?_⟩
  · rw [hl1, hdrop, List.filter_append, hnew1, List.append_nil]
  · intro hold k
    rw [hget k]
    have : 0 ≤ ((s.droppedItems.filter (fun item =>
        decide (Vec3.distance realMath p item.position ≤ 3) &&
          decide (item.itemType = k))).map (fun item => item.count)).sum := by
      apply List.sum_nonneg
      intro c hc
      rw [List.mem_map] at hc
      obtain ⟨item, hitem, rfl⟩ := hc
      exact hold item (List.mem_of_mem_filter hitem)
    omega
  · intro hfar
    apply Inventory.eq_of_get
    intro k
    rw [hget k]
    have : s.droppedItems.filter (fun item =>
        decide (Vec3.distance realMath p item.position ≤ 3) &&
          decide (item.itemType = k)) = [] := by
      rw [List.filter_eq_nil_iff]
      intro item hmem
      simp [hfar item hmem]
    rw [this]
    simp
  · intro g e hdead hloot hinvs hpos hnow hsc
    rw [PlayerSystem.update_dead realMath e g hdead, (PlayerSystem.handleDeath_spec e g).1 hloot]
    simp only [InventorySystem.update]
    rw [hinvs, hpos, hnow, hsc]
    exact ⟨rfl, rfl, rfl⟩

/-- The claim for an inventory of 2 wood and 1 tool and no older bag, dropped at
`(0, 4, 0)` with every scatter value `0.25`. -/
theorem death_costs_no_inventory_witness :
    (checkForLoot realMath ⟨0, 4, 0⟩ (dropAllItems (⟨0, 4, 0⟩ : Vec3 ℝ) 0 (fun _ => (0.25, 0.25))
      { inventory := { wood := 2, stone := 0, planks := 0, tools := 1 },
        harvestableObjects := [], droppedItems := [] })).inventory =
      { wood := 2, stone := 0, planks := 0, tools := 1 } :=
  (death_costs_no_inventory (⟨0, 4, 0⟩ : Vec3 ℝ) 0 (fun _ => (0.25, 0.25))
    { inventory := { wood := 2, stone := 0, planks := 0, tools := 1 },
      harvestableObjects := [], droppedItems := [] }
    (fun _ => by norm_num)).2.2.2.2.2.1 (fun _ h => by cases h)

end DeathLootProofs

section ExperienceProofs

open CombatSystem

/-- A gain of at most 100 experience keeps the experience from 0 up to below the
threshold, the threshold being at least 100. -/
theorem CombatSystem.gainExperience_below (amount : Int) (c : CombatSystem)
    (h0 : 0 ≤ amount) (h1 : amount ≤ 100)
    (h : 0 ≤ c.experience ∧ c.experience < c.expToNextLevel ∧ 100 ≤ c.expToNextLevel) :
    0 ≤ (gainExperience amount c).experience ∧
    (gainExperience amount c).experience < (gainExperience amount c).expToNextLevel ∧
    100 ≤ (gainExperience amount c).expToNextLevel := by
  obtain ⟨ha, hb, hc⟩ := h
  by_cases hx : c.experience + amount ≥ c.expToNextLevel
  · rw [(gainExperience_eq amount c).1 hx]
    obtain ⟨_, e2, e3, _⟩ := levelUp_fields { c with experience := c.experience + amount }
    rw [e2, e3]
    have hg := (threshold_grows c.expToNextLevel).1 (by omega)
    simp only []
    refine ⟨?_, ?_, ?_⟩ <;> omega
  · rw [(gainExperience_eq amount c).2 (not_le.mp hx)]
    simp only []
    refine ⟨?_, ?_, ?_⟩ <;> omega

/-- One call of `gainExperience` raises the level by one or not at all. -/
theorem CombatSystem.gainExperience_level (amount : Int) (c : CombatSystem) :
    (gainExperience amount c).level = c.level ∨ (gainExperience amount c).level = c.level + 1 := by
  by_cases hx : c.experience + amount ≥ c.expToNextLevel
  · rw [(gainExperience_eq amount c).1 hx]
    exact Or.inr rfl
  · rw [(gainExperience_eq amount c).2 (not_le.mp hx)]
    exact Or.inl rfl

variable {α : Type}

theorem CombatSystem.tryAttack_experience (hit : Option Pick) (g : Game α) :
    (tryAttack hit g).combatSystem.experience = g.combatSystem.experience ∧
    (tryAttack hit g).combatSystem.expToNextLevel = g.combatSystem.expToNextLevel := by
  unfold tryAttack
  split <;> exact ⟨rfl, rfl⟩

variable [LinearOrderedField α]

theorem AnimalSystem.updateAnimals_below (M : JSMath α) (t : TerrainSystem α)
    (wander : Nat → α × α) (i : Nat) (animals : List (Animal α)) (c : CombatSystem)
    (h : 0 ≤ c.experience ∧ c.experience < c.expToNextLevel ∧ 100 ≤ c.expToNextLevel) :
    0 ≤ (AnimalSystem.updateAnimals M t wander i animals c).2.experience ∧
    (AnimalSystem.updateAnimals M t wander i animals c).2.experience <
      (AnimalSystem.updateAnimals M t wander i animals c).2.expToNextLevel ∧
    100 ≤ (AnimalSystem.updateAnimals M t wander i animals c).2.expToNextLevel := by
  induction animals generalizing i with
  | nil => exact h
  | cons animal rest ih =>
    unfold AnimalSystem.updateAnimals
    simp only []
    split_ifs
    · exact gainExperience_below 20 _ (by norm_num) (by norm_num) (ih (i + 1))
    · exact ih (i + 1)

theorem CombatSystem.specialAttack_below (M : JSMath α) (g : Game α)
    (h : 0 ≤ g.combatSystem.experience ∧
      g.combatSystem.experience < g.combatSystem.expToNextLevel ∧
      100 ≤ g.combatSystem.expToNextLevel) :
    0 ≤ (specialAttack M g).combatSystem.experience ∧
    (specialAttack M g).combatSystem.experience <
      (specialAttack M g).combatSystem.expToNextLevel ∧
    100 ≤ (specialAttack M g).combatSystem.expToNextLevel := by
  by_cases hgate : g.combatSystem.isAttacking = true ∨ g.inventorySystem.inventory.tools ≤ 0
  · unfold specialAttack
    rw [if_pos hgate]
    exact h
  · rw [not_or] at hgate
    rw [(specialAttack_run M g (by simpa using hgate.1) (not_le.mp hgate.2)).2.2.2.1]
    split_ifs
    · exact gainExperience_below 10 _ (by norm_num) (by norm_num) h
    · exact h

/-- In every reachable game state the experience is at least 0 and below the
threshold, which is at least 100. -/
theorem Game.Reachable.experience [FloorRing α] {M : JSMath α} {g : Game α}
    (h : Game.Reachable M g) :
    0 ≤ g.combatSystem.experience ∧
    g.combatSystem.experience < g.combatSystem.expToNextLevel ∧
    100 ≤ g.combatSystem.expToNextLevel := by
  induction h with
  | init => simp [Game.new, CombatSystem.new]
  | step _ hs ih =>
    cases hs with
    | playerUpdate e g => rw [PlayerSystem.playerUpdate_combatSystem]; exact ih
    | checkChunkUpdates g => exact ih
    | inventoryUpdate g => exact ih
    | animalUpdate e g =>
      exact AnimalSystem.updateAnimals_below M _ e.wander 0 _ _ ih
    | tryHarvest hit g => exact ih
    | tryAttack hit g =>
      obtain ⟨a, b⟩ := tryAttack_experience hit _
      rw [a, b]; exact ih
    | specialAttack g => exact specialAttack_below M _ ih
    | craftPlanks g => exact ih
    | craftTool g => exact ih
    | dropAllItems position now scatter g => exact ih
    | updateKeyState keyCode isPressed g => exact ih
    | jump now g => exact ih
    | takeDamage amount g => exact ih
    | respawn g => exact ih
    | endAttack g => exact ih
    | cameraMoved position g => exact ih
    | populated objects g => exact ih

/-- Claim C29. Experience stays below the threshold in play: in every reachable game
state, the combat system starting with experience 0 and threshold 100 and the game
calling only `gainExperience(10)` and `gainExperience(20)`, the experience is at least
0 and below `expToNextLevel`, which is at least 100; and this still holds after a
further `gainExperience(10)` or `gainExperience(20)`, although one call raises the
level at most once. -/
theorem experience_below_threshold [FloorRing α] (M : JSMath α) (g : Game α)
    (hr : Game.Reachable M g) :
    (CombatSystem.new.experience = 0 ∧ CombatSystem.new.expToNextLevel = 100) ∧
    0 ≤ g.combatSystem.experience ∧
    g.combatSystem.experience < g.combatSystem.expToNextLevel ∧
    100 ≤ g.combatSystem.expToNextLevel ∧
    ∀ amount : Int, amount = 10 ∨ amount = 20 →
      0 ≤ (gainExperience amount g.combatSystem).experience ∧
      (gainExperience amount g.combatSystem).experience <
        (gainExperience amount g.combatSystem).expToNextLevel ∧
      100 ≤ (gainExperience amount g.combatSystem).expToNextLevel ∧
      ((gainExperience amount g.combatSystem).level = g.combatSystem.level ∨
        (gainExperience amount g.combatSystem).level = g.combatSystem.level + 1) := by
  have h := hr.experience
  refine ⟨⟨rfl, rfl⟩, h.1, h.2.1, h.2.2, ?_⟩
  intro amount ha
  have hb := gainExperience_below amount g.combatSystem (by omega) (by omega) h
  exact ⟨hb.1, hb.2.1, hb.2.2, gainExperience_level amount g.combatSystem⟩

/-- The claim at the constructed game. -/
theorem experience_below_threshold_witness :
    (Game.new : Game ℚ).combatSystem.experience <
      (Game.new : Game ℚ).combatSystem.expToNextLevel :=
  (experience_below_threshold (⟨fun _ => 0, fun _ => 1, fun x => x, 3⟩ : JSMath ℚ)
    Game.new Game.Reachable.init).2.2.1

/-- Claim C30. `levelUp()` changes only fields of the combat system: the player
system, with the `health` that `takeDamage` reduces and that decides death, is the same
after `levelUp()` as before it, and so it is after the game calls that can level up,
`gainExperience` in `specialAttack()` and in `AnimalSystem.update()`; its `maxHealth`,
to which `respawn()` resets the health, is the constant 100. What rises by 20 and is
refilled is the combat system's own `maxHealth` and `health`. -/
theorem levelUp_keeps_player (M : JSMath α) (e : AnimalEnv α) (g : Game α) :
    (Game.levelUp g).playerSystem = g.playerSystem ∧
    (Game.levelUp g).playerSystem.health = g.playerSystem.health ∧
    (Game.levelUp g).playerSystem.isDead = g.playerSystem.isDead ∧
    (PlayerSystem.maxHealth : α) = 100 ∧
    (∀ amount : α, (Game.levelUp g).playerSystem.takeDamage amount =
      g.playerSystem.takeDamage amount) ∧
    ((Game.levelUp g).playerSystem.respawn (Game.levelUp g).terrainSystem).health = 100 ∧
    (Game.levelUp g).combatSystem.maxHealth = g.combatSystem.maxHealth + 20 ∧
    (Game.levelUp g).combatSystem.health = g.combatSystem.maxHealth + 20 ∧
    (specialAttack M g).playerSystem = g.playerSystem ∧
    (AnimalSystem.update M e g).playerSystem = g.playerSystem :=
  ⟨rfl, rfl, rfl, rfl, fun _ => rfl, rfl, rfl, rfl, specialAttack_playerSystem M g,
    AnimalSystem.animalUpdate_playerSystem M e g⟩

end ExperienceProofs

end SurvivalGame
